import Mathlib

/-!
The iprohc tunnel: routing fabric, address-range width, supervisor loop of the
server, and the client.

A shallow embedding of `src/src/server/server.c` and `src/src/client/client.c`.

Conventions of the embedding:

* a byte is a `Nat` (below 256), a buffer is a `List Nat`;
* an `in_addr_t` word is kept as its four bytes in memory order, which is
  network byte order, so that loading a word from a packet buffer and
  comparing two words do not depend on the endianness of the host;
* file descriptors, return codes and seconds are `Int`;
* the results of system calls and of functions of the repository that are
  declared in headers outside `server.c` are inputs of the model;
* of the `trace(...)` calls only those that report an error or a warning on
  a path of their own are kept, as events; logging has no other effect;
* the threads are modelled one at a time: `route_step` is one pass of a
  routing thread over a slot table that does not change meanwhile, and the
  main loop sees the slots as the previous step of the model left them.
-/

namespace Iprohc

/-! ## Data model -/

/-- The type `in_addr_t`: a 32-bit word in network byte order, kept as its four
bytes in memory order (`b0` is the byte at the lowest address). -/
structure in_addr_t where
  b0 : Nat
  b1 : Nat
  b2 : Nat
  b3 : Nat
deriving DecidableEq, Repr

/-- The C type `struct in_addr`. -/
structure in_addr where
  s_addr : in_addr_t
deriving DecidableEq, Repr

/-- The enumeration `iprohc_tunnel_status_t` (declared in `rohc_tunnel.h`). -/
inductive iprohc_tunnel_status_t where
  | IPROHC_TUNNEL_PENDING_DELETE
  | IPROHC_TUNNEL_CONNECTING
  | IPROHC_TUNNEL_CONNECTED
deriving DecidableEq, Repr

/-- The C type `struct timeval`, reduced to the field the server reads. -/
structure timeval where
  tv_sec : Int
deriving DecidableEq, Repr

/-- The fields of `struct tunnel_params` used by the server loop. -/
structure tunnel_params where
  keepalive_timeout : Nat
deriving DecidableEq, Repr

/-- The fields of `struct iprohc_tunnel` (member `tunnel` of a client) that
`server.c` accesses. `fake_tun` and `fake_raw` are the two descriptor pairs;
index 1 of the C array is the second component. -/
structure iprohc_tunnel where
  dest_address : in_addr
  raw_socket : Int
  tun : Int
  fake_tun : Int × Int
  fake_raw : Int × Int
  status : iprohc_tunnel_status_t
  params : tunnel_params
  last_keepalive : timeval
deriving DecidableEq, Repr

/-- The fields of `struct client` that `server.c` accesses. `tls_session` is
an opaque handle. -/
structure client where
  is_init : Bool
  local_address : in_addr
  tcp_socket : Int
  tls_session : Nat
  last_keepalive : timeval
  tunnel : iprohc_tunnel
deriving DecidableEq, Repr

/-! ## The routing threads: `route` -/

/-- The enumeration `enum type_route`. -/
inductive type_route where
  | TUN
  | RAW
deriving DecidableEq, Repr

/-- The C type `struct route_args`. `clients` is the slot table the pointer
designates. -/
structure route_args where
  fd : Int
  clients : List client
  clients_max_nr : Nat
  type : type_route

/-- What one pass through the body of the `while` loop of `route` does to the
outside world. -/
inductive route_event where
  /-- The call `write(fd, buffer, len)`: the descriptor and the `len` bytes. -/
  | write (fd : Int) (bytes : List Nat)
  /-- The warning "failed to send ... packet". -/
  | trace_write_failed
  /-- The warning "partial write". -/
  | trace_partial_write
  /-- The error "read failed". -/
  | trace_read_failed
deriving DecidableEq, Repr

/-- Outcome of one evaluation of the `while` condition of `route` followed by
the loop body. -/
inductive route_step_result where
  /-- `route` returned `NULL` (end of file or read error). -/
  | returned (events : List route_event)
  /-- The body ran to its end; the thread goes on to the next `read`. -/
  | next (buffer : List Nat) (clients : List client) (events : List route_event)
  /-- The scan indexed the slot table out of its bounds. -/
  | out_of_bounds
deriving DecidableEq, Repr

/-- The word `*(uint32_t *) &buffer[off]`. -/
def load_word (buffer : List Nat) (off : Nat) : in_addr_t :=
  { b0 := buffer.getD off 0
    b1 := buffer.getD (off + 1) 0
    b2 := buffer.getD (off + 2) 0
    b3 := buffer.getD (off + 3) 0 }

/-- Lines 105-117: the address used for the lookup, destination address for
the TUN thread and source address for the RAW thread. -/
def route_addr (type : type_route) (buffer : List Nat) : in_addr :=
  match type with
  | type_route.TUN => { s_addr := load_word buffer 20 }
  | type_route.RAW => { s_addr := load_word buffer 12 }

/-- The events of `ret = write(fd, buffer, len)` and of the two tests on `ret`
that follow it. -/
def route_write (fd : Int) (buffer : List Nat) (len : Nat) (ret : Int) : List route_event :=
  route_event.write fd (buffer.take len) ::
    (if ret < 0 then [route_event.trace_write_failed]
     else if ret ≠ (len : Int) then [route_event.trace_partial_write]
     else [])

/-- Lines 119-166: the `for` loop over the slots, from index `i` on; `fuel` is
`clients_max_nr - i`. `wret` is what `write` returns. The result is `none`
when a slot outside the table is indexed. -/
def route_scan (type : type_route) (clients : List client) (addr : in_addr)
    (buffer : List Nat) (len : Nat) (wret : Int) : Nat → Nat → Option (List route_event)
  | _, 0 => some []
  | i, fuel + 1 =>
    match clients[i]? with
    | none => none
    | some c =>
      if c.is_init then
        match type with
        | type_route.TUN =>
          if addr.s_addr = c.local_address.s_addr then
            some (route_write c.tunnel.fake_tun.2 buffer len wret)
          else route_scan type clients addr buffer len wret (i + 1) fuel
        | type_route.RAW =>
          if addr.s_addr = c.tunnel.dest_address.s_addr then
            some (route_write c.tunnel.fake_raw.2 buffer len wret)
          else route_scan type clients addr buffer len wret (i + 1) fuel
      else route_scan type clients addr buffer len wret (i + 1) fuel

/-- One `read` and the loop body of `route` (lines 95-167). `buffer` is the
content of the local array before the read, its length is `TUNTAP_BUFSIZE`.
`rd` is what `read(fd, buffer, buffer_len)` delivers: `none` for a negative
return value, `some data` when it returns `data.length` and stores `data` at
the start of `buffer`. `wret` is the return value of the `write`, if one is
made. -/
def route_step (arg : route_args) (buffer : List Nat) (rd : Option (List Nat))
    (wret : Int) : route_step_result :=
  let buffer_len := buffer.length
  match rd with
  | none => route_step_result.returned [route_event.trace_read_failed]
  | some data =>
    let ret := data.length
    if ret = 0 then route_step_result.returned []
    else if ret > buffer_len then route_step_result.returned [route_event.trace_read_failed]
    else
      let buffer1 := data ++ buffer.drop ret
      let len := ret
      let addr := route_addr arg.type buffer1
      match route_scan arg.type arg.clients addr buffer1 len wret 0 arg.clients_max_nr with
      | none => route_step_result.out_of_bounds
      | some events => route_step_result.next buffer1 arg.clients events

/-- The `write` calls among the events of a step. -/
def route_writes : List route_event → List (Int × List Nat)
  | [] => []
  | route_event.write fd bytes :: es => (fd, bytes) :: route_writes es
  | _ :: es => route_writes es

/-! ## The width of the address range: `iprohc_get_ipv4_range_width` -/

/-- Lines 1073-1086. `addr` is the `uint32_t` address in host byte order and
`netmasklen` the `size_t` prefix length. The two shifts are by
`32 - netmasklen`, computed in `size_t`: for `netmasklen > 32` it wraps to a
count above the width of the operands, and for a count of 31 or 32 the value
`1 << count` does not fit the `int` it is computed in; in both cases the C
expression has no defined value and the result is `none`. The mask is an
`unsigned int` and keeps 32 bits. -/
def iprohc_get_ipv4_range_width (addr : Nat) (netmasklen : Nat) : Option Nat :=
  if 32 < netmasklen then none
  else if 31 ≤ 32 - netmasklen then none
  else
    let range_len := 1 <<< (32 - netmasklen)
    let netmask := (0xffffffff <<< (32 - netmasklen)) % 2 ^ 32
    if (addr &&& netmask) &&& 0xff = 0 then some (range_len - 1) else some range_len

/-! ## The server: options, events and the state of the main loop -/

/-- The fields of `struct server_opts` that `main` accesses. `local_address`
is the `uint32_t` in network byte order that `inet_addr` returns. -/
structure server_opts where
  clients_max_nr : Nat
  port : Nat
  pkcs12_f : String
  pidfile_path : String
  basedev : String
  local_address : in_addr_t
  netmask : Nat
  params : tunnel_params
deriving DecidableEq, Repr

/-- Modelled from the spec: the opcode of the KEEPALIVE control message, 0x4B
in the opcode table of section 4.1; the macro `C_KEEPALIVE` is defined in
`messages.h`, which is not among the sources. -/
def C_KEEPALIVE : Nat := 0x4B

/-- The calls `main` makes to the outside world (system calls, GnuTLS, and the
functions of the repository declared in `client.h`, `tls.h`, `tun_helpers.h`
and `server_config.h`), in the order they are made. `gnutls_global_init`
stands for the three initialisation calls of lines 595-597,
`gnutls_global_deinit` for the three calls of lines 1018-1020,
`pidfile_written` for `fopen`, `fprintf` and `fclose`, `pthread_cancel_join`
for `pthread_cancel` followed by `pthread_join`. The argument of `trace_err` is
the source line of the `trace(LOG_ERR, ...)` call. -/
inductive server_event where
  | usage
  | print_version
  | parse_config (conf_file : String)
  | dump_opts
  | pidfile_written (path : String)
  | calloc_clients (nr : Nat)
  | gnutls_global_init
  | load_p12 (password_is_null : Bool)
  | generate_dh_params
  | gnutls_certificate_set_dh_params
  | socket (ret : Int)
  | setsockopt (fd : Int)
  | bind (fd : Int) (port : Nat)
  | listen (fd : Int)
  | create_tun (ret : Int)
  | set_ip4 (itf_id : Int) (addr : in_addr_t) (prefixlen : Nat)
  | pthread_create_route (type : type_route) (fd : Int) (clients_max_nr : Nat) (ret : Int)
  | create_raw (ret : Int)
  | pselect
  | accept (ret : Int)
  | close (fd : Int)
  | new_client (client_id : Nat) (ret : Int)
  | gnutls_record_send (j : Nat) (data : List Nat)
  | dump_stats_client (j : Nat)
  | gnutls_bye (j : Nat)
  | del_client (j : Nat)
  | handle_client_request (j : Nat) (ret : Int)
  | stop_client_tunnel (j : Nat)
  | gnutls_deinit (tls_session : Nat)
  | gnutls_global_deinit
  | pthread_cancel_join (type : type_route)
  | gnutls_dh_params_deinit
  | free_clients
  | unlink (path : String)
  | trace_err (line : Nat)
deriving DecidableEq, Repr

/-- The variables of `main` that the main loop reads and writes, and the
events so far. -/
structure server_state where
  clients : List client
  clients_nr : Nat
  events : List server_event
deriving DecidableEq, Repr

/-- The variables of `main` that are set during startup and constant in the
main loop. -/
structure server_ctx where
  opts : server_opts
  serv_socket : Int
  tun : Int
  raw : Int

/-- The inputs of one iteration of the main loop: what the system calls return
and what the functions declared in `client.h` do to the slot they are given.
The first argument of the mutex and clock functions is the source line of the
call, the second the index of the slot. -/
structure loop_env where
  now : timeval
  pthread_mutex_lock : Nat → Nat → Int
  pthread_mutex_unlock : Nat → Nat → Int
  pthread_mutex_trylock : Nat → Int
  gettimeofday : Nat → Nat → timeval
  pselect : Int
  FD_ISSET : Int → Bool
  accept : Int
  new_client : Nat → client → Int × client
  del_client : Nat → client → client
  handle_client_request : Nat → client → Int × client
  stop_client_tunnel : Nat → client → client
  clients_do_dump_stats : Bool

/-- How a part of the main loop ends. -/
inductive outcome where
  /-- Control reaches the end of the part. -/
  | ok (st : server_state)
  /-- An `assert` failed: `assert(0)` after a mutex call that returned an
  error, or one of the assertions on `clients_nr` and `client_id`. -/
  | aborted (st : server_state)
  /-- A slot outside the table was indexed. -/
  | undefined
deriving DecidableEq, Repr

/-- Append events to the trace of a state. -/
def server_state.emit (st : server_state) (es : List server_event) : server_state :=
  { st with events := st.events ++ es }

/-- Store `c` in slot `j`. -/
def server_state.set_client (st : server_state) (j : Nat) (c : client) : server_state :=
  { st with clients := st.clients.set j c }

/-- Lines 191-265, `dump_stats_client`: the statistics are traced between a
lock and an unlock of the status lock of the slot. -/
def dump_stats_client (env : loop_env) (j : Nat) (st : server_state) : outcome :=
  if env.pthread_mutex_lock 195 j ≠ 0 then outcome.aborted st
  else
    let st1 := st.emit [server_event.dump_stats_client j]
    if env.pthread_mutex_unlock 255 j ≠ 0 then outcome.aborted st1
    else outcome.ok st1

/-- Lines 742-768: the loop that adds the sockets of the occupied slots to the
descriptor set, from index `j` on; `fuel` is `clients_max_nr - j`. The set
itself is not kept: what `pselect` leaves in it is an input of the model. -/
def collect_fds (env : loop_env) : Nat → Nat → server_state → outcome
  | _, 0, st => outcome.ok st
  | j, fuel + 1, st =>
    match st.clients[j]? with
    | none => outcome.undefined
    | some c =>
      if c.is_init then
        if env.pthread_mutex_lock 746 j ≠ 0 then outcome.aborted st
        else if env.pthread_mutex_unlock 760 j ≠ 0 then outcome.aborted st
        else collect_fds env (j + 1) fuel st
      else collect_fds env (j + 1) fuel st

/-- Lines 808-811: the search of the first free slot, from `client_id` on;
`fuel` is `clients_max_nr - client_id`. The result is the value of `client_id`
when the `for` loop is left, `none` if a slot outside the table is indexed. -/
def find_free_slot (clients : List client) : Nat → Nat → Option Nat
  | client_id, 0 => some client_id
  | client_id, fuel + 1 =>
    match clients[client_id]? with
    | none => none
    | some c =>
      if c.is_init then find_free_slot clients (client_id + 1) fuel
      else some client_id

/-- Lines 783-829: the body of `if(FD_ISSET(serv_socket, &rdfs))`. -/
def accept_client (ctx : server_ctx) (env : loop_env) (st : server_state) : outcome :=
  if st.clients_nr ≥ ctx.opts.clients_max_nr then
    let st1 := st.emit [server_event.trace_err 789, server_event.accept env.accept]
    if env.accept < 0 then outcome.ok (st1.emit [server_event.trace_err 796])
    else outcome.ok (st1.emit [server_event.close env.accept])
  else
    match find_free_slot st.clients 0 ctx.opts.clients_max_nr with
    | none => outcome.undefined
    | some client_id =>
      if ¬ client_id < ctx.opts.clients_max_nr then outcome.aborted st
      else
        match st.clients[client_id]? with
        | none => outcome.undefined
        | some c =>
          let r := env.new_client client_id c
          let st1 := (st.set_client client_id r.2).emit
            [server_event.new_client client_id r.1]
          if r.1 < 0 then outcome.ok (st1.emit [server_event.trace_err 820])
          else if ¬ st1.clients_nr < ctx.opts.clients_max_nr then outcome.aborted st1
          else outcome.ok { st1 with clients_nr := st1.clients_nr + 1 }

/-- Lines 858-861: the test that decides whether a keepalive is sent.
`keepalive_timeout / 3` divides a `size_t` by an `int` and is an integer
division; `ceil` is applied to its result, a whole number, and returns it.
The sum and the comparison are made in `double`, exactly for times below
2^53 seconds. -/
def keepalive_due (client_status : iprohc_tunnel_status_t) (c : client)
    (now : timeval) : Bool :=
  decide (client_status = iprohc_tunnel_status_t.IPROHC_TUNNEL_CONNECTED) &&
    (decide (c.last_keepalive.tv_sec = -1) ||
     decide (c.last_keepalive.tv_sec +
        ((c.tunnel.params.keepalive_timeout / 3 : Nat) : Int) < now.tv_sec))

/-- Lines 886-903: the body of the branch for a slot in status
PENDING_DELETE. -/
def reap_client (ctx : server_ctx) (env : loop_env) (j : Nat) (c : client)
    (st : server_state) : outcome :=
  if env.pthread_mutex_trylock j = 0 then
    match dump_stats_client env j st with
    | outcome.ok st1 =>
      let st2 := (st1.emit [server_event.gnutls_bye j, server_event.del_client j]).set_client
        j (env.del_client j c)
      if ¬ st2.clients_nr > 0 then outcome.aborted st2
      else if ¬ st2.clients_nr ≤ ctx.opts.clients_max_nr then outcome.aborted st2
      else
        let st3 := { st2 with clients_nr := st2.clients_nr - 1 }
        if ¬ st3.clients_nr < ctx.opts.clients_max_nr then outcome.aborted st3
        else outcome.ok st3
    | other => other
  else outcome.ok st

/-- Lines 907-956: the body of the branch for a slot whose socket is
readable. `client_status` is the status read at line 849. -/
def handle_client (env : loop_env) (j : Nat) (c : client)
    (client_status : iprohc_tunnel_status_t) (st : server_state) : outcome :=
  let r := env.handle_client_request j c
  let st1 := (st.set_client j r.2).emit [server_event.handle_client_request j r.1]
  if r.1 < 0 then
    if client_status = iprohc_tunnel_status_t.IPROHC_TUNNEL_CONNECTED then
      outcome.ok ((st1.set_client j (env.stop_client_tunnel j r.2)).emit
        [server_event.stop_client_tunnel j])
    else if client_status = iprohc_tunnel_status_t.IPROHC_TUNNEL_CONNECTING then
      if env.pthread_mutex_lock 922 j ≠ 0 then outcome.aborted st1
      else
        let st2 := st1.set_client j
          { r.2 with tunnel :=
              { r.2.tunnel with
                status := iprohc_tunnel_status_t.IPROHC_TUNNEL_PENDING_DELETE } }
        if env.pthread_mutex_unlock 930 j ≠ 0 then outcome.aborted st2
        else outcome.ok st2
    else outcome.ok st1
  else
    if env.pthread_mutex_lock 941 j ≠ 0 then outcome.aborted st1
    else
      let st2 := st1.set_client j
        { r.2 with tunnel :=
            { r.2.tunnel with last_keepalive := env.gettimeofday 948 j } }
      if env.pthread_mutex_unlock 949 j ≠ 0 then outcome.aborted st2
      else outcome.ok st2

/-- Lines 835-957: the body of the loop over the slots, for slot `j`. -/
def serve_client (ctx : server_ctx) (env : loop_env) (j : Nat)
    (st : server_state) : outcome :=
  match st.clients[j]? with
  | none => outcome.undefined
  | some c =>
    if ¬ c.is_init then outcome.ok st
    else if env.pthread_mutex_lock 842 j ≠ 0 then outcome.aborted st
    else
      let client_status := c.tunnel.status
      if env.pthread_mutex_unlock 850 j ≠ 0 then outcome.aborted st
      else if keepalive_due client_status c env.now then
        let st1 := st.emit [server_event.gnutls_record_send j [C_KEEPALIVE]]
        if env.pthread_mutex_lock 868 j ≠ 0 then outcome.aborted st1
        else
          let st2 := st1.set_client j { c with last_keepalive := env.gettimeofday 875 j }
          if env.pthread_mutex_unlock 876 j ≠ 0 then outcome.aborted st2
          else outcome.ok st2
      else if client_status = iprohc_tunnel_status_t.IPROHC_TUNNEL_PENDING_DELETE then
        reap_client ctx env j c st
      else if env.FD_ISSET c.tcp_socket then
        handle_client env j c client_status st
      else outcome.ok st

/-- Lines 833-958: the loop over the slots, from index `j` on; `fuel` is
`clients_max_nr - j`. -/
def serve_clients (ctx : server_ctx) (env : loop_env) : Nat → Nat → server_state → outcome
  | _, 0, st => outcome.ok st
  | j, fuel + 1, st =>
    match serve_client ctx env j st with
    | outcome.ok st1 => serve_clients ctx env (j + 1) fuel st1
    | other => other

/-- Lines 974-980: the loop that dumps the statistics of the occupied slots,
from index `j` on. -/
def dump_stats_clients (env : loop_env) : Nat → Nat → server_state → outcome
  | _, 0, st => outcome.ok st
  | j, fuel + 1, st =>
    match st.clients[j]? with
    | none => outcome.undefined
    | some c =>
      if c.is_init then
        match dump_stats_client env j st with
        | outcome.ok st1 => dump_stats_clients env (j + 1) fuel st1
        | other => other
      else dump_stats_clients env (j + 1) fuel st

/-- Lines 736-982: one iteration of `while(alive)`. The block under
`STATS_COLLECTD` is not part of the default build and is left out. -/
def main_loop_iteration (ctx : server_ctx) (env : loop_env) (st : server_state) : outcome :=
  match collect_fds env 0 ctx.opts.clients_max_nr st with
  | outcome.ok st1 =>
    let st2 := st1.emit [server_event.pselect]
    if env.pselect = -1 then outcome.ok (st2.emit [server_event.trace_err 776])
    else
      match (if env.FD_ISSET ctx.serv_socket then accept_client ctx env st2
             else outcome.ok st2) with
      | outcome.ok st3 =>
        match serve_clients ctx env 0 ctx.opts.clients_max_nr st3 with
        | outcome.ok st4 =>
          if env.clients_do_dump_stats then
            dump_stats_clients env 0 ctx.opts.clients_max_nr st4
          else outcome.ok st4
        | other => other
      | other => other
  | other => other

/-! ## The server: `main` -/

/-- The value `ntohl(x)` of a word in network byte order. -/
def ntohl (x : in_addr_t) : Nat :=
  x.b0 * 2 ^ 24 + x.b1 * 2 ^ 16 + x.b2 * 2 ^ 8 + x.b3

/-- The constant `IFNAMSIZ` of `<net/if.h>`. -/
def IFNAMSIZ : Nat := 16

/-- What one call of `getopt_long` in the option loop yields, with the result
of `if_nametoindex(optarg)` for `-b`. -/
inductive getopt_result where
  | opt_c (optarg : String)
  | opt_b (optarg : String) (if_nametoindex : Nat)
  | opt_d
  | opt_h
  | opt_v
  | other
deriving DecidableEq, Repr

/-- The inputs of the startup of `main`: the options on the command line and
what the calls made before the main loop return. `route_args_raw_clients_max_nr`
is the content of the field `clients_max_nr` of the local `route_args_raw`,
which `main` does not assign. -/
structure startup_env where
  options : List getopt_result
  parse_config : String → server_opts → Int × server_opts
  fopen_pidfile : Bool
  calloc : Bool
  load_p12_empty : Bool
  load_p12_null : Bool
  generate_dh_params : Bool
  socket : Int
  setsockopt : Int
  bind : Int
  listen : Int
  create_tun : Int
  tun_itf_id : Int
  set_ip4 : Bool
  pthread_create_tun : Int
  create_raw : Int
  route_args_raw_clients_max_nr : Nat
  pthread_create_raw : Int

/-- How `main` ends. -/
inductive main_result where
  /-- `main` returns `exit_status`. -/
  | exit (exit_status : Int) (events : List server_event)
  /-- An `assert` failed in the main loop. -/
  | aborted (events : List server_event)
  /-- An expression without a defined value was evaluated. -/
  | undefined
deriving DecidableEq, Repr

/-- Lines 446-460: the default values of the options. -/
def default_server_opts : server_opts :=
  { clients_max_nr := 50
    port := 3126
    pkcs12_f := ""
    pidfile_path := ""
    basedev := ""
    local_address := { b0 := 192, b1 := 168, b2 := 99, b3 := 1 }
    netmask := 24
    params := { keepalive_timeout := 60 } }

/-- Lines 471-509: the option loop, on the values `getopt_long` returns before
-1. The result is `none` for `goto error`, with the events so far in the
second component; otherwise the configuration file and the options. The copy
of `optarg` into `conf_file` keeps the first 1023 characters. -/
def process_options :
    List getopt_result → String → server_opts → Option (String × server_opts) × List server_event
  | [], conf_file, opts => (some (conf_file, opts), [])
  | getopt_result.opt_c optarg :: rest, _, opts =>
    process_options rest (String.mk (optarg.data.take 1023)) opts
  | getopt_result.opt_b optarg idx :: rest, conf_file, opts =>
    if optarg.utf8ByteSize ≥ IFNAMSIZ then (none, [server_event.trace_err 485])
    else if idx ≤ 0 then (none, [server_event.trace_err 490])
    else process_options rest conf_file { opts with basedev := optarg }
  | getopt_result.opt_d :: rest, conf_file, opts => process_options rest conf_file opts
  | getopt_result.opt_h :: _, _, _ => (none, [server_event.usage])
  | getopt_result.opt_v :: _, _, _ => (none, [server_event.print_version])
  | getopt_result.other :: rest, conf_file, opts => process_options rest conf_file opts

/-- Label `remove_pidfile` and what follows it (lines 1045-1062). -/
def main_remove_pidfile (opts : server_opts) (exit_status : Int)
    (events : List server_event) : main_result :=
  if opts.pidfile_path ≠ "" then
    main_result.exit exit_status (events ++ [server_event.unlink opts.pidfile_path])
  else main_result.exit exit_status events

/-- Label `free_client_contexts` and what follows it. -/
def main_free_client_contexts (opts : server_opts) (exit_status : Int)
    (events : List server_event) : main_result :=
  main_remove_pidfile opts exit_status (events ++ [server_event.free_clients])

/-- Label `free_dh` and what follows it. -/
def main_free_dh (opts : server_opts) (exit_status : Int)
    (events : List server_event) : main_result :=
  main_free_client_contexts opts exit_status
    (events ++ [server_event.gnutls_dh_params_deinit])

/-- Label `close_tcp` and what follows it. -/
def main_close_tcp (opts : server_opts) (serv_socket : Int) (exit_status : Int)
    (events : List server_event) : main_result :=
  main_free_dh opts exit_status (events ++ [server_event.close serv_socket])

/-- Label `delete_tun` and what follows it. -/
def main_delete_tun (opts : server_opts) (serv_socket tun : Int) (exit_status : Int)
    (events : List server_event) : main_result :=
  main_close_tcp opts serv_socket exit_status (events ++ [server_event.close tun])

/-- Label `stop_tun_thread` and what follows it. -/
def main_stop_tun_thread (opts : server_opts) (serv_socket tun : Int) (exit_status : Int)
    (events : List server_event) : main_result :=
  main_delete_tun opts serv_socket tun exit_status
    (events ++ [server_event.pthread_cancel_join type_route.TUN])

/-- Label `delete_raw` and what follows it. -/
def main_delete_raw (ctx : server_ctx) (exit_status : Int)
    (events : List server_event) : main_result :=
  main_stop_tun_thread ctx.opts ctx.serv_socket ctx.tun exit_status
    (events ++ [server_event.close ctx.raw])

/-- The `while(alive)` loop (lines 734-983): the iterations made before
`alive` is found cleared, one per element of the list. -/
def main_loop (ctx : server_ctx) : List loop_env → server_state → outcome
  | [], st => outcome.ok st
  | env :: rest, st =>
    match main_loop_iteration ctx env st with
    | outcome.ok st1 => main_loop ctx rest st1
    | other => other

/-- Lines 990-1014: the release of one slot when the server stops. -/
def release_client (c : client) : client × List server_event :=
  if c.is_init then
    ({ c with
        is_init := false
        tunnel := { c.tunnel with
          fake_raw := (-1, -1), raw_socket := -1, fake_tun := (-1, -1), tun := -1 } },
      [server_event.close c.tunnel.fake_raw.1, server_event.close c.tunnel.fake_raw.2,
       server_event.close c.tunnel.raw_socket,
       server_event.close c.tunnel.fake_tun.1, server_event.close c.tunnel.fake_tun.2,
       server_event.close c.tunnel.tun,
       server_event.gnutls_deinit c.tls_session,
       server_event.close c.tcp_socket])
  else (c, [])

/-- Lines 988-1015: the loop that releases all the slots. -/
def release_clients : List client → List client × List server_event
  | [] => ([], [])
  | c :: rest =>
    ((release_client c).1 :: (release_clients rest).1,
     (release_client c).2 ++ (release_clients rest).2)

/-- Lines 986-1015: the state of `main` after the loop that releases the
slots 0 .. `clients_max_nr` - 1: the table with the released slots, and the
events of the release appended to the trace. -/
def main_release (ctx : server_ctx) (st : server_state) : server_state :=
  let released := release_clients (st.clients.take ctx.opts.clients_max_nr)
  { clients := released.1 ++ st.clients.drop ctx.opts.clients_max_nr
    clients_nr := st.clients_nr
    events := st.events ++ released.2 }

/-- Lines 984-1063: what `main` does once the loop is left with `alive`
cleared: the release of the slots, then the labels from line 1017 on. The
table is freed at the label `free_client_contexts`. -/
def main_shutdown (ctx : server_ctx) (st : server_state) : main_result :=
  main_delete_raw ctx 0
    ((main_release ctx st).events ++
      [server_event.gnutls_global_deinit, server_event.pthread_cancel_join type_route.RAW])

/-- A slot as `calloc` leaves it, all bytes zero. The status stands for the
enumerator of value 0; it is not read while `is_init` is false. -/
def zeroed_client : client :=
  { is_init := false
    local_address := { s_addr := { b0 := 0, b1 := 0, b2 := 0, b3 := 0 } }
    tcp_socket := 0
    tls_session := 0
    last_keepalive := { tv_sec := 0 }
    tunnel :=
      { dest_address := { s_addr := { b0 := 0, b1 := 0, b2 := 0, b3 := 0 } }
        raw_socket := 0
        tun := 0
        fake_tun := (0, 0)
        fake_raw := (0, 0)
        status := iprohc_tunnel_status_t.IPROHC_TUNNEL_PENDING_DELETE
        params := { keepalive_timeout := 0 }
        last_keepalive := { tv_sec := 0 } } }

/-- Lines 677-1063: from the start of the TUN routing thread to the end of
`main`. -/
def main_threads (env : startup_env) (loop : List loop_env) (opts : server_opts)
    (serv_socket tun : Int) (events : List server_event) : main_result :=
  let route_args_tun : route_args :=
    { fd := tun, clients := List.replicate opts.clients_max_nr zeroed_client,
      clients_max_nr := opts.clients_max_nr, type := type_route.TUN }
  let ev1 := events ++ [server_event.pthread_create_route route_args_tun.type
    route_args_tun.fd route_args_tun.clients_max_nr env.pthread_create_tun]
  if env.pthread_create_tun ≠ 0 then
    main_delete_tun opts serv_socket tun 1 (ev1 ++ [server_event.trace_err 686])
  else
    let raw := env.create_raw
    let ev2 := ev1 ++ [server_event.create_raw raw]
    if raw < 0 then
      main_stop_tun_thread opts serv_socket tun 1 (ev2 ++ [server_event.trace_err 696])
    else
      let route_args_raw : route_args :=
        { fd := raw, clients := List.replicate opts.clients_max_nr zeroed_client,
          clients_max_nr := env.route_args_raw_clients_max_nr, type := type_route.RAW }
      let ctx : server_ctx := { opts := opts, serv_socket := serv_socket, tun := tun, raw := raw }
      let ev3 := ev2 ++ [server_event.pthread_create_route route_args_raw.type
        route_args_raw.fd route_args_raw.clients_max_nr env.pthread_create_raw]
      if env.pthread_create_raw ≠ 0 then
        main_delete_raw ctx 1 (ev3 ++ [server_event.trace_err 709])
      else
        match main_loop ctx loop
          { clients := List.replicate opts.clients_max_nr zeroed_client
            clients_nr := 0, events := ev3 } with
        | outcome.ok st => main_shutdown ctx st
        | outcome.aborted st => main_result.aborted st.events
        | outcome.undefined => main_result.undefined

/-- Lines 579-675: the slot table, the TLS credentials, the TCP socket and the
TUN interface, then the rest of `main`. -/
def main_resources (env : startup_env) (loop : List loop_env) (opts : server_opts)
    (events : List server_event) : main_result :=
  if ¬ env.calloc then
    main_remove_pidfile opts 1 (events ++ [server_event.trace_err 582])
  else
    let ev1 := events ++ [server_event.calloc_clients opts.clients_max_nr,
      server_event.gnutls_global_init, server_event.load_p12 false]
    if ¬ env.load_p12_empty ∧ ¬ env.load_p12_null then
      main_free_client_contexts opts 1
        (ev1 ++ [server_event.load_p12 true, server_event.trace_err 602])
    else
      let ev2 := (if env.load_p12_empty then ev1 else ev1 ++ [server_event.load_p12 true]) ++
        [server_event.generate_dh_params]
      if ¬ env.generate_dh_params then
        main_free_client_contexts opts 1 (ev2 ++ [server_event.trace_err 611])
      else
        let serv_socket := env.socket
        let ev3 := ev2 ++ [server_event.gnutls_certificate_set_dh_params,
          server_event.socket serv_socket]
        if serv_socket < 0 then main_free_dh opts 1 (ev3 ++ [server_event.trace_err 624])
        else if env.setsockopt ≠ 0 then
          main_close_tcp opts serv_socket 1
            (ev3 ++ [server_event.setsockopt serv_socket, server_event.trace_err 632])
        else if env.bind ≠ 0 then
          main_close_tcp opts serv_socket 1
            (ev3 ++ [server_event.setsockopt serv_socket,
              server_event.bind serv_socket opts.port, server_event.trace_err 645])
        else if env.listen ≠ 0 then
          main_close_tcp opts serv_socket 1
            (ev3 ++ [server_event.setsockopt serv_socket,
              server_event.bind serv_socket opts.port, server_event.listen serv_socket,
              server_event.trace_err 653])
        else
          let tun := env.create_tun
          let ev4 := ev3 ++ [server_event.setsockopt serv_socket,
            server_event.bind serv_socket opts.port, server_event.listen serv_socket,
            server_event.create_tun tun]
          if tun < 0 then
            main_close_tcp opts serv_socket 1 (ev4 ++ [server_event.trace_err 666])
          else
            let ev5 := ev4 ++ [server_event.set_ip4 env.tun_itf_id opts.local_address 24]
            if ¬ env.set_ip4 then
              main_delete_tun opts serv_socket tun 1 (ev5 ++ [server_event.trace_err 673])
            else main_threads env loop opts serv_socket tun ev5

/-- Lines 541-1063: `main` after the check of the number of clients against
the width of the address range. -/
def main_after_range_check (env : startup_env) (loop : List loop_env)
    (opts : server_opts) (events : List server_event) : main_result :=
  if opts.basedev = "" then main_result.exit 1 (events ++ [server_event.trace_err 543])
  else if opts.pkcs12_f = "" then main_result.exit 2 (events ++ [server_event.trace_err 550])
  else
    let ev1 := events ++ [server_event.dump_opts]
    if opts.pidfile_path = "" then main_resources env loop opts ev1
    else if ¬ env.fopen_pidfile then main_result.exit 1 (ev1 ++ [server_event.trace_err 566])
    else main_resources env loop opts (ev1 ++ [server_event.pidfile_written opts.pidfile_path])

/-- The function `main` of the server. `loop` holds the inputs of the
iterations of the main loop made before SIGINT or SIGTERM clears `alive`. -/
def main (env : startup_env) (loop : List loop_env) : main_result :=
  match process_options env.options "/etc/iprohc_server.conf" default_server_opts with
  | (none, events) => main_result.exit 1 events
  | (some (conf_file, opts0), events) =>
    let r := env.parse_config conf_file opts0
    let ev1 := events ++ [server_event.parse_config conf_file]
    if r.1 < 0 then main_result.exit 2 (ev1 ++ [server_event.trace_err 513])
    else
      let server_opts := r.2
      match iprohc_get_ipv4_range_width (ntohl server_opts.local_address)
          server_opts.netmask with
      | none => main_result.undefined
      | some range_len =>
        if server_opts.clients_max_nr > range_len then
          main_result.exit 1 (ev1 ++ [server_event.trace_err 523])
        else main_after_range_check env loop server_opts ev1

/-- The number of slots marked occupied, `count(is_init)`. -/
def count_is_init (clients : List client) : Nat :=
  clients.countP (fun c => c.is_init)

/-- The invariant of the main loop: the table has `clients_max_nr` slots and
`clients_nr` is the number of those marked occupied. -/
def loop_invariant (ctx : server_ctx) (st : server_state) : Prop :=
  st.clients.length = ctx.opts.clients_max_nr ∧ count_is_init st.clients = st.clients_nr

/-- The assumption on the functions of `client.h`: `new_client`, given a free
slot, leaves it occupied exactly when it returns a non-negative value;
`del_client` leaves its slot free; `handle_client_request` and
`stop_client_tunnel` do not change `is_init`. -/
def callees_keep_is_init (env : loop_env) : Prop :=
  (∀ i c, c.is_init = false →
    ((env.new_client i c).2.is_init = true ↔ 0 ≤ (env.new_client i c).1)) ∧
  (∀ j c, (env.del_client j c).is_init = false) ∧
  (∀ j c, (env.handle_client_request j c).2.is_init = c.is_init) ∧
  (∀ j c, (env.stop_client_tunnel j c).is_init = c.is_init)

/-- Every call of `pthread_mutex_lock` and `pthread_mutex_unlock` of the
iteration returns 0. -/
def mutex_calls_succeed (env : loop_env) : Prop :=
  ∀ line j, env.pthread_mutex_lock line j = 0 ∧ env.pthread_mutex_unlock line j = 0

/-- The test the scan of `route` applies to slot `c`: occupied, and the
address of the thread's type equal to `addr`. -/
def route_match (type : type_route) (addr : in_addr) (c : client) : Bool :=
  c.is_init &&
    (match type with
     | type_route.TUN => decide (addr.s_addr = c.local_address.s_addr)
     | type_route.RAW => decide (addr.s_addr = c.tunnel.dest_address.s_addr))

/-- The descriptor the scan of `route` writes to for slot `c`: `fake_tun[1]`
for the TUN thread, `fake_raw[1]` for the RAW thread. -/
def route_pipe (type : type_route) (c : client) : Int :=
  match type with
  | type_route.TUN => c.tunnel.fake_tun.2
  | type_route.RAW => c.tunnel.fake_raw.2

/-- A slot that is occupied, with the given tunnel address, peer address and
write ends of its two pipes; used to build concrete slot tables. -/
def sample_slot (local_b3 peer_b3 : Nat) (tun_wr raw_wr : Int) : client :=
  { is_init := true
    local_address := { s_addr := { b0 := 192, b1 := 168, b2 := 99, b3 := local_b3 } }
    tcp_socket := tun_wr + 3
    tls_session := peer_b3
    last_keepalive := { tv_sec := 0 }
    tunnel :=
      { dest_address := { s_addr := { b0 := 10, b1 := 0, b2 := 0, b3 := peer_b3 } }
        raw_socket := 4
        tun := 3
        fake_tun := (tun_wr - 1, tun_wr)
        fake_raw := (raw_wr - 1, raw_wr)
        status := iprohc_tunnel_status_t.IPROHC_TUNNEL_CONNECTED
        params := { keepalive_timeout := 60 }
        last_keepalive := { tv_sec := 0 } } }

/-- A free slot, as `calloc` leaves it. -/
def free_slot : client :=
  { is_init := false
    local_address := { s_addr := { b0 := 0, b1 := 0, b2 := 0, b3 := 0 } }
    tcp_socket := 0
    tls_session := 0
    last_keepalive := { tv_sec := 0 }
    tunnel :=
      { dest_address := { s_addr := { b0 := 0, b1 := 0, b2 := 0, b3 := 0 } }
        raw_socket := 0
        tun := 0
        fake_tun := (0, 0)
        fake_raw := (0, 0)
        status := iprohc_tunnel_status_t.IPROHC_TUNNEL_PENDING_DELETE
        params := { keepalive_timeout := 0 }
        last_keepalive := { tv_sec := 0 } } }

/-- A table of three slots: a free one, then sessions with tunnel addresses
192.168.99.2 and 192.168.99.3 and peers 10.0.0.7 and 10.0.0.8. -/
def sample_table : List client :=
  [free_slot, sample_slot 2 7 11 13, sample_slot 3 8 21 23]

/-- A 24-byte buffer as read from the TUN device: 4 bytes of packet
information and the 20-byte header of an IPv4 packet from 192.168.99.1 to
192.168.99.3. -/
def sample_tun_packet : List Nat :=
  [0, 0, 8, 0, 69, 0, 0, 20, 0, 0, 0, 0, 64, 4, 0, 0, 192, 168, 99, 1, 192, 168, 99, 3]

/-- A 20-byte datagram as read from the RAW socket: an IPv4 header from
10.0.0.7 to 10.0.0.1. -/
def sample_raw_packet : List Nat :=
  [69, 0, 0, 20, 0, 0, 0, 0, 64, 4, 0, 0, 10, 0, 0, 7, 10, 0, 0, 1]

/-- The local array `buffer` of `route` before a read, here 48 bytes of 255. -/
def sample_buffer : List Nat := List.replicate 48 255

/-- Two sessions stored in the order 192.168.99.3, 192.168.99.2. -/
def sample_table_swapped : List client :=
  [sample_slot 3 8 21 23, sample_slot 2 7 11 13]

/-- A 40-byte buffer as read from the TUN device: 4 bytes of packet
information, the 20-byte header of an IPv4 packet from 192.168.99.1 to
192.168.99.2, and 16 bytes of payload whose last four bytes are
192, 168, 99, 3. -/
def sample_tun_packet_40 : List Nat :=
  [0, 0, 8, 0, 69, 0, 0, 36, 0, 0, 0, 0, 64, 17, 0, 0, 192, 168, 99, 1, 192, 168, 99, 2,
   0, 53, 0, 53, 0, 16, 0, 0, 1, 2, 3, 4, 192, 168, 99, 3]

/-- Options of a server with three slots in 192.168.99.0/24. -/
def sample_opts : server_opts :=
  { clients_max_nr := 3
    port := 3126
    pkcs12_f := "server.p12"
    pidfile_path := "/var/run/iprohc_server.pid"
    basedev := "eth0"
    local_address := { b0 := 192, b1 := 168, b2 := 99, b3 := 1 }
    netmask := 24
    params := { keepalive_timeout := 60 } }

/-- A running server with the options `sample_opts`. -/
def sample_ctx : server_ctx :=
  { opts := sample_opts, serv_socket := 5, tun := 3, raw := 4 }

/-- An iteration at second `now` in which every mutex call succeeds apart from
the `trylock`, which returns `trylock`, `pselect` reports the descriptors in
`readable`, `new_client` succeeds and `handle_client_request` returns
`request_ret`. -/
def sample_env (now : Int) (readable : Int → Bool) (trylock : Int)
    (request_ret : Int) : loop_env :=
  { now := { tv_sec := now }
    pthread_mutex_lock := fun _ _ => 0
    pthread_mutex_unlock := fun _ _ => 0
    pthread_mutex_trylock := fun _ => trylock
    gettimeofday := fun _ _ => { tv_sec := now }
    pselect := 1
    FD_ISSET := readable
    accept := 9
    new_client := fun _ c =>
      (0, { c with is_init := true
                   tunnel := { c.tunnel with
                     status := iprohc_tunnel_status_t.IPROHC_TUNNEL_CONNECTING } })
    del_client := fun _ c => { c with is_init := false }
    handle_client_request := fun _ c => (request_ret, c)
    stop_client_tunnel := fun _ c => c
    clients_do_dump_stats := false }

/-- The state of the loop with the table `sample_table`, two clients. -/
def sample_state : server_state :=
  { clients := sample_table, clients_nr := 2, events := [] }

/-- A connected slot with keepalive timeout `k` whose last keepalive was sent
at second `t`. -/
def keepalive_slot (k : Nat) (t : Int) : client :=
  { sample_slot 2 7 11 13 with
    last_keepalive := { tv_sec := t }
    tunnel := { (sample_slot 2 7 11 13).tunnel with params := { keepalive_timeout := k } } }

/-- An occupied slot in status PENDING_DELETE. -/
def pending_slot : client :=
  { sample_slot 2 7 11 13 with
    tunnel := { (sample_slot 2 7 11 13).tunnel with
      status := iprohc_tunnel_status_t.IPROHC_TUNNEL_PENDING_DELETE } }

/-- A startup in which every call succeeds and the configuration file sets
`clients_max_nr` to `max_clients`, the prefix length to `netmask` and the
other options as in `sample_opts`. -/
def sample_startup (max_clients netmask : Nat) : startup_env :=
  { options := [getopt_result.opt_b "eth0" 2]
    parse_config := fun _ opts =>
      (0, { sample_opts with
              basedev := opts.basedev, clients_max_nr := max_clients, netmask := netmask })
    fopen_pidfile := true
    calloc := true
    load_p12_empty := true
    load_p12_null := true
    generate_dh_params := true
    socket := 5
    setsockopt := 0
    bind := 0
    listen := 0
    create_tun := 3
    tun_itf_id := 7
    set_ip4 := true
    pthread_create_tun := 0
    create_raw := 4
    route_args_raw_clients_max_nr := 0
    pthread_create_raw := 0 }

/-! ## The client: `main` of `client.c` -/

/-- The constant `PATH_MAX` of `<limits.h>`. -/
def PATH_MAX : Nat := 4096

/-- The signal number `SIGINT`. -/
def SIGINT : Nat := 2

/-- The signal number `SIGQUIT`. -/
def SIGQUIT : Nat := 3

/-- The signal number `SIGTERM`. -/
def SIGTERM : Nat := 15

/-- The size of `struct signalfd_siginfo`. -/
def sizeof_signalfd_siginfo : Int := 128

/-- The flag `GNUTLS_CERT_INVALID` of `<gnutls/gnutls.h>`. -/
def GNUTLS_CERT_INVALID : Nat := 2

/-- The flag `GNUTLS_CERT_REVOKED` of `<gnutls/gnutls.h>`. -/
def GNUTLS_CERT_REVOKED : Nat := 32

/-- The flag `GNUTLS_CERT_SIGNER_NOT_FOUND` of `<gnutls/gnutls.h>`. -/
def GNUTLS_CERT_SIGNER_NOT_FOUND : Nat := 64

/-- The flag `GNUTLS_CERT_INSECURE_ALGORITHM` of `<gnutls/gnutls.h>`. -/
def GNUTLS_CERT_INSECURE_ALGORITHM : Nat := 256

/-- The status of a session, `client.session.status` (declared in a header
outside `client.c`); `client.c` names `IPROHC_SESSION_CONNECTED` only. -/
inductive iprohc_session_status_t where
  | IPROHC_SESSION_CONNECTING
  | IPROHC_SESSION_CONNECTED
  | IPROHC_SESSION_PENDING_DELETE
deriving DecidableEq, Repr

/-- The fields of `client.session` that `client.c` accesses; `params` is
`session.tunnel.params`, `tls_session` an opaque handle. -/
structure iprohc_session where
  tcp_socket : Int
  tls_session : Nat
  status : iprohc_session_status_t
  params : tunnel_params
deriving DecidableEq, Repr

/-- What one call of `getopt_long` in the second option loop of the client
yields (lines 190-264), with the results of `if_nametoindex(optarg)` for `-b`
and of `atoi(optarg)` for `-k`. -/
inductive client_getopt where
  | opt_i (optarg : String)
  | opt_b (optarg : String) (if_nametoindex : Nat)
  | opt_r (optarg : String)
  | opt_p (optarg : String)
  | opt_P (optarg : String)
  | opt_u (optarg : String)
  | opt_k (atoi : Int)
  | opt_d
  | opt_h
  | opt_v
  | other
deriving DecidableEq, Repr

/-- The variables of the client `main` that the option loop fills. -/
structure client_opts where
  tun_name : String
  basedev : String
  up_script_path : String
  packing : Int
  serv_addr : String
  port : String
  pkcs12_f : String
deriving DecidableEq, Repr

/-- Lines 123 and 147-152: the values of the variables before the option
loop. -/
def initial_client_opts : client_opts :=
  { tun_name := ""
    basedev := ""
    up_script_path := ""
    packing := 0
    serv_addr := ""
    port := "3126"
    pkcs12_f := "" }

/-- The calls the client `main` makes to the outside world, in the order they
are made. `gnutls_global_init` stands for the two calls of lines 329-330 and
`gnutls_global_deinit` for the two calls of lines 706-707. The argument of
`trace_err` and `trace_warning` is the source line of the `trace` call. -/
inductive client_event where
  | usage
  | print_version
  | trace_err (line : Nat)
  | trace_warning (line : Nat)
  | sigprocmask (ret : Int)
  | signalfd (ret : Int)
  | gnutls_global_init
  | load_p12 (password_is_null : Bool) (ret : Int)
  | create_tun (ret : Int)
  | create_raw (ret : Int)
  | getaddrinfo (serv_addr port : String) (ret : Int)
  | socket (ret : Int)
  | connect (fd : Int) (ret : Int)
  | close (fd : Int)
  | getsockname (fd : Int) (ret : Int)
  | iprohc_session_new (ctrl_sock : Int)
  | gnutls_handshake (ret : Int)
  | gnutls_certificate_verify_peers2 (ret : Int) (verify_status : Nat)
  | gen_connrequest (packing : Int)
  | gnutls_record_send (len : Nat) (ret : Int)
  | select (timeout_sec : Nat) (ret : Int)
  | read_signal_fd (ret : Int)
  | gnutls_record_recv (ret : Int)
  | handle_message (len : Int)
  | client_send_disconnect_msg
  | gnutls_bye (tls_session : Nat)
  | iprohc_session_free
  | freeaddrinfo
  | gnutls_global_deinit
deriving DecidableEq, Repr

/-- How the option loop of the client ends. -/
inductive client_parse_result where
  /-- The statement `goto error` was reached after the event `e`. -/
  | goto_error (e : client_event)
  /-- The loop ended with `getopt_long` returning -1. -/
  | parsed (opts : client_opts)
deriving DecidableEq, Repr

/-- Lines 190-264: the second option loop, on the values `getopt_long`
returns before -1. A name or path of the greatest accepted length is kept as
a terminated string. The first loop (lines 176-187) only sets the log
priority. -/
def client_process_options : List client_getopt → client_opts → client_parse_result
  | [], opts => client_parse_result.parsed opts
  | client_getopt.opt_i optarg :: rest, opts =>
    if optarg.utf8ByteSize ≥ IFNAMSIZ then
      client_parse_result.goto_error (client_event.trace_err 199)
    else client_process_options rest { opts with tun_name := optarg }
  | client_getopt.opt_b optarg idx :: rest, opts =>
    if optarg.utf8ByteSize ≥ IFNAMSIZ then
      client_parse_result.goto_error (client_event.trace_err 208)
    else if idx ≤ 0 then client_parse_result.goto_error (client_event.trace_err 213)
    else client_process_options rest { opts with basedev := optarg }
  | client_getopt.opt_r optarg :: rest, opts =>
    if optarg.utf8ByteSize > PATH_MAX then
      client_parse_result.goto_error (client_event.trace_err 222)
    else client_process_options rest { opts with serv_addr := optarg }
  | client_getopt.opt_p optarg :: rest, opts =>
    client_process_options rest { opts with port := String.mk (optarg.data.take 5) }
  | client_getopt.opt_P optarg :: rest, opts =>
    if optarg.utf8ByteSize > PATH_MAX then
      client_parse_result.goto_error (client_event.trace_err 236)
    else client_process_options rest { opts with pkcs12_f := optarg }
  | client_getopt.opt_u optarg :: rest, opts =>
    if optarg.utf8ByteSize > PATH_MAX then
      client_parse_result.goto_error (client_event.trace_err 246)
    else client_process_options rest { opts with up_script_path := optarg }
  | client_getopt.opt_k n :: rest, opts =>
    client_process_options rest { opts with packing := n }
  | client_getopt.opt_d :: rest, opts => client_process_options rest opts
  | client_getopt.opt_h :: _, _ => client_parse_result.goto_error client_event.usage
  | client_getopt.opt_v :: _, _ => client_parse_result.goto_error client_event.print_version
  | client_getopt.other :: rest, opts => client_process_options rest opts

/-- The inputs of one iteration of the main loop of the client: what `select`,
`read` on the signal descriptor and `gnutls_record_recv` return, and what
`handle_message` (declared in `client_session.h`) answers and does to the
session. -/
structure client_iter where
  select : Int
  errno_is_EINTR : Bool
  signal_fd_isset : Bool
  read : Int
  ssi_signo : Nat
  tcp_socket_isset : Bool
  gnutls_record_recv : Int
  handle_message : iprohc_session → Bool × iprohc_session

/-- The inputs of a run of the client: the options on the command line and
what the calls return. `result` is the list `getaddrinfo` stores, with for
each address what `socket` and `connect` return. `handshake` holds the return
values of the successive calls of `gnutls_handshake`, each with whether
`gnutls_error_is_fatal` is non-zero for it; `record_send` the return values
of the successive calls of `gnutls_record_send` for the connect message;
`iterations` the inputs of the successive iterations of the main loop. -/
structure client_env where
  options : List client_getopt
  sigprocmask : Int
  signalfd : Int
  load_p12_null : Int
  load_p12_empty : Int
  create_tun : Int
  create_raw : Int
  getaddrinfo : Int
  result : List (Int × Int)
  getsockname : Int
  iprohc_session_new : Option iprohc_session
  handshake : List (Int × Bool)
  verify_peers2 : Int
  verify_status : Nat
  gen_connrequest : Option Nat
  record_send : List Int
  iterations : List client_iter
  client_send_disconnect_msg : Bool
  iprohc_session_free : Bool

/-- The descriptors the client `main` holds once they are created. -/
structure client_ctx where
  signal_fd : Int
  tun : Int
  raw : Int
deriving DecidableEq, Repr

/-- How the client `main` ends. -/
inductive client_result where
  /-- The function returns `exit_status`. -/
  | exit (exit_status : Int) (events : List client_event)
  /-- The inputs end inside a loop that has not been left. -/
  | no_return (events : List client_event)
deriving DecidableEq, Repr

/-- Label `tls_deinit` and what follows it (lines 704-712). -/
def client_tls_deinit (signal_fd : Int) (exit_status : Int)
    (events : List client_event) : client_result :=
  client_result.exit exit_status
    (events ++ [client_event.gnutls_global_deinit, client_event.close signal_fd])

/-- Label `delete_tun` and what follows it. -/
def client_delete_tun (signal_fd tun : Int) (exit_status : Int)
    (events : List client_event) : client_result :=
  client_tls_deinit signal_fd exit_status (events ++ [client_event.close tun])

/-- Label `delete_raw` and what follows it. -/
def client_delete_raw (ctx : client_ctx) (exit_status : Int)
    (events : List client_event) : client_result :=
  client_delete_tun ctx.signal_fd ctx.tun exit_status (events ++ [client_event.close ctx.raw])

/-- Label `free_addrinfo` and what follows it. -/
def client_free_addrinfo (ctx : client_ctx) (exit_status : Int)
    (events : List client_event) : client_result :=
  client_delete_raw ctx exit_status (events ++ [client_event.freeaddrinfo])

/-- Label `close_tcp` and what follows it. -/
def client_close_tcp (ctx : client_ctx) (ctrl_sock : Int) (exit_status : Int)
    (events : List client_event) : client_result :=
  if ctrl_sock ≥ 0 then
    client_free_addrinfo ctx exit_status (events ++ [client_event.close ctrl_sock])
  else client_free_addrinfo ctx exit_status events

/-- Label `free_session` and what follows it; `ctrl_sock` is -1 on every path
that comes here. -/
def client_free_session (env : client_env) (ctx : client_ctx) (exit_status : Int)
    (events : List client_event) : client_result :=
  if ¬ env.iprohc_session_free then
    client_close_tcp ctx (-1) exit_status
      (events ++ [client_event.iprohc_session_free, client_event.trace_err 690])
  else client_close_tcp ctx (-1) exit_status (events ++ [client_event.iprohc_session_free])

/-- Label `close_tls` and what follows it. -/
def client_close_tls (env : client_env) (ctx : client_ctx) (session : iprohc_session)
    (exit_status : Int) (events : List client_event) : client_result :=
  client_free_session env ctx exit_status
    (events ++ [client_event.gnutls_bye session.tls_session])

/-- Lines 393-408: the loop over the addresses `getaddrinfo` returned. The
result is the connected socket, if an address accepted the connection, and
the events. -/
def client_connect : List (Int × Int) → Option Int × List client_event
  | [] => (none, [])
  | (sock, conn) :: rest =>
    if sock < 0 then
      ((client_connect rest).1, client_event.socket sock :: (client_connect rest).2)
    else if conn ≠ -1 then
      (some sock, [client_event.socket sock, client_event.connect sock conn])
    else
      ((client_connect rest).1,
       [client_event.socket sock, client_event.connect sock conn, client_event.close sock] ++
         (client_connect rest).2)

/-- How the part of the client `main` before the TLS handshake ends. -/
inductive client_setup_result where
  /-- The function `main` ended. -/
  | stop (r : client_result)
  /-- The session context is initialised. -/
  | ready (ctx : client_ctx) (session : iprohc_session) (events : List client_event)
deriving DecidableEq, Repr

/-- Lines 300-449: signals, credentials, TUN interface, RAW socket, name
resolution, TCP connection and session context. -/
def client_setup (env : client_env) (opts : client_opts) : client_setup_result :=
  let ev0 := [client_event.sigprocmask env.sigprocmask]
  if env.sigprocmask ≠ 0 then
    client_setup_result.stop (client_result.exit 1 (ev0 ++ [client_event.trace_err 309]))
  else
    let signal_fd := env.signalfd
    let ev1 := ev0 ++ [client_event.signalfd signal_fd]
    if signal_fd < 0 then
      client_setup_result.stop (client_result.exit 1 (ev1 ++ [client_event.trace_err 318]))
    else
      let ev2 := ev1 ++ [client_event.gnutls_global_init,
        client_event.load_p12 true env.load_p12_null]
      if env.load_p12_null < 0 ∧ env.load_p12_empty < 0 then
        client_setup_result.stop (client_tls_deinit signal_fd 1
          (ev2 ++ [client_event.load_p12 false env.load_p12_empty,
            client_event.trace_err 338]))
      else
        let ev3 := if env.load_p12_null < 0 then
          ev2 ++ [client_event.load_p12 false env.load_p12_empty] else ev2
        let tun := env.create_tun
        let ev4 := ev3 ++ [client_event.create_tun tun]
        if tun < 0 then
          client_setup_result.stop (client_tls_deinit signal_fd 1
            (ev4 ++ [client_event.trace_err 349]))
        else
          let raw := env.create_raw
          let ev5 := ev4 ++ [client_event.create_raw raw]
          if raw < 0 then
            client_setup_result.stop (client_delete_tun signal_fd tun 1
              (ev5 ++ [client_event.trace_err 357]))
          else
            let ctx : client_ctx := { signal_fd := signal_fd, tun := tun, raw := raw }
            let ev6 := ev5 ++ [client_event.getaddrinfo opts.serv_addr opts.port
              env.getaddrinfo]
            if env.getaddrinfo ≠ 0 then
              client_setup_result.stop (client_delete_raw ctx 1
                (ev6 ++ [client_event.trace_err 378]))
            else if env.result = [] then
              client_setup_result.stop (client_free_addrinfo ctx 1
                (ev6 ++ [client_event.trace_err 390]))
            else
              match (client_connect env.result).1 with
              | none =>
                client_setup_result.stop (client_free_addrinfo ctx 1
                  (ev6 ++ (client_connect env.result).2 ++ [client_event.trace_err 411]))
              | some ctrl_sock =>
                let ev7 := ev6 ++ (client_connect env.result).2 ++
                  [client_event.getsockname ctrl_sock env.getsockname]
                if env.getsockname ≠ 0 then
                  client_setup_result.stop (client_close_tcp ctx ctrl_sock 1
                    (ev7 ++ [client_event.trace_err 424]))
                else
                  match env.iprohc_session_new with
                  | none =>
                    client_setup_result.stop (client_close_tcp ctx ctrl_sock 1
                      (ev7 ++ [client_event.iprohc_session_new ctrl_sock,
                        client_event.trace_err 443]))
                  | some session =>
                    client_setup_result.ready ctx session
                      (ev7 ++ [client_event.iprohc_session_new ctrl_sock])

/-- Lines 462-466: the `do ... while` loop around `gnutls_handshake`. The
result is the value of `ret` when the loop is left, `none` when the inputs
end before, and the events. -/
def client_handshake : List (Int × Bool) → Option Int × List client_event
  | [] => (none, [])
  | (ret, fatal) :: rest =>
    if ret < 0 ∧ ¬ fatal then
      ((client_handshake rest).1, client_event.gnutls_handshake ret ::
        (client_handshake rest).2)
    else (some ret, [client_event.gnutls_handshake ret])

/-- Lines 483-484: the test on the verification status of the server
certificate; `true` when the certificate is refused. -/
def certificate_refused (verify_status : Nat) : Bool :=
  decide (verify_status &&& GNUTLS_CERT_INVALID ≠ 0) &&
    decide (verify_status ≠ (GNUTLS_CERT_INSECURE_ALGORITHM ||| GNUTLS_CERT_INVALID))

/-- Lines 537-549: the `do ... while` loop that emits the connect message,
with `emitted_len` bytes out of `command_len` sent so far. The result is
`none` when the inputs end before the loop is left, otherwise whether the
message was sent, and the events. -/
def client_send_connect : List Int → Nat → Nat → Option Bool × List client_event
  | [], _, _ => (none, [])
  | ret :: rest, emitted_len, command_len =>
    if ret < 0 then
      (some false, [client_event.gnutls_record_send (command_len - emitted_len) ret,
        client_event.trace_err 544])
    else if emitted_len + ret.toNat < command_len then
      ((client_send_connect rest (emitted_len + ret.toNat) command_len).1,
       client_event.gnutls_record_send (command_len - emitted_len) ret ::
         (client_send_connect rest (emitted_len + ret.toNat) command_len).2)
    else (some true, [client_event.gnutls_record_send (command_len - emitted_len) ret])

/-- How the part of the client `main` from the TLS handshake to the emission
of the connect message ends. -/
inductive client_tls_result where
  /-- The function `main` ended. -/
  | stop (r : client_result)
  /-- The connect message is sent; the main loop is entered. -/
  | wait_answer (events : List client_event)
deriving DecidableEq, Repr

/-- Lines 517-550: the connect request, after the certificate is accepted. -/
def client_connect_request (env : client_env) (opts : client_opts) (ctx : client_ctx)
    (session : iprohc_session) (events : List client_event) : client_tls_result :=
  let ev1 := events ++ [client_event.gen_connrequest opts.packing]
  match env.gen_connrequest with
  | none =>
    client_tls_result.stop (client_close_tls env ctx session 1
      (ev1 ++ [client_event.trace_err 530]))
  | some tlv_len =>
    match (client_send_connect env.record_send 0 (1 + tlv_len)).1 with
    | none =>
      client_tls_result.stop (client_result.no_return
        (ev1 ++ (client_send_connect env.record_send 0 (1 + tlv_len)).2))
    | some false =>
      client_tls_result.stop (client_close_tls env ctx session 1
        (ev1 ++ (client_send_connect env.record_send 0 (1 + tlv_len)).2))
    | some true =>
      client_tls_result.wait_answer
        (ev1 ++ (client_send_connect env.record_send 0 (1 + tlv_len)).2)

/-- Lines 475-550: the check of the server certificate, then the connect
request. -/
def client_check_certificate (env : client_env) (opts : client_opts) (ctx : client_ctx)
    (session : iprohc_session) (events : List client_event) : client_tls_result :=
  let ev1 := events ++ [client_event.gnutls_certificate_verify_peers2 env.verify_peers2
    env.verify_status]
  if env.verify_peers2 < 0 then
    client_tls_result.stop (client_close_tls env ctx session (-3)
      (ev1 ++ [client_event.trace_err 478]))
  else if certificate_refused env.verify_status then
    client_tls_result.stop (client_close_tls env ctx session (-3)
      (ev1 ++ [client_event.trace_err 486]))
  else client_connect_request env opts ctx session ev1

/-- Lines 452-550: the TLS handshake, the check of the server certificate and
the connect request. -/
def client_tls (env : client_env) (opts : client_opts) (ctx : client_ctx)
    (session : iprohc_session) (events : List client_event) : client_tls_result :=
  let ev1 := events ++ (client_handshake env.handshake).2
  match (client_handshake env.handshake).1 with
  | none => client_tls_result.stop (client_result.no_return ev1)
  | some ret =>
    if ret < 0 then
      client_tls_result.stop (client_free_session env ctx 2
        (ev1 ++ [client_event.trace_err 469]))
    else client_check_certificate env opts ctx session ev1

/-- Lines 567-571: the timeout of `select`, in seconds; `timeout_orig` is a
`size_t`. -/
def client_timeout (session : iprohc_session) : Nat :=
  if session.status = iprohc_session_status_t.IPROHC_SESSION_CONNECTED then
    (session.params.keepalive_timeout * 2) % 2 ^ 64
  else 80

/-- How one iteration of the main loop of the client ends. -/
inductive client_iter_result where
  /-- The end of the body or a `continue` is reached with `is_client_alive`
  still true. -/
  | continue_loop (session : iprohc_session) (events : List client_event)
  /-- The variable `is_client_alive` was set to false. -/
  | alive_false (session : iprohc_session) (events : List client_event)
  /-- The statement `goto close_tls` was reached. -/
  | goto_close_tls (session : iprohc_session) (events : List client_event)
deriving DecidableEq, Repr

/-- Lines 651-670: the part of the loop body for the TCP socket. -/
def client_iteration_tcp (it : client_iter) (session : iprohc_session)
    (events : List client_event) : client_iter_result :=
  if it.tcp_socket_isset then
    let ev1 := events ++ [client_event.gnutls_record_recv it.gnutls_record_recv]
    if it.gnutls_record_recv < 0 then
      client_iter_result.goto_close_tls session (ev1 ++ [client_event.trace_err 656])
    else if it.gnutls_record_recv = 0 then
      client_iter_result.goto_close_tls session (ev1 ++ [client_event.trace_err 662])
    else
      let r := it.handle_message session
      let ev2 := ev1 ++ [client_event.handle_message it.gnutls_record_recv]
      if ¬ r.1 then client_iter_result.goto_close_tls r.2 (ev2 ++ [client_event.trace_err 667])
      else client_iter_result.continue_loop r.2 ev2
  else client_iter_result.continue_loop session events

/-- Lines 562-670: the body of `while(is_client_alive)`. -/
def client_iteration (it : client_iter) (session : iprohc_session)
    (events : List client_event) : client_iter_result :=
  let timeout_orig := client_timeout session
  let ev1 := events ++ [client_event.select timeout_orig it.select]
  if it.select < 0 then
    if it.errno_is_EINTR then client_iter_result.continue_loop session ev1
    else client_iter_result.goto_close_tls session (ev1 ++ [client_event.trace_err 589])
  else if it.select = 0 then
    client_iter_result.goto_close_tls session (ev1 ++ [client_event.trace_warning 595])
  else if it.signal_fd_isset then
    let ev2 := ev1 ++ [client_event.read_signal_fd it.read]
    if it.read < 0 then
      client_iter_result.continue_loop session (ev2 ++ [client_event.trace_err 608])
    else if it.read ≠ sizeof_signalfd_siginfo then
      client_iter_result.continue_loop session (ev2 ++ [client_event.trace_err 614])
    else if it.ssi_signo = SIGINT ∨ it.ssi_signo = SIGTERM ∨ it.ssi_signo = SIGQUIT then
      client_iter_result.alive_false session ev2
    else client_iteration_tcp it session ev2
  else client_iteration_tcp it session ev1

/-- How the main loop of the client ends. -/
inductive client_loop_result where
  /-- The loop condition was found false: a signal cleared `is_client_alive`. -/
  | interrupted (session : iprohc_session) (events : List client_event)
  /-- The loop was left by `goto close_tls`. -/
  | close_tls (session : iprohc_session) (events : List client_event)
  /-- The inputs end while the loop goes on. -/
  | running (events : List client_event)
deriving DecidableEq, Repr

/-- Lines 560-671: the loop `while(is_client_alive)`. -/
def client_loop : List client_iter → iprohc_session → List client_event → client_loop_result
  | [], _, events => client_loop_result.running events
  | it :: rest, session, events =>
    match client_iteration it session events with
    | client_iter_result.continue_loop s1 ev1 => client_loop rest s1 ev1
    | client_iter_result.alive_false s1 ev1 => client_loop_result.interrupted s1 ev1
    | client_iter_result.goto_close_tls s1 ev1 => client_loop_result.close_tls s1 ev1

/-- Lines 673-713: what the client `main` does once the loop is left. In the
loop `exit_status` has the value 1 it was initialised with. -/
def client_after_loop (env : client_env) (ctx : client_ctx) :
    client_loop_result → client_result
  | client_loop_result.interrupted session events =>
    if ¬ env.client_send_disconnect_msg then
      client_close_tls env ctx session 0
        (events ++ [client_event.client_send_disconnect_msg, client_event.trace_warning 678])
    else
      client_close_tls env ctx session 0 (events ++ [client_event.client_send_disconnect_msg])
  | client_loop_result.close_tls session events => client_close_tls env ctx session 1 events
  | client_loop_result.running events => client_result.no_return events

/-- Lines 296-713: the client `main` after the checks of the mandatory
options. -/
def client_run (env : client_env) (opts : client_opts) : client_result :=
  match client_setup env opts with
  | client_setup_result.stop r => r
  | client_setup_result.ready ctx session events =>
    match client_tls env opts ctx session events with
    | client_tls_result.stop r => r
    | client_tls_result.wait_answer ev1 =>
      client_after_loop env ctx (client_loop env.iterations session ev1)

/-- The function `main` of the client. -/
def client_main (env : client_env) : client_result :=
  match client_process_options env.options initial_client_opts with
  | client_parse_result.goto_error e => client_result.exit 1 [e]
  | client_parse_result.parsed opts =>
    if opts.serv_addr = "" then client_result.exit 1 [client_event.trace_err 268]
    else if opts.tun_name = "" then client_result.exit 1 [client_event.trace_err 275]
    else if opts.basedev = "" then client_result.exit 1 [client_event.trace_err 282]
    else if opts.pkcs12_f = "" then client_result.exit 1 [client_event.trace_err 289]
    else client_run env opts

/-- A session as `iprohc_session_new` leaves it, before the server answered. -/
def sample_session : iprohc_session :=
  { tcp_socket := 6
    tls_session := 1
    status := iprohc_session_status_t.IPROHC_SESSION_CONNECTING
    params := { keepalive_timeout := 0 } }

/-- An iteration of the client loop in which the signal `signo` is read from
the signal descriptor. -/
def sample_signal_iter (signo : Nat) : client_iter :=
  { select := 1
    errno_is_EINTR := false
    signal_fd_isset := true
    read := 128
    ssi_signo := signo
    tcp_socket_isset := false
    gnutls_record_recv := 0
    handle_message := fun session => (true, session) }

/-- An iteration of the client loop in which `select` returns `ret` with no
descriptor set. -/
def sample_select_iter (ret : Int) : client_iter :=
  { select := ret
    errno_is_EINTR := false
    signal_fd_isset := false
    read := 0
    ssi_signo := 0
    tcp_socket_isset := false
    gnutls_record_recv := 0
    handle_message := fun session => (true, session) }

/-- An iteration of the client loop in which a message of 30 bytes is received
and `handle_message` accepts it as CONNECT_OK with keepalive timeout 60. -/
def sample_connect_ok_iter : client_iter :=
  { select := 1
    errno_is_EINTR := false
    signal_fd_isset := false
    read := 0
    ssi_signo := 0
    tcp_socket_isset := true
    gnutls_record_recv := 30
    handle_message := fun session =>
      (true, { session with
                 status := iprohc_session_status_t.IPROHC_SESSION_CONNECTED
                 params := { keepalive_timeout := 60 } }) }

/-- A run of `iprohc_client -r 192.168.1.14 -b eth0 -i iprohc -P client.p12` in
which every call before the main loop succeeds, the server certificate has
the verification status `verify_status`, and the loop makes the iterations
`iterations`. -/
def sample_client_env (verify_status : Nat) (iterations : List client_iter) : client_env :=
  { options := [client_getopt.opt_r "192.168.1.14", client_getopt.opt_b "eth0" 2,
      client_getopt.opt_i "iprohc", client_getopt.opt_P "client.p12"]
    sigprocmask := 0
    signalfd := 3
    load_p12_null := 0
    load_p12_empty := 0
    create_tun := 4
    create_raw := 5
    getaddrinfo := 0
    result := [(6, 0)]
    getsockname := 0
    iprohc_session_new := some sample_session
    handshake := [(0, false)]
    verify_peers2 := 0
    verify_status := verify_status
    gen_connrequest := some 3
    record_send := [4]
    iterations := iterations
    client_send_disconnect_msg := true
    iprohc_session_free := true }

/-- The state in which `main` enters the main loop (lines 586 and 733): an
empty slot table, and the events of the startup up to the creation of the RAW
routing thread. -/
def main_loop_start (env : startup_env) (opts : server_opts) (tun : Int)
    (events : List server_event) : server_state :=
  { clients := List.replicate opts.clients_max_nr zeroed_client
    clients_nr := 0
    events := events ++
      [server_event.pthread_create_route type_route.TUN tun opts.clients_max_nr
        env.pthread_create_tun,
       server_event.create_raw env.create_raw,
       server_event.pthread_create_route type_route.RAW env.create_raw
        env.route_args_raw_clients_max_nr env.pthread_create_raw] }

/-- The events at the end of an iteration of the client loop. -/
def client_iter_result.events : client_iter_result → List client_event
  | client_iter_result.continue_loop _ events => events
  | client_iter_result.alive_false _ events => events
  | client_iter_result.goto_close_tls _ events => events

/-- The condition under which an iteration of the client loop clears
`is_client_alive`: `select` reports a descriptor, the signal descriptor is
set, a whole `struct signalfd_siginfo` is read, and the signal is SIGINT,
SIGTERM or SIGQUIT. -/
def shutdown_signal_read (it : client_iter) : Prop :=
  0 < it.select ∧ it.signal_fd_isset = true ∧ it.read = sizeof_signalfd_siginfo ∧
    (it.ssi_signo = SIGINT ∨ it.ssi_signo = SIGTERM ∨ it.ssi_signo = SIGQUIT)

/-- The client `main` reaches its main loop with the descriptors `ctx`, the
session `session` and the events `events`: the options are parsed, the four
mandatory ones are not empty, and the setup, the handshake, the check of the
certificate and the emission of the connect message succeed. -/
def client_reaches_loop (env : client_env) (ctx : client_ctx) (session : iprohc_session)
    (events : List client_event) : Prop :=
  ∃ opts ev0,
    client_process_options env.options initial_client_opts =
      client_parse_result.parsed opts ∧
    opts.serv_addr ≠ "" ∧ opts.tun_name ≠ "" ∧ opts.basedev ≠ "" ∧ opts.pkcs12_f ≠ "" ∧
    client_setup env opts = client_setup_result.ready ctx session ev0 ∧
    client_tls env opts ctx session ev0 = client_tls_result.wait_answer events

/-- A result of the client `main` other than a return of 0: no return, or a
return of 1, 2 or -3. -/
def client_result.not_zero (r : client_result) : Prop :=
  (∃ ev, r = client_result.no_return ev) ∨
    ∃ es ev, r = client_result.exit es ev ∧ (es = 1 ∨ es = 2 ∨ es = -3)

/-! ## The slot selected by one step of `route` -/

/-- Lines 119-166: the value of `i` when the `for` loop of `route` is left,
for a scan from index `i` on with `fuel` = `clients_max_nr - i`: `some j` when
the loop is left by the `break` at slot `j`, `none` when it runs to its end.
The outer `none` stands for a slot indexed outside the table. -/
def route_selected (type : type_route) (clients : List client) (addr : in_addr) :
    Nat → Nat → Option (Option Nat)
  | _, 0 => some none
  | i, fuel + 1 =>
    match clients[i]? with
    | none => none
    | some c =>
      if c.is_init then
        match type with
        | type_route.TUN =>
          if addr.s_addr = c.local_address.s_addr then some (some i)
          else route_selected type clients addr (i + 1) fuel
        | type_route.RAW =>
          if addr.s_addr = c.tunnel.dest_address.s_addr then some (some i)
          else route_selected type clients addr (i + 1) fuel
      else route_selected type clients addr (i + 1) fuel

/-- The slot selected by the step of `route` that reads `data` into a buffer
that held `buffer` before (lines 105-166). -/
def route_step_selected (arg : route_args) (buffer data : List Nat) : Option (Option Nat) :=
  route_selected arg.type arg.clients
    (route_addr arg.type (data ++ buffer.drop data.length)) 0 arg.clients_max_nr

/-- The result of a step of `route` without the content of the local buffer
it leaves behind. -/
def route_step_result.effects : route_step_result → route_step_result
  | route_step_result.next _ clients events => route_step_result.next [] clients events
  | r => r

/-- The assumption that separates the stores of the main loop from those of
its callees: `handle_client_request`, `stop_client_tunnel` and `del_client`
return their slot with the `tunnel.status` they found in it. -/
def callees_keep_status (env : loop_env) : Prop :=
  (∀ j c, (env.handle_client_request j c).2.tunnel.status = c.tunnel.status) ∧
  (∀ j c, (env.stop_client_tunnel j c).tunnel.status = c.tunnel.status) ∧
  (∀ j c, (env.del_client j c).tunnel.status = c.tunnel.status)

/-- The condition under which the body of the loop over the slots stores
PENDING_DELETE in slot `j`, which holds `c` (lines 837, 905-929): the slot is
occupied and in status CONNECTING, its control socket is reported readable and
`handle_client_request` returns a negative value. -/
def connect_failed (env : loop_env) (j : Nat) (c : client) : Prop :=
  c.is_init = true ∧
    c.tunnel.status = iprohc_tunnel_status_t.IPROHC_TUNNEL_CONNECTING ∧
    env.FD_ISSET c.tcp_socket = true ∧ (env.handle_client_request j c).1 < 0

/-- An occupied slot in status CONNECTING. -/
def connecting_slot : client :=
  { sample_slot 2 7 11 13 with
    tunnel := { (sample_slot 2 7 11 13).tunnel with
      status := iprohc_tunnel_status_t.IPROHC_TUNNEL_CONNECTING } }

/-- The convention of GnuTLS on the status word that
`gnutls_certificate_verify_peers2` stores: a certificate that fails the
verification has GNUTLS_CERT_INVALID set, the other flags say why; so a status
that is not zero has this bit set. The test of lines 483-484 relies on it. -/
def verify_status_reports_invalid (verify_status : Nat) : Prop :=
  verify_status ≠ 0 → verify_status &&& GNUTLS_CERT_INVALID ≠ 0

/-- The assumption on `new_client` (declared in `client.h`) under which the
assertions on `clients_nr` hold: when it returns a negative value, it leaves
the free slot it was given free. -/
def new_client_failure_leaves_free (env : loop_env) : Prop :=
  ∀ i c, c.is_init = false → (env.new_client i c).1 < 0 →
    (env.new_client i c).2.is_init = false

/-- An iteration at second 100 in which every mutex call returns 0, `pselect`
reports the listening socket 5 readable and `new_client` returns -1, leaving
`is_init` of the slot it was given at `mark`. -/
def sample_env_new_client_fails (mark : Bool) : loop_env :=
  { sample_env 100 (fun fd => decide (fd = 5)) 0 0 with
    new_client := fun _ c => (-1, { c with is_init := mark }) }

/-! ## Theorems -/

theorem route_scan_step_skip (type : type_route) (clients : List client) (addr : in_addr)
    (buffer : List Nat) (len : Nat) (wret : Int) (i fuel : Nat) (c : client)
    (hc : clients[i]? = some c) (hm : route_match type addr c = false) :
    route_scan type clients addr buffer len wret i (fuel + 1) =
      route_scan type clients addr buffer len wret (i + 1) fuel := by
  rw [route_scan, hc]
  cases type <;> cases hi : c.is_init <;> simp_all [route_match]

theorem route_scan_step_hit (type : type_route) (clients : List client) (addr : in_addr)
    (buffer : List Nat) (len : Nat) (wret : Int) (i fuel : Nat) (c : client)
    (hc : clients[i]? = some c) (hm : route_match type addr c = true) :
    route_scan type clients addr buffer len wret i (fuel + 1) =
      some (route_write (route_pipe type c) buffer len wret) := by
  rw [route_scan, hc]
  cases type <;> cases hi : c.is_init <;> simp_all [route_match, route_pipe]

theorem route_scan_found (type : type_route) (clients : List client) (addr : in_addr)
    (buffer : List Nat) (len : Nat) (wret : Int) (j : Nat) (c : client)
    (hc : clients[j]? = some c) (hm : route_match type addr c = true) :
    ∀ (fuel i : Nat), i ≤ j → j < i + fuel →
      (∀ k d, i ≤ k → k < j → clients[k]? = some d → route_match type addr d = false) →
      route_scan type clients addr buffer len wret i fuel =
        some (route_write (route_pipe type c) buffer len wret) := by
  intro fuel
  induction fuel with
  | zero => intro i h1 h2; omega
  | succ n ih =>
    intro i h1 h2 hlow
    by_cases hij : i = j
    · subst hij
      exact route_scan_step_hit type clients addr buffer len wret i n c hc hm
    · have hlt : i < j := by omega
      have hjl : j < clients.length := by
        rcases List.getElem?_eq_some_iff.mp hc with ⟨h, _⟩
        exact h
      have hil : i < clients.length := by omega
      have hd : clients[i]? = some clients[i] := List.getElem?_eq_getElem hil
      rw [route_scan_step_skip type clients addr buffer len wret i n _ hd
        (hlow i _ (le_refl i) hlt hd)]
      exact ih (i + 1) (by omega) (by omega)
        (fun k d hk1 hk2 hk => hlow k d (by omega) hk2 hk)

theorem route_scan_none (type : type_route) (clients : List client) (addr : in_addr)
    (buffer : List Nat) (len : Nat) (wret : Int) :
    ∀ (fuel i : Nat), i + fuel ≤ clients.length →
      (∀ k d, i ≤ k → k < i + fuel → clients[k]? = some d → route_match type addr d = false) →
      route_scan type clients addr buffer len wret i fuel = some [] := by
  intro fuel
  induction fuel with
  | zero => intro i _ _; rfl
  | succ n ih =>
    intro i hb hall
    have hil : i < clients.length := by omega
    have hd : clients[i]? = some clients[i] := List.getElem?_eq_getElem hil
    rw [route_scan_step_skip type clients addr buffer len wret i n _ hd
      (hall i _ (le_refl i) (by omega) hd)]
    exact ih (i + 1) (by omega) (fun k d hk1 hk2 hk => hall k d (by omega) (by omega) hk)

theorem route_writes_route_write (fd : Int) (buffer : List Nat) (len : Nat) (wret : Int) :
    route_writes (route_write fd buffer len wret) = [(fd, buffer.take len)] := by
  unfold route_write
  split_ifs <;> simp [route_writes]

theorem read_buffer_take (buffer data : List Nat) :
    (data ++ buffer.drop data.length).take data.length = data := by
  simp

theorem route_step_found (arg : route_args) (buffer data : List Nat) (wret : Int)
    (hpos : 0 < data.length) (hlen : data.length ≤ buffer.length)
    (j : Nat) (c : client) (hj : j < arg.clients_max_nr) (hc : arg.clients[j]? = some c)
    (hm : route_match arg.type (route_addr arg.type (data ++ buffer.drop data.length)) c = true)
    (hlow : ∀ k d, k < j → arg.clients[k]? = some d →
      route_match arg.type (route_addr arg.type (data ++ buffer.drop data.length)) d = false) :
    route_step arg buffer (some data) wret =
      route_step_result.next (data ++ buffer.drop data.length) arg.clients
        (route_write (route_pipe arg.type c) (data ++ buffer.drop data.length)
          data.length wret) := by
  have h0 : ¬ data.length = 0 := by omega
  have h1 : ¬ data.length > buffer.length := by omega
  simp only [route_step, h0, h1, if_false]
  rw [route_scan_found arg.type arg.clients _ _ data.length wret j c hc hm
    arg.clients_max_nr 0 (Nat.zero_le j) (by omega)
    (fun k d _ hk hd => hlow k d hk hd)]

theorem route_step_none (arg : route_args) (buffer data : List Nat) (wret : Int)
    (hmax : arg.clients_max_nr ≤ arg.clients.length)
    (hpos : 0 < data.length) (hlen : data.length ≤ buffer.length)
    (hall : ∀ k d, k < arg.clients_max_nr → arg.clients[k]? = some d →
      route_match arg.type (route_addr arg.type (data ++ buffer.drop data.length)) d = false) :
    route_step arg buffer (some data) wret =
      route_step_result.next (data ++ buffer.drop data.length) arg.clients [] := by
  have h0 : ¬ data.length = 0 := by omega
  have h1 : ¬ data.length > buffer.length := by omega
  simp only [route_step, h0, h1, if_false]
  rw [route_scan_none arg.type arg.clients _ _ data.length wret
    arg.clients_max_nr 0 (by omega)
    (fun k d _ hk hd => hall k d (by omega) hd)]

theorem in_addr_eq_iff (a b : in_addr) : a.s_addr = b.s_addr ↔ a = b := by
  cases a; cases b; simp

theorem route_match_tun (addr : in_addr) (c : client) :
    route_match type_route.TUN addr c = true ↔
      (c.is_init = true ∧ c.local_address = addr) := by
  simp only [route_match, Bool.and_eq_true, decide_eq_true_eq]
  constructor
  · rintro ⟨h1, h2⟩; exact ⟨h1, ((in_addr_eq_iff _ _).mp h2).symm⟩
  · rintro ⟨h1, h2⟩; exact ⟨h1, (in_addr_eq_iff _ _).mpr h2.symm⟩

theorem route_match_raw (addr : in_addr) (c : client) :
    route_match type_route.RAW addr c = true ↔
      (c.is_init = true ∧ c.tunnel.dest_address = addr) := by
  simp only [route_match, Bool.and_eq_true, decide_eq_true_eq]
  constructor
  · rintro ⟨h1, h2⟩; exact ⟨h1, ((in_addr_eq_iff _ _).mp h2).symm⟩
  · rintro ⟨h1, h2⟩; exact ⟨h1, (in_addr_eq_iff _ _).mpr h2.symm⟩

/-- C1: in one step of the TUN routing thread, the `len` bytes read are
written to `fake_tun[1]` of the lowest-index occupied slot whose
`local_address` is the destination the router extracted, these are the only
bytes written in the step, and when no occupied slot has that address nothing
is written and the thread goes on to the next read. -/
theorem route_tun_step_writes_lowest_matching_slot
    (arg : route_args) (buffer data : List Nat) (wret : Int)
    (htype : arg.type = type_route.TUN)
    (hmax : arg.clients_max_nr ≤ arg.clients.length)
    (hpos : 0 < data.length) (hlen : data.length ≤ buffer.length) :
    (∀ i c, i < arg.clients_max_nr → arg.clients[i]? = some c → c.is_init = true →
        c.local_address = route_addr type_route.TUN (data ++ buffer.drop data.length) →
        (∀ k d, k < i → arg.clients[k]? = some d →
          ¬ (d.is_init = true ∧
             d.local_address = route_addr type_route.TUN (data ++ buffer.drop data.length))) →
        ∃ events,
          route_step arg buffer (some data) wret =
            route_step_result.next (data ++ buffer.drop data.length) arg.clients events ∧
          route_writes events = [(c.tunnel.fake_tun.2, data)]) ∧
    ((∀ k d, k < arg.clients_max_nr → arg.clients[k]? = some d →
          ¬ (d.is_init = true ∧
             d.local_address = route_addr type_route.TUN (data ++ buffer.drop data.length))) →
        route_step arg buffer (some data) wret =
          route_step_result.next (data ++ buffer.drop data.length) arg.clients []) := by
  constructor
  · intro i c hi hc hinit haddr hlow
    refine ⟨_, route_step_found arg buffer data wret hpos hlen i c hi hc ?_ ?_, ?_⟩
    · rw [htype]; exact (route_match_tun _ c).mpr ⟨hinit, haddr⟩
    · intro k d hk hd
      rw [htype]
      cases hm : route_match type_route.TUN
        (route_addr type_route.TUN (data ++ buffer.drop data.length)) d
      · rfl
      · exact absurd ((route_match_tun _ d).mp hm) (hlow k d hk hd)
    · rw [route_writes_route_write, read_buffer_take, htype]; rfl
  · intro hall
    refine route_step_none arg buffer data wret hmax hpos hlen ?_
    intro k d hk hd
    rw [htype]
    cases hm : route_match type_route.TUN
      (route_addr type_route.TUN (data ++ buffer.drop data.length)) d
    · rfl
    · exact absurd ((route_match_tun _ d).mp hm) (hall k d hk hd)

/-- Witness for C1: with the three-slot sample table, the packet for
192.168.99.3 is written to descriptor 21, the `fake_tun[1]` of slot 2. -/
theorem route_tun_step_writes_lowest_matching_slot_witness :
    ∃ events,
      route_step { fd := 3, clients := sample_table, clients_max_nr := 3,
                   type := type_route.TUN } sample_buffer (some sample_tun_packet) 24 =
        route_step_result.next
          (sample_tun_packet ++ sample_buffer.drop sample_tun_packet.length)
          sample_table events ∧
      route_writes events = [(21, sample_tun_packet)] :=
  (route_tun_step_writes_lowest_matching_slot
    { fd := 3, clients := sample_table, clients_max_nr := 3, type := type_route.TUN }
    sample_buffer sample_tun_packet 24 rfl (by decide) (by decide) (by decide)).1
    2 (sample_slot 3 8 21 23) (by decide) rfl rfl rfl
    (by
      intro k d hk hd
      have hk2 : k = 0 ∨ k = 1 := by omega
      rcases hk2 with h | h
      · subst h
        have hd0 : d = free_slot := by
          simpa [sample_table] using hd.symm
        subst hd0
        decide
      · subst h
        have hd1 : d = sample_slot 2 7 11 13 := by
          simpa [sample_table] using hd.symm
        subst hd1
        decide)

theorem route_match_false_of_not {P : Prop} (b : Bool) (hiff : b = true ↔ P) (hn : ¬ P) :
    b = false := by
  cases hb : b
  · rfl
  · exact absurd (hiff.mp hb) hn

/-- C2: in one step of the RAW routing thread on a datagram that has the bytes
12 to 15, the lookup key is those four bytes of the datagram, and the datagram
is written to `fake_raw[1]` of the occupied slot whose `tunnel.dest_address`
equals the key (the lowest-index one, should several have it); that write is
the only one of the step. -/
theorem route_raw_step_key_and_delivery
    (arg : route_args) (buffer data : List Nat) (wret : Int)
    (htype : arg.type = type_route.RAW)
    (h16 : 16 ≤ data.length) (hlen : data.length ≤ buffer.length) :
    route_addr arg.type (data ++ buffer.drop data.length) =
      { s_addr := { b0 := data.getD 12 0, b1 := data.getD 13 0,
                    b2 := data.getD 14 0, b3 := data.getD 15 0 } } ∧
    (∀ i c, i < arg.clients_max_nr → arg.clients[i]? = some c → c.is_init = true →
        c.tunnel.dest_address =
          { s_addr := { b0 := data.getD 12 0, b1 := data.getD 13 0,
                        b2 := data.getD 14 0, b3 := data.getD 15 0 } } →
        (∀ k d, k < i → arg.clients[k]? = some d →
          ¬ (d.is_init = true ∧ d.tunnel.dest_address =
              { s_addr := { b0 := data.getD 12 0, b1 := data.getD 13 0,
                            b2 := data.getD 14 0, b3 := data.getD 15 0 } })) →
        ∃ events,
          route_step arg buffer (some data) wret =
            route_step_result.next (data ++ buffer.drop data.length) arg.clients events ∧
          route_writes events = [(c.tunnel.fake_raw.2, data)]) := by
  have hkey : route_addr arg.type (data ++ buffer.drop data.length) =
      { s_addr := { b0 := data.getD 12 0, b1 := data.getD 13 0,
                    b2 := data.getD 14 0, b3 := data.getD 15 0 } } := by
    rw [htype]
    simp only [route_addr, load_word]
    rw [List.getD_append _ _ _ _ (by omega), List.getD_append _ _ _ _ (by omega),
      List.getD_append _ _ _ _ (by omega), List.getD_append _ _ _ _ (by omega)]
  refine ⟨hkey, ?_⟩
  intro i c hi hc hinit haddr hlow
  refine ⟨_, route_step_found arg buffer data wret (by omega) hlen i c hi hc ?_ ?_, ?_⟩
  · rw [hkey, htype]; exact (route_match_raw _ c).mpr ⟨hinit, haddr⟩
  · intro k d hk hd
    rw [hkey, htype]
    exact route_match_false_of_not _ (route_match_raw _ d) (hlow k d hk hd)
  · rw [route_writes_route_write, read_buffer_take, htype]; rfl

/-- Witness for C2: with the three-slot sample table, the datagram from
10.0.0.7 is written to descriptor 13, the `fake_raw[1]` of slot 1. -/
theorem route_raw_step_key_and_delivery_witness :
    ∃ events,
      route_step { fd := 4, clients := sample_table, clients_max_nr := 3,
                   type := type_route.RAW } sample_buffer (some sample_raw_packet) 20 =
        route_step_result.next
          (sample_raw_packet ++ sample_buffer.drop sample_raw_packet.length)
          sample_table events ∧
      route_writes events = [(13, sample_raw_packet)] :=
  (route_raw_step_key_and_delivery
    { fd := 4, clients := sample_table, clients_max_nr := 3, type := type_route.RAW }
    sample_buffer sample_raw_packet 20 rfl (by decide) (by decide)).2
    1 (sample_slot 2 7 11 13) (by decide) rfl rfl rfl
    (by
      intro k d hk hd
      have hk0 : k = 0 := by omega
      subst hk0
      have hd0 : d = free_slot := by
        simpa [sample_table] using hd.symm
      subst hd0
      decide)

/-- C3, counterexample: a 40-byte buffer read from the TUN device carries
192.168.99.2 at offsets 20-23 and 192.168.99.3 at offsets 36-39; the address
`route` looks up is not the word at offset 36, and the packet is written to
descriptor 11, the pipe of the session 192.168.99.2, not to descriptor 21 of
the session 192.168.99.3. -/
theorem route_tun_key_offset_36_counterexample :
    load_word (sample_tun_packet_40 ++ sample_buffer.drop sample_tun_packet_40.length) 36 =
      { b0 := 192, b1 := 168, b2 := 99, b3 := 3 } ∧
    route_addr type_route.TUN
        (sample_tun_packet_40 ++ sample_buffer.drop sample_tun_packet_40.length) ≠
      { s_addr := load_word
          (sample_tun_packet_40 ++ sample_buffer.drop sample_tun_packet_40.length) 36 } ∧
    route_step { fd := 3, clients := sample_table_swapped, clients_max_nr := 2,
                 type := type_route.TUN } sample_buffer (some sample_tun_packet_40) 40 =
      route_step_result.next
        (sample_tun_packet_40 ++ sample_buffer.drop sample_tun_packet_40.length)
        sample_table_swapped [route_event.write 11 sample_tun_packet_40] := by
  refine ⟨by decide, by decide, by decide⟩

/-- C3, amended: for every packet read from the virtual interface the address
used for the session lookup is the four bytes at offsets 20-23 of the buffer
that was read (bytes 16-19 of an IPv4 header that starts after a 4-byte
prefix), which are bytes of the packet itself when it has at least 24 bytes;
the packet goes to the lowest-index occupied slot whose `local_address` is
that word, and nowhere when there is none. -/
theorem route_tun_step_key_is_offset_20
    (arg : route_args) (buffer data : List Nat) (wret : Int)
    (htype : arg.type = type_route.TUN)
    (hmax : arg.clients_max_nr ≤ arg.clients.length)
    (hpos : 0 < data.length) (hlen : data.length ≤ buffer.length) :
    route_addr arg.type (data ++ buffer.drop data.length) =
      { s_addr := { b0 := (data ++ buffer.drop data.length).getD 20 0,
                    b1 := (data ++ buffer.drop data.length).getD 21 0,
                    b2 := (data ++ buffer.drop data.length).getD 22 0,
                    b3 := (data ++ buffer.drop data.length).getD 23 0 } } ∧
    (24 ≤ data.length →
      route_addr arg.type (data ++ buffer.drop data.length) =
        { s_addr := { b0 := data.getD 20 0, b1 := data.getD 21 0,
                      b2 := data.getD 22 0, b3 := data.getD 23 0 } }) ∧
    (∀ i c, i < arg.clients_max_nr → arg.clients[i]? = some c → c.is_init = true →
        c.local_address =
          { s_addr := { b0 := (data ++ buffer.drop data.length).getD 20 0,
                        b1 := (data ++ buffer.drop data.length).getD 21 0,
                        b2 := (data ++ buffer.drop data.length).getD 22 0,
                        b3 := (data ++ buffer.drop data.length).getD 23 0 } } →
        (∀ k d, k < i → arg.clients[k]? = some d →
          ¬ (d.is_init = true ∧ d.local_address =
              { s_addr := { b0 := (data ++ buffer.drop data.length).getD 20 0,
                            b1 := (data ++ buffer.drop data.length).getD 21 0,
                            b2 := (data ++ buffer.drop data.length).getD 22 0,
                            b3 := (data ++ buffer.drop data.length).getD 23 0 } })) →
        ∃ events,
          route_step arg buffer (some data) wret =
            route_step_result.next (data ++ buffer.drop data.length) arg.clients events ∧
          route_writes events = [(c.tunnel.fake_tun.2, data)]) ∧
    ((∀ k d, k < arg.clients_max_nr → arg.clients[k]? = some d →
          ¬ (d.is_init = true ∧ d.local_address =
              { s_addr := { b0 := (data ++ buffer.drop data.length).getD 20 0,
                            b1 := (data ++ buffer.drop data.length).getD 21 0,
                            b2 := (data ++ buffer.drop data.length).getD 22 0,
                            b3 := (data ++ buffer.drop data.length).getD 23 0 } })) →
        route_step arg buffer (some data) wret =
          route_step_result.next (data ++ buffer.drop data.length) arg.clients []) := by
  have hkey : route_addr arg.type (data ++ buffer.drop data.length) =
      { s_addr := { b0 := (data ++ buffer.drop data.length).getD 20 0,
                    b1 := (data ++ buffer.drop data.length).getD 21 0,
                    b2 := (data ++ buffer.drop data.length).getD 22 0,
                    b3 := (data ++ buffer.drop data.length).getD 23 0 } } := by
    rw [htype]; rfl
  refine ⟨hkey, ?_, ?_, ?_⟩
  · intro h24
    rw [hkey, List.getD_append _ _ _ _ (by omega), List.getD_append _ _ _ _ (by omega),
      List.getD_append _ _ _ _ (by omega), List.getD_append _ _ _ _ (by omega)]
  · intro i c hi hc hinit haddr hlow
    refine ⟨_, route_step_found arg buffer data wret hpos hlen i c hi hc ?_ ?_, ?_⟩
    · rw [hkey, htype]; exact (route_match_tun _ c).mpr ⟨hinit, haddr⟩
    · intro k d hk hd
      rw [hkey, htype]
      exact route_match_false_of_not _ (route_match_tun _ d) (hlow k d hk hd)
    · rw [route_writes_route_write, read_buffer_take, htype]; rfl
  · intro hall
    refine route_step_none arg buffer data wret hmax hpos hlen ?_
    intro k d hk hd
    rw [hkey, htype]
    exact route_match_false_of_not _ (route_match_tun _ d) (hall k d hk hd)

/-- Witness for the amended C3: on the 40-byte sample packet the lookup key is
192.168.99.2, read at offsets 20-23. -/
theorem route_tun_step_key_is_offset_20_witness :
    route_addr type_route.TUN
        (sample_tun_packet_40 ++ sample_buffer.drop sample_tun_packet_40.length) =
      { s_addr := { b0 := 192, b1 := 168, b2 := 99, b3 := 2 } } :=
  (route_tun_step_key_is_offset_20
    { fd := 3, clients := sample_table_swapped, clients_max_nr := 2,
      type := type_route.TUN }
    sample_buffer sample_tun_packet_40 40 rfl (by decide) (by decide) (by decide)).2.1
    (by decide)

theorem clear_low_bits_eq (addr sh : Nat) :
    addr - addr % 2 ^ sh = (addr >>> sh) <<< sh := by
  rw [Nat.shiftLeft_eq, Nat.shiftRight_eq_div_pow]
  have h := Nat.div_add_mod addr (2 ^ sh)
  have h2 : addr / 2 ^ sh * 2 ^ sh = 2 ^ sh * (addr / 2 ^ sh) := Nat.mul_comm _ _
  omega

theorem network_low_octet (addr sh : Nat) (hsh : sh ≤ 32) :
    (addr &&& ((0xffffffff <<< sh) % 2 ^ 32)) &&& 0xff = (addr - addr % 2 ^ sh) % 256 := by
  rw [clear_low_bits_eq]
  apply Nat.eq_of_testBit_eq
  intro i
  have h255 : (0xff : Nat) = 2 ^ 8 - 1 := by norm_num
  have h32 : (0xffffffff : Nat) = 2 ^ 32 - 1 := by norm_num
  have h256 : (256 : Nat) = 2 ^ 8 := by norm_num
  rw [h255, h32, h256]
  simp only [Nat.testBit_land, Nat.testBit_mod_two_pow, Nat.testBit_shiftLeft,
    Nat.testBit_two_pow_sub_one, Nat.testBit_shiftRight]
  by_cases h8 : i < 8 <;> by_cases hs : sh ≤ i
  · have e : sh + (i - sh) = i := by omega
    have h1 : i < 32 := by omega
    have h2 : i - sh < 32 := by omega
    simp [h8, hs, e, h1, h2]
  · simp [h8, hs]
  · simp [h8, hs]
  · simp [h8, hs]

/-- C4, counterexample: for 192.168.99.5 with prefix length 30 the width is 4,
not 2^(32-30) - 1 = 3: the network address 192.168.99.4 of that subnet does not
end in a zero octet and nothing is subtracted. -/
theorem iprohc_get_ipv4_range_width_counterexample :
    iprohc_get_ipv4_range_width 3232260869 30 = some 4 ∧
    iprohc_get_ipv4_range_width 3232260869 30 ≠ some (2 ^ (32 - 30) - 1) := by
  constructor <;> decide

/-- C4, amended: for every address and every prefix length p with
2 <= p <= 32 the result is 2^(32-p) minus 1 when the network address of the
subnet (the address with its 32-p host bits cleared) has a zero low octet, and
2^(32-p) otherwise; it is 3 for 192.168.99.1 with p = 30. -/
theorem iprohc_get_ipv4_range_width_network_octet (addr p : Nat)
    (h2 : 2 ≤ p) (h32 : p ≤ 32) :
    iprohc_get_ipv4_range_width addr p =
      some (if (addr - addr % 2 ^ (32 - p)) % 256 = 0 then 2 ^ (32 - p) - 1
            else 2 ^ (32 - p)) ∧
    iprohc_get_ipv4_range_width 3232260865 30 = some 3 := by
  refine ⟨?_, by decide⟩
  have ha : ¬ 32 < p := by omega
  have hb : ¬ 31 ≤ 32 - p := by omega
  simp only [iprohc_get_ipv4_range_width, ha, hb, if_false]
  rw [network_low_octet addr (32 - p) (by omega), Nat.one_shiftLeft]
  split_ifs <;> rfl

/-- Witness for the amended C4: 192.168.99.1 with prefix length 24. -/
theorem iprohc_get_ipv4_range_width_network_octet_witness :
    (2 ≤ 24 ∧ 24 ≤ 32) ∧ iprohc_get_ipv4_range_width 3232260865 24 = some 255 :=
  ⟨by decide,
    (iprohc_get_ipv4_range_width_network_octet 3232260865 24 (by decide) (by decide)).1.trans
      (by decide)⟩

/-! ### The main loop -/

theorem count_is_init_set (l : List client) (j : Nat) (c d : client)
    (hc : l[j]? = some c) :
    count_is_init (l.set j d) + (if c.is_init then 1 else 0) =
      count_is_init l + (if d.is_init then 1 else 0) := by
  induction l generalizing j with
  | nil => simp at hc
  | cons a t ih =>
    cases j with
    | zero =>
      simp only [List.getElem?_cons_zero, Option.some.injEq] at hc
      subst hc
      simp only [List.set_cons_zero, count_is_init, List.countP_cons]
      omega
    | succ k =>
      simp only [List.getElem?_cons_succ] at hc
      have h := ih k hc
      simp only [List.set_cons_succ, count_is_init, List.countP_cons] at h ⊢
      omega

theorem count_is_init_pos (l : List client) (j : Nat) (c : client)
    (hc : l[j]? = some c) (hi : c.is_init = true) : 0 < count_is_init l := by
  unfold count_is_init
  rw [List.countP_pos_iff]
  exact ⟨c, List.getElem?_mem hc, hi⟩

theorem count_is_init_le (l : List client) : count_is_init l ≤ l.length :=
  List.countP_le_length _

theorem collect_fds_ok (env : loop_env) :
    ∀ (fuel j : Nat) (st st1 : server_state),
      collect_fds env j fuel st = outcome.ok st1 → st1 = st := by
  intro fuel
  induction fuel with
  | zero =>
    intro j st st1 h
    simp only [collect_fds, outcome.ok.injEq] at h
    exact h.symm
  | succ n ih =>
    intro j st st1 h
    rw [collect_fds] at h
    split at h
    · exact absurd h (by simp)
    · split_ifs at h
      · exact ih _ _ _ h
      · exact ih _ _ _ h

theorem collect_fds_total (env : loop_env) (hm : mutex_calls_succeed env) :
    ∀ (fuel j : Nat) (st : server_state), j + fuel ≤ st.clients.length →
      collect_fds env j fuel st = outcome.ok st := by
  intro fuel
  induction fuel with
  | zero => intro j st _; rfl
  | succ n ih =>
    intro j st hb
    have hj : j < st.clients.length := by omega
    rw [collect_fds, List.getElem?_eq_getElem hj]
    simp only [(hm 746 j).1, (hm 760 j).2, ne_eq, not_true_eq_false, if_false, ite_self]
    exact ih (j + 1) st (by omega)

theorem count_is_init_eq_length (l : List client)
    (hall : ∀ k d, k < l.length → l[k]? = some d → d.is_init = true) :
    count_is_init l = l.length := by
  unfold count_is_init
  rw [List.countP_eq_length]
  intro a ha
  rcases List.mem_iff_getElem?.mp ha with ⟨n, hn⟩
  have hlt : n < l.length := (List.getElem?_eq_some_iff.mp hn).1
  exact hall n a hlt hn

theorem find_free_slot_spec (clients : List client) :
    ∀ (fuel i : Nat), i + fuel ≤ clients.length →
      ∃ r, find_free_slot clients i fuel = some r ∧ i ≤ r ∧ r ≤ i + fuel ∧
        (∀ k d, i ≤ k → k < r → clients[k]? = some d → d.is_init = true) ∧
        (r < i + fuel → ∃ c, clients[r]? = some c ∧ c.is_init = false) := by
  intro fuel
  induction fuel with
  | zero =>
    intro i _
    exact ⟨i, rfl, le_refl i, le_refl i, fun k d h1 h2 => by omega, fun h => by omega⟩
  | succ n ih =>
    intro i hb
    have hi : i < clients.length := by omega
    have hget : clients[i]? = some clients[i] := List.getElem?_eq_getElem hi
    cases hinit : clients[i].is_init
    · refine ⟨i, ?_, le_refl i, by omega, fun k d h1 h2 => by omega,
        fun _ => ⟨clients[i], hget, hinit⟩⟩
      rw [find_free_slot, hget]
      simp [hinit]
    · rcases ih (i + 1) (by omega) with ⟨r, hr, h1, h2, h3, h4⟩
      refine ⟨r, ?_, by omega, by omega, ?_, fun h => h4 (by omega)⟩
      · rw [find_free_slot, hget]
        simp [hinit, hr]
      · intro k d hk1 hk2 hd
        by_cases hki : k = i
        · subst hki
          rw [hget] at hd
          cases hd
          exact hinit
        · exact h3 k d (by omega) hk2 hd

theorem find_free_slot_of_invariant (ctx : server_ctx) (st : server_state)
    (hinv : loop_invariant ctx st) (hlt : st.clients_nr < ctx.opts.clients_max_nr) :
    ∃ i c, find_free_slot st.clients 0 ctx.opts.clients_max_nr = some i ∧
      i < ctx.opts.clients_max_nr ∧ st.clients[i]? = some c ∧ c.is_init = false ∧
      (∀ k d, k < i → st.clients[k]? = some d → d.is_init = true) := by
  rcases hinv with ⟨hlen, hcount⟩
  rcases find_free_slot_spec st.clients ctx.opts.clients_max_nr 0 (by omega) with
    ⟨r, hr, _, h2, h3, h4⟩
  have hrlt : r < ctx.opts.clients_max_nr := by
    by_contra hge
    have hreq : r = st.clients.length := by omega
    have hfull := count_is_init_eq_length st.clients
      (fun k d hk hd => h3 k d (Nat.zero_le k) (by omega) hd)
    omega
  rcases h4 (by omega) with ⟨c, hc, hfree⟩
  exact ⟨r, c, hr, hrlt, hc, hfree, fun k d hk hd => h3 k d (Nat.zero_le k) hk hd⟩

theorem accept_client_below (ctx : server_ctx) (env : loop_env) (st : server_state)
    (hinv : loop_invariant ctx st) (hlt : st.clients_nr < ctx.opts.clients_max_nr) :
    ∃ i c, i < ctx.opts.clients_max_nr ∧ st.clients[i]? = some c ∧ c.is_init = false ∧
      (∀ k d, k < i → st.clients[k]? = some d → d.is_init = true) ∧
      accept_client ctx env st = outcome.ok
        { clients := st.clients.set i (env.new_client i c).2
          clients_nr :=
            if 0 ≤ (env.new_client i c).1 then st.clients_nr + 1 else st.clients_nr
          events := st.events ++ (server_event.new_client i (env.new_client i c).1 ::
            (if (env.new_client i c).1 < 0 then [server_event.trace_err 820] else [])) } := by
  rcases find_free_slot_of_invariant ctx st hinv hlt with ⟨i, c, hfind, hi, hc, hfree, hlow⟩
  refine ⟨i, c, hi, hc, hfree, hlow, ?_⟩
  have hnge : ¬ st.clients_nr ≥ ctx.opts.clients_max_nr := by omega
  simp only [accept_client, hnge, if_false, hfind, hi, not_true_eq_false, hc,
    server_state.emit, server_state.set_client, hlt]
  by_cases hret : (env.new_client i c).1 < 0
  · have h0 : ¬ 0 ≤ (env.new_client i c).1 := by omega
    simp [hret, h0]
  · have h0 : 0 ≤ (env.new_client i c).1 := by omega
    simp [hret, h0]

theorem accept_client_full (ctx : server_ctx) (env : loop_env) (st : server_state)
    (hcap : st.clients_nr ≥ ctx.opts.clients_max_nr) :
    accept_client ctx env st = outcome.ok
      { clients := st.clients
        clients_nr := st.clients_nr
        events := st.events ++
          (server_event.trace_err 789 :: server_event.accept env.accept ::
            (if env.accept < 0 then [server_event.trace_err 796]
             else [server_event.close env.accept])) } := by
  simp only [accept_client, hcap, if_true, server_state.emit]
  split_ifs <;> simp

theorem loop_invariant_set (ctx : server_ctx) (st : server_state) (j : Nat) (c d : client)
    (es : List server_event)
    (hinv : loop_invariant ctx st) (hc : st.clients[j]? = some c)
    (hd : d.is_init = c.is_init) :
    loop_invariant ctx
      { clients := st.clients.set j d, clients_nr := st.clients_nr, events := es } := by
  rcases hinv with ⟨hlen, hcount⟩
  refine ⟨by simpa using hlen, ?_⟩
  have h := count_is_init_set st.clients j c d hc
  rw [hd] at h
  simp only
  omega

theorem dump_stats_client_ok (env : loop_env) (j : Nat) (st st1 : server_state)
    (h : dump_stats_client env j st = outcome.ok st1) :
    st1 = st.emit [server_event.dump_stats_client j] := by
  unfold dump_stats_client at h
  split_ifs at h
  simp only [outcome.ok.injEq] at h
  exact h.symm

theorem dump_stats_client_total (env : loop_env) (hm : mutex_calls_succeed env) (j : Nat)
    (st : server_state) :
    dump_stats_client env j st = outcome.ok (st.emit [server_event.dump_stats_client j]) := by
  simp [dump_stats_client, (hm 195 j).1, (hm 255 j).2]

theorem reap_client_invariant (ctx : server_ctx) (env : loop_env) (j : Nat) (c : client)
    (st st1 : server_state) (hinv : loop_invariant ctx st)
    (hc : st.clients[j]? = some c) (hinit : c.is_init = true)
    (hdel : (env.del_client j c).is_init = false)
    (h : reap_client ctx env j c st = outcome.ok st1) : loop_invariant ctx st1 := by
  unfold reap_client at h
  split_ifs at h with htry
  · split at h
    · rename_i st2 hdump
      have hst2 := dump_stats_client_ok env j st st2 hdump
      subst hst2
      simp only [server_state.emit, server_state.set_client] at h
      split_ifs at h with h1 h2 h3
      simp only [outcome.ok.injEq] at h
      subst h
      rcases hinv with ⟨hlen, hcount⟩
      refine ⟨by simpa using hlen, ?_⟩
      have hs := count_is_init_set st.clients j c (env.del_client j c) hc
      rw [hinit, hdel] at hs
      simp only [if_true] at hs
      simp only
      simp at hs
      omega
    · rename_i other hne
      cases hd : dump_stats_client env j st with
      | ok s => exact absurd hd (hne s)
      | aborted s => rw [hd] at h; exact absurd h (by simp)
      | undefined => rw [hd] at h; exact absurd h (by simp)
  · simp only [outcome.ok.injEq] at h
    subst h
    exact hinv

theorem reap_client_reaped (ctx : server_ctx) (env : loop_env) (j : Nat) (c : client)
    (st : server_state) (hinv : loop_invariant ctx st)
    (hc : st.clients[j]? = some c) (hinit : c.is_init = true)
    (htry : env.pthread_mutex_trylock j = 0)
    (hlock : env.pthread_mutex_lock 195 j = 0) (hunlock : env.pthread_mutex_unlock 255 j = 0) :
    0 < st.clients_nr ∧
    reap_client ctx env j c st = outcome.ok
      { clients := st.clients.set j (env.del_client j c)
        clients_nr := st.clients_nr - 1
        events := st.events ++ [server_event.dump_stats_client j, server_event.gnutls_bye j,
          server_event.del_client j] } := by
  rcases hinv with ⟨hlen, hcount⟩
  have hpos := count_is_init_pos st.clients j c hc hinit
  have hle := count_is_init_le st.clients
  have h1 : st.clients_nr > 0 := by omega
  have h2 : st.clients_nr ≤ ctx.opts.clients_max_nr := by omega
  have h3 : st.clients_nr - 1 < ctx.opts.clients_max_nr := by omega
  refine ⟨h1, ?_⟩
  simp [reap_client, htry, dump_stats_client, hlock, hunlock, server_state.emit,
    server_state.set_client, h1, h2, h3]

theorem reap_client_busy (ctx : server_ctx) (env : loop_env) (j : Nat) (c : client)
    (st : server_state) (htry : env.pthread_mutex_trylock j ≠ 0) :
    reap_client ctx env j c st = outcome.ok st := by
  simp [reap_client, htry]

theorem handle_client_invariant (ctx : server_ctx) (env : loop_env) (j : Nat) (c : client)
    (status : iprohc_tunnel_status_t) (st st1 : server_state)
    (hinv : loop_invariant ctx st) (hc : st.clients[j]? = some c)
    (hreq : (env.handle_client_request j c).2.is_init = c.is_init)
    (hstop : (env.stop_client_tunnel j (env.handle_client_request j c).2).is_init =
      (env.handle_client_request j c).2.is_init)
    (h : handle_client env j c status st = outcome.ok st1) : loop_invariant ctx st1 := by
  unfold handle_client at h
  simp only [server_state.emit, server_state.set_client, List.set_set] at h
  split_ifs at h <;> simp only [outcome.ok.injEq] at h <;> subst h
  · exact loop_invariant_set ctx st j c _ _ hinv hc (hstop.trans hreq)
  · exact loop_invariant_set ctx st j c _ _ hinv hc hreq
  · exact loop_invariant_set ctx st j c _ _ hinv hc hreq
  · exact loop_invariant_set ctx st j c _ _ hinv hc hreq

theorem handle_client_total (env : loop_env) (hm : mutex_calls_succeed env) (j : Nat)
    (c : client) (status : iprohc_tunnel_status_t) (st : server_state) :
    ∃ st1, handle_client env j c status st = outcome.ok st1 := by
  unfold handle_client
  simp only [(hm 922 j).1, (hm 930 j).2, (hm 941 j).1, (hm 949 j).2, ne_eq,
    not_true_eq_false, if_false]
  split_ifs <;> exact ⟨_, rfl⟩

theorem serve_client_invariant (ctx : server_ctx) (env : loop_env) (j : Nat)
    (st st1 : server_state) (hinv : loop_invariant ctx st)
    (hcal : callees_keep_is_init env)
    (h : serve_client ctx env j st = outcome.ok st1) : loop_invariant ctx st1 := by
  rcases hcal with ⟨_, hdel, hreq, hstop⟩
  unfold serve_client at h
  split at h
  · exact absurd h (by simp)
  · rename_i c hc
    cases hinit : c.is_init
    · rw [if_pos (by simp [hinit])] at h
      simp only [outcome.ok.injEq] at h
      subst h; exact hinv
    rw [if_neg (by simp [hinit])] at h
    by_cases hl1 : env.pthread_mutex_lock 842 j = 0
    swap
    · rw [if_pos hl1] at h; exact absurd h (by simp)
    rw [if_neg (by simp [hl1])] at h
    by_cases hu1 : env.pthread_mutex_unlock 850 j = 0
    swap
    · simp only [if_pos hu1] at h; exact absurd h (by simp)
    simp only [if_neg (not_not.mpr hu1)] at h
    cases hk : keepalive_due c.tunnel.status c env.now
    · simp only [hk, Bool.false_eq_true, if_false] at h
      by_cases hp : c.tunnel.status = iprohc_tunnel_status_t.IPROHC_TUNNEL_PENDING_DELETE
      · rw [if_pos hp] at h
        exact reap_client_invariant ctx env j c st st1 hinv hc hinit (hdel j c) h
      · rw [if_neg hp] at h
        cases hr : env.FD_ISSET c.tcp_socket
        · simp only [hr, Bool.false_eq_true, if_false, outcome.ok.injEq] at h
          subst h; exact hinv
        · simp only [hr, if_true] at h
          exact handle_client_invariant ctx env j c _ st st1 hinv hc (hreq j c)
            (hstop j _) h
    · simp only [hk, if_true] at h
      split_ifs at h
      simp only [outcome.ok.injEq, server_state.emit, server_state.set_client] at h
      subst h
      exact loop_invariant_set ctx st j c _ _ hinv hc rfl

theorem serve_client_total (ctx : server_ctx) (env : loop_env) (j : Nat)
    (st : server_state) (hinv : loop_invariant ctx st)
    (hm : mutex_calls_succeed env) (hj : j < ctx.opts.clients_max_nr) :
    ∃ st1, serve_client ctx env j st = outcome.ok st1 := by
  have hlt : j < st.clients.length := by rw [hinv.1]; exact hj
  have hget : st.clients[j]? = some st.clients[j] := List.getElem?_eq_getElem hlt
  unfold serve_client
  rw [hget]
  simp only [(hm 842 j).1, (hm 850 j).2, (hm 868 j).1, (hm 876 j).2, ne_eq,
    not_true_eq_false, if_false]
  cases hinit : st.clients[j].is_init
  · rw [if_pos (by simp)]; exact ⟨_, rfl⟩
  rw [if_neg (by simp)]
  cases hk : keepalive_due st.clients[j].tunnel.status st.clients[j] env.now
  · simp only [Bool.false_eq_true, if_false]
    by_cases hp : st.clients[j].tunnel.status =
        iprohc_tunnel_status_t.IPROHC_TUNNEL_PENDING_DELETE
    · rw [if_pos hp]
      by_cases htry : env.pthread_mutex_trylock j = 0
      · exact ⟨_, (reap_client_reaped ctx env j _ st hinv hget hinit htry
          (hm 195 j).1 (hm 255 j).2).2⟩
      · exact ⟨_, reap_client_busy ctx env j _ st htry⟩
    · rw [if_neg hp]
      cases hr : env.FD_ISSET st.clients[j].tcp_socket
      · simp only [Bool.false_eq_true, if_false]; exact ⟨_, rfl⟩
      · simp only [if_true]
        exact handle_client_total env hm j _ _ st
  · simp only [if_true]; exact ⟨_, rfl⟩

theorem serve_clients_invariant (ctx : server_ctx) (env : loop_env)
    (hcal : callees_keep_is_init env) :
    ∀ (fuel j : Nat) (st st1 : server_state), loop_invariant ctx st →
      serve_clients ctx env j fuel st = outcome.ok st1 → loop_invariant ctx st1 := by
  intro fuel
  induction fuel with
  | zero =>
    intro j st st1 hinv h
    simp only [serve_clients, outcome.ok.injEq] at h
    subst h
    exact hinv
  | succ n ih =>
    intro j st st1 hinv h
    rw [serve_clients] at h
    cases hs : serve_client ctx env j st with
    | ok s =>
      rw [hs] at h
      exact ih (j + 1) s st1 (serve_client_invariant ctx env j st s hinv hcal hs) h
    | aborted s => rw [hs] at h; exact absurd h (by simp)
    | undefined => rw [hs] at h; exact absurd h (by simp)

theorem serve_clients_total (ctx : server_ctx) (env : loop_env)
    (hcal : callees_keep_is_init env) (hm : mutex_calls_succeed env) :
    ∀ (fuel j : Nat) (st : server_state), loop_invariant ctx st →
      j + fuel ≤ ctx.opts.clients_max_nr →
      ∃ st1, serve_clients ctx env j fuel st = outcome.ok st1 := by
  intro fuel
  induction fuel with
  | zero => intro j st _ _; exact ⟨st, rfl⟩
  | succ n ih =>
    intro j st hinv hb
    rcases serve_client_total ctx env j st hinv hm (by omega) with ⟨s, hs⟩
    rw [serve_clients, hs]
    exact ih (j + 1) s (serve_client_invariant ctx env j st s hinv hcal hs) (by omega)

theorem accept_client_spec (ctx : server_ctx) (env : loop_env) (st : server_state)
    (hinv : loop_invariant ctx st) (hcal : callees_keep_is_init env) :
    ∃ st1, accept_client ctx env st = outcome.ok st1 ∧ loop_invariant ctx st1 := by
  by_cases hcap : st.clients_nr ≥ ctx.opts.clients_max_nr
  · exact ⟨_, accept_client_full ctx env st hcap, hinv⟩
  · rcases accept_client_below ctx env st hinv (by omega) with ⟨i, c, _, hc, hfree, _, heq⟩
    refine ⟨_, heq, ?_⟩
    rcases hinv with ⟨hlen, hcount⟩
    refine ⟨by simpa using hlen, ?_⟩
    have hs := count_is_init_set st.clients i c (env.new_client i c).2 hc
    have hnew := hcal.1 i c hfree
    simp only [hfree, Bool.false_eq_true, if_false, Nat.add_zero] at hs
    simp only
    by_cases hret : 0 ≤ (env.new_client i c).1
    · rw [if_pos hret]
      rw [hnew.mpr hret] at hs
      simp only [if_true] at hs
      omega
    · rw [if_neg hret]
      have hnot : (env.new_client i c).2.is_init = false := by
        cases hb : (env.new_client i c).2.is_init
        · rfl
        · exact absurd (hnew.mp hb) hret
      rw [hnot] at hs
      simp only [Bool.false_eq_true, if_false, Nat.add_zero] at hs
      omega

theorem dump_stats_clients_ok (env : loop_env) :
    ∀ (fuel j : Nat) (st st1 : server_state),
      dump_stats_clients env j fuel st = outcome.ok st1 →
      st1.clients = st.clients ∧ st1.clients_nr = st.clients_nr := by
  intro fuel
  induction fuel with
  | zero =>
    intro j st st1 h
    simp only [dump_stats_clients, outcome.ok.injEq] at h
    subst h
    exact ⟨rfl, rfl⟩
  | succ n ih =>
    intro j st st1 h
    rw [dump_stats_clients] at h
    split at h
    · exact absurd h (by simp)
    · rename_i c hc
      cases hinit : c.is_init
      · simp only [hinit, Bool.false_eq_true, if_false] at h
        exact ih _ _ _ h
      · simp only [hinit, if_true] at h
        cases hd : dump_stats_client env j st with
        | ok s =>
          rw [hd] at h
          have hs := dump_stats_client_ok env j st s hd
          have h2 := ih _ _ _ h
          rw [hs] at h2
          exact h2
        | aborted s => rw [hd] at h; exact absurd h (by simp)
        | undefined => rw [hd] at h; exact absurd h (by simp)

theorem dump_stats_clients_total (env : loop_env) (hm : mutex_calls_succeed env) :
    ∀ (fuel j : Nat) (st : server_state), j + fuel ≤ st.clients.length →
      ∃ st1, dump_stats_clients env j fuel st = outcome.ok st1 := by
  intro fuel
  induction fuel with
  | zero => intro j st _; exact ⟨st, rfl⟩
  | succ n ih =>
    intro j st hb
    have hj : j < st.clients.length := by omega
    have hget : st.clients[j]? = some st.clients[j] := List.getElem?_eq_getElem hj
    rw [dump_stats_clients, hget]
    simp only
    split_ifs with hinit
    · rw [dump_stats_client_total env hm j st]
      have hb2 : j + 1 + n ≤ (st.emit [server_event.dump_stats_client j]).clients.length := by
        simp only [server_state.emit]
        omega
      exact ih (j + 1) _ hb2
    · exact ih (j + 1) st (by omega)

theorem main_loop_iteration_invariant (ctx : server_ctx) (env : loop_env)
    (st st1 : server_state) (hcal : callees_keep_is_init env)
    (hinv : loop_invariant ctx st)
    (h : main_loop_iteration ctx env st = outcome.ok st1) : loop_invariant ctx st1 := by
  unfold main_loop_iteration at h
  cases hfd : collect_fds env 0 ctx.opts.clients_max_nr st with
  | aborted s => rw [hfd] at h; exact absurd h (by simp)
  | undefined => rw [hfd] at h; exact absurd h (by simp)
  | ok s =>
    have hs := collect_fds_ok env _ _ _ _ hfd
    subst hs
    rw [hfd] at h
    simp only at h
    by_cases hsel : env.pselect = -1
    · rw [if_pos hsel] at h
      simp only [outcome.ok.injEq] at h
      subst h
      exact hinv
    · rw [if_neg hsel] at h
      have hinv2 : loop_invariant ctx (s.emit [server_event.pselect]) := hinv
      have hacc : ∃ s3, (if env.FD_ISSET ctx.serv_socket = true then
            accept_client ctx env (s.emit [server_event.pselect])
          else outcome.ok (s.emit [server_event.pselect])) = outcome.ok s3 ∧
          loop_invariant ctx s3 := by
        cases hr : env.FD_ISSET ctx.serv_socket
        · exact ⟨_, by simp, hinv2⟩
        · simpa using accept_client_spec ctx env _ hinv2 hcal
      rcases hacc with ⟨s3, hs3, hinv3⟩
      rw [hs3] at h
      simp only at h
      cases hsv : serve_clients ctx env 0 ctx.opts.clients_max_nr s3 with
      | aborted s4 => rw [hsv] at h; exact absurd h (by simp)
      | undefined => rw [hsv] at h; exact absurd h (by simp)
      | ok s4 =>
        rw [hsv] at h
        simp only at h
        have hinv4 := serve_clients_invariant ctx env hcal _ _ _ _ hinv3 hsv
        cases hdump : env.clients_do_dump_stats
        · simp only [hdump, Bool.false_eq_true, if_false, outcome.ok.injEq] at h
          subst h
          exact hinv4
        · simp only [hdump, if_true] at h
          rcases dump_stats_clients_ok env _ _ _ _ h with ⟨e1, e2⟩
          rcases hinv4 with ⟨hl, hcnt⟩
          exact ⟨by rw [e1]; exact hl, by rw [e1, e2]; exact hcnt⟩

theorem main_loop_iteration_total (ctx : server_ctx) (env : loop_env)
    (st : server_state) (hcal : callees_keep_is_init env)
    (hinv : loop_invariant ctx st) (hm : mutex_calls_succeed env) :
    ∃ st1, main_loop_iteration ctx env st = outcome.ok st1 := by
  unfold main_loop_iteration
  rw [collect_fds_total env hm ctx.opts.clients_max_nr 0 st (by rw [hinv.1]; omega)]
  simp only
  by_cases hsel : env.pselect = -1
  · rw [if_pos hsel]; exact ⟨_, rfl⟩
  · rw [if_neg hsel]
    have hinv2 : loop_invariant ctx (st.emit [server_event.pselect]) := hinv
    have hacc : ∃ s3, (if env.FD_ISSET ctx.serv_socket = true then
          accept_client ctx env (st.emit [server_event.pselect])
        else outcome.ok (st.emit [server_event.pselect])) = outcome.ok s3 ∧
        loop_invariant ctx s3 := by
      cases hr : env.FD_ISSET ctx.serv_socket
      · exact ⟨_, by simp, hinv2⟩
      · simpa using accept_client_spec ctx env _ hinv2 hcal
    rcases hacc with ⟨s3, hs3, hinv3⟩
    rw [hs3]
    simp only
    rcases serve_clients_total ctx env hcal hm ctx.opts.clients_max_nr 0 s3 hinv3
      (by omega) with ⟨s4, hs4⟩
    rw [hs4]
    simp only
    have hinv4 := serve_clients_invariant ctx env hcal _ _ _ _ hinv3 hs4
    cases hdump : env.clients_do_dump_stats
    · simp only [Bool.false_eq_true, if_false]; exact ⟨_, rfl⟩
    · simp only [if_true]
      exact dump_stats_clients_total env hm ctx.opts.clients_max_nr 0 s4
        (by rw [hinv4.1]; omega)

theorem sample_env_callees (now : Int) (readable : Int → Bool) (trylock ret : Int) :
    callees_keep_is_init (sample_env now readable trylock ret) := by
  refine ⟨?_, ?_, ?_, ?_⟩
  · intro i c _
    simp [sample_env]
  · intro j c
    simp [sample_env]
  · intro j c
    simp [sample_env]
  · intro j c
    simp [sample_env]

theorem sample_env_mutex (now : Int) (readable : Int → Bool) (trylock ret : Int) :
    mutex_calls_succeed (sample_env now readable trylock ret) := by
  intro line j
  exact ⟨rfl, rfl⟩

/-- C6: under the assumption on the callees (`new_client` marks the chosen
slot occupied exactly when it returns a non-negative value, `del_client` marks
its slot free, the other callees leave `is_init` alone), an iteration of the
main loop that starts with `count(is_init) == clients_nr` on a table of
`clients_max_nr` slots ends with `count(is_init) == clients_nr`; and it does
reach its end when the mutex calls return 0. -/
theorem main_loop_iteration_keeps_count (ctx : server_ctx) (env : loop_env)
    (st : server_state) (hcal : callees_keep_is_init env)
    (hlen : st.clients.length = ctx.opts.clients_max_nr)
    (hcount : count_is_init st.clients = st.clients_nr) :
    (∀ st1, main_loop_iteration ctx env st = outcome.ok st1 →
      count_is_init st1.clients = st1.clients_nr) ∧
    (mutex_calls_succeed env →
      ∃ st1, main_loop_iteration ctx env st = outcome.ok st1 ∧
        count_is_init st1.clients = st1.clients_nr) := by
  have hinv : loop_invariant ctx st := ⟨hlen, hcount⟩
  constructor
  · intro st1 h
    exact (main_loop_iteration_invariant ctx env st st1 hcal hinv h).2
  · intro hm
    rcases main_loop_iteration_total ctx env st hcal hinv hm with ⟨st1, h⟩
    exact ⟨st1, h, (main_loop_iteration_invariant ctx env st st1 hcal hinv h).2⟩

/-- Witness for C6: an iteration on the three-slot sample table in which a
connection is accepted and both sockets are readable. -/
theorem main_loop_iteration_keeps_count_witness :
    ∃ st1, main_loop_iteration sample_ctx (sample_env 100 (fun _ => true) 0 0)
        sample_state = outcome.ok st1 ∧
      count_is_init st1.clients = st1.clients_nr :=
  (main_loop_iteration_keeps_count sample_ctx (sample_env 100 (fun _ => true) 0 0)
    sample_state (sample_env_callees 100 (fun _ => true) 0 0) rfl rfl).2
    (sample_env_mutex 100 (fun _ => true) 0 0)

/-- C7: when the accept step runs with `clients_nr < clients_max_nr` and
`count(is_init) == clients_nr`, `new_client` is called on the slot with the
least index whose `is_init` is false, that index is below `clients_max_nr`,
and `clients_nr` grows by exactly 1 when `new_client` returns a non-negative
value and is unchanged otherwise. -/
theorem accept_client_below_capacity (ctx : server_ctx) (env : loop_env)
    (st : server_state)
    (hlen : st.clients.length = ctx.opts.clients_max_nr)
    (hcount : count_is_init st.clients = st.clients_nr)
    (hlt : st.clients_nr < ctx.opts.clients_max_nr) :
    ∃ i c st1, i < ctx.opts.clients_max_nr ∧ st.clients[i]? = some c ∧ c.is_init = false ∧
      (∀ k d, k < i → st.clients[k]? = some d → d.is_init = true) ∧
      accept_client ctx env st = outcome.ok st1 ∧
      st1.events = st.events ++ (server_event.new_client i (env.new_client i c).1 ::
        (if (env.new_client i c).1 < 0 then [server_event.trace_err 820] else [])) ∧
      st1.clients = st.clients.set i (env.new_client i c).2 ∧
      (0 ≤ (env.new_client i c).1 → st1.clients_nr = st.clients_nr + 1) ∧
      ((env.new_client i c).1 < 0 → st1.clients_nr = st.clients_nr) := by
  rcases accept_client_below ctx env st ⟨hlen, hcount⟩ hlt with
    ⟨i, c, hi, hc, hfree, hlow, heq⟩
  refine ⟨i, c, _, hi, hc, hfree, hlow, heq, rfl, rfl, ?_, ?_⟩
  · intro hret
    simp only [if_pos hret]
  · intro hret
    have hn : ¬ 0 ≤ (env.new_client i c).1 := by omega
    simp only [if_neg hn]

/-- Witness for C7: on the sample table (slot 0 free, two clients, three
slots) `new_client` is called for index 0 and `clients_nr` becomes 3. -/
theorem accept_client_below_capacity_witness :
    ∃ st1, accept_client sample_ctx (sample_env 100 (fun _ => true) 0 0) sample_state =
        outcome.ok st1 ∧
      st1.events = [server_event.new_client 0 0] ∧ st1.clients_nr = 3 := by
  rcases accept_client_below_capacity sample_ctx (sample_env 100 (fun _ => true) 0 0)
    sample_state rfl rfl (by decide) with
    ⟨i, c, st1, _, hc, _, hlow, hacc, hev, _, hnr, _⟩
  have hi0 : i = 0 := by
    by_contra hne
    have h := hlow 0 free_slot (by omega) rfl
    simp [free_slot] at h
  subst hi0
  have hc0 : c = free_slot := by
    simpa [sample_state, sample_table] using hc.symm
  subst hc0
  refine ⟨st1, hacc, ?_, ?_⟩
  · rw [hev]; rfl
  · rw [hnr (by decide)]; rfl

/-- C8: when the accept step runs with `clients_nr` equal to
`clients_max_nr`, `accept` is called and the connection it returns is closed
at once, `new_client` is not called, and the slot table (so every `is_init`
flag) and `clients_nr` are unchanged. -/
theorem accept_client_at_capacity (ctx : server_ctx) (env : loop_env)
    (st : server_state) (hcap : st.clients_nr = ctx.opts.clients_max_nr) :
    ∃ st1, accept_client ctx env st = outcome.ok st1 ∧
      st1.clients = st.clients ∧ st1.clients_nr = st.clients_nr ∧
      (0 ≤ env.accept → st1.events = st.events ++
        [server_event.trace_err 789, server_event.accept env.accept,
         server_event.close env.accept]) ∧
      (env.accept < 0 → st1.events = st.events ++
        [server_event.trace_err 789, server_event.accept env.accept,
         server_event.trace_err 796]) ∧
      (∀ i r, server_event.new_client i r ∉ st1.events.drop st.events.length) := by
  refine ⟨_, accept_client_full ctx env st (by omega), rfl, rfl, ?_, ?_, ?_⟩
  · intro h
    have hn : ¬ env.accept < 0 := by omega
    simp only [if_neg hn]
  · intro h
    simp only [if_pos h]
  · intro i r
    simp only [List.drop_left]
    split_ifs <;> simp

/-- Witness for C8: a table of three occupied slots; the connection 9 that
`accept` returns is closed and nothing else changes. -/
theorem accept_client_at_capacity_witness :
    accept_client sample_ctx (sample_env 100 (fun _ => true) 0 0)
        { clients := [pending_slot, sample_slot 2 7 11 13, sample_slot 3 8 21 23]
          clients_nr := 3, events := [] } =
      outcome.ok
        { clients := [pending_slot, sample_slot 2 7 11 13, sample_slot 3 8 21 23]
          clients_nr := 3
          events := [server_event.trace_err 789, server_event.accept 9,
            server_event.close 9] } := by
  rcases accept_client_at_capacity sample_ctx (sample_env 100 (fun _ => true) 0 0)
    { clients := [pending_slot, sample_slot 2 7 11 13, sample_slot 3 8 21 23]
      clients_nr := 3, events := [] } rfl with ⟨st1, h, hcl, hnr, hev, _, _⟩
  rw [h]
  cases st1
  simp only [outcome.ok.injEq, server_state.mk.injEq]
  exact ⟨hcl, hnr, hev (by decide)⟩

/-- C10, the code at the failing input: a CONNECTED slot with
`keepalive_timeout` 4 whose last keepalive was sent at second 1700000000 is
served at second 1700000002. The exact ceiling of 4/3 is 2 and 2 seconds is
not more than that, yet the server sends the KEEPALIVE byte: `4 / 3` is an
integer division and `ceil` is applied to 1. -/
theorem serve_client_keepalive_after_floor :
    serve_client sample_ctx (sample_env 1700000002 (fun _ => false) 0 0) 1
        { clients := [free_slot, keepalive_slot 4 1700000000, free_slot]
          clients_nr := 1, events := [] } =
      outcome.ok
        { clients := [free_slot, keepalive_slot 4 1700000002, free_slot]
          clients_nr := 1
          events := [server_event.gnutls_record_send 1 [C_KEEPALIVE]] } ∧
    ¬ ((1700000002 : Int) - 1700000000 > ⌈((4 : ℚ) / 3)⌉) := by
  constructor
  · decide
  · have hceil : ⌈((4 : ℚ) / 3)⌉ = 2 := by
      rw [Int.ceil_eq_iff]
      norm_num
    rw [hceil]
    decide

/-! ### Startup -/

theorem process_options_events (l : List getopt_result) :
    ∀ (conf_file : String) (opts : server_opts) (x : String × server_opts),
      (process_options l conf_file opts).1 = some x →
      (process_options l conf_file opts).2 = [] := by
  induction l with
  | nil => intro conf_file opts x _; rfl
  | cons o rest ih =>
    intro conf_file opts x h
    cases o with
    | opt_c optarg =>
      rw [process_options] at h ⊢
      exact ih _ _ x h
    | opt_b optarg idx =>
      rw [process_options] at h ⊢
      by_cases h1 : optarg.utf8ByteSize ≥ IFNAMSIZ
      · rw [if_pos h1] at h
        exact absurd h (by simp)
      · rw [if_neg h1] at h ⊢
        by_cases h2 : idx ≤ 0
        · rw [if_pos h2] at h
          exact absurd h (by simp)
        · rw [if_neg h2] at h ⊢
          exact ih _ _ x h
    | opt_d =>
      rw [process_options] at h ⊢
      exact ih _ _ x h
    | opt_h =>
      rw [process_options] at h
      exact absurd h (by simp)
    | opt_v =>
      rw [process_options] at h
      exact absurd h (by simp)
    | other =>
      rw [process_options] at h ⊢
      exact ih _ _ x h

/-- C5: for a command line and a configuration file that are parsed without
error, with `range_len` the width of the configured range: if
`clients_max_nr > range_len`, `main` returns 1 and its only events are the
parsing of the configuration and the error message (no pid-file, slot table,
socket, TUN or RAW device, thread); if `clients_max_nr <= range_len`, `main`
goes on with the checks and the startup steps that follow. -/
theorem main_checks_clients_against_range (env : startup_env) (loop : List loop_env)
    (conf_file : String) (opts0 server_opts : server_opts) (ret : Int) (range_len : Nat)
    (hopt : (process_options env.options "/etc/iprohc_server.conf" default_server_opts).1 =
      some (conf_file, opts0))
    (hparse : env.parse_config conf_file opts0 = (ret, server_opts))
    (hret : 0 ≤ ret)
    (hwidth : iprohc_get_ipv4_range_width (ntohl server_opts.local_address)
      server_opts.netmask = some range_len) :
    (server_opts.clients_max_nr > range_len →
      main env loop = main_result.exit 1
        [server_event.parse_config conf_file, server_event.trace_err 523]) ∧
    (server_opts.clients_max_nr ≤ range_len →
      main env loop = main_after_range_check env loop server_opts
        [server_event.parse_config conf_file]) := by
  have hneg : ¬ ret < 0 := by omega
  have hev := process_options_events env.options _ _ _ hopt
  have hpair : process_options env.options "/etc/iprohc_server.conf" default_server_opts =
      (some (conf_file, opts0), []) := Prod.ext hopt hev
  have hmain : main env loop =
      if server_opts.clients_max_nr > range_len then
        main_result.exit 1 [server_event.parse_config conf_file, server_event.trace_err 523]
      else main_after_range_check env loop server_opts
        [server_event.parse_config conf_file] := by
    unfold main
    rw [hpair]
    simp only [hparse, hneg, if_false, hwidth, List.nil_append, List.singleton_append]
  constructor
  · intro hgt
    rw [hmain, if_pos hgt]
  · intro hle
    have hngt : ¬ server_opts.clients_max_nr > range_len := by omega
    rw [hmain, if_neg hngt]

/-- Witness for C5: 300 clients are configured in 192.168.99.0/24, whose width
is 255; `main` returns 1 after the parsing of the configuration. -/
theorem main_checks_clients_against_range_witness :
    main (sample_startup 300 24) [] = main_result.exit 1
      [server_event.parse_config "/etc/iprohc_server.conf", server_event.trace_err 523] :=
  (main_checks_clients_against_range (sample_startup 300 24) []
    "/etc/iprohc_server.conf" { default_server_opts with basedev := "eth0" }
    { sample_opts with clients_max_nr := 300 } 0 255
    (by decide) rfl (by decide) (by decide)).1 (by decide)

/-! ### The router on a write error -/

/-- C13, counterexample: the write of the packet for 192.168.99.3 to the pipe
of slot 2 returns -1; the step logs the failure and ends in the next read,
and slot 2 has the status CONNECTED it had, not PENDING_DELETE. -/
theorem route_write_error_status_counterexample :
    route_step { fd := 3, clients := sample_table, clients_max_nr := 3,
                 type := type_route.TUN } sample_buffer (some sample_tun_packet) (-1) =
      route_step_result.next
        (sample_tun_packet ++ sample_buffer.drop sample_tun_packet.length)
        sample_table
        [route_event.write 21 sample_tun_packet, route_event.trace_write_failed] ∧
    sample_table[2]? = some (sample_slot 3 8 21 23) ∧
    (sample_slot 3 8 21 23).tunnel.status = iprohc_tunnel_status_t.IPROHC_TUNNEL_CONNECTED ∧
    (sample_slot 3 8 21 23).tunnel.status ≠
      iprohc_tunnel_status_t.IPROHC_TUNNEL_PENDING_DELETE := by
  refine ⟨by decide, rfl, rfl, by decide⟩

/-- C13, amended: when the write to the pipe of the matched session (the
lowest-index slot the scan accepts) returns an error, the step consists of
that write and of the warning, the slot table is the one the step started
with (so the status of the session is unchanged), and the thread goes on to
the next read. -/
theorem route_step_write_error (arg : route_args) (buffer data : List Nat) (wret : Int)
    (i : Nat) (c : client)
    (hpos : 0 < data.length) (hlen : data.length ≤ buffer.length)
    (hi : i < arg.clients_max_nr) (hc : arg.clients[i]? = some c)
    (hm : route_match arg.type (route_addr arg.type (data ++ buffer.drop data.length)) c = true)
    (hlow : ∀ k d, k < i → arg.clients[k]? = some d →
      route_match arg.type (route_addr arg.type (data ++ buffer.drop data.length)) d = false)
    (herr : wret < 0) :
    route_step arg buffer (some data) wret =
      route_step_result.next (data ++ buffer.drop data.length) arg.clients
        [route_event.write (route_pipe arg.type c) data, route_event.trace_write_failed] := by
  rw [route_step_found arg buffer data wret hpos hlen i c hi hc hm hlow]
  simp only [route_write, read_buffer_take, if_pos herr]

/-- Witness for the amended C13: the step of the counterexample. -/
theorem route_step_write_error_witness :
    route_step { fd := 3, clients := sample_table, clients_max_nr := 3,
                 type := type_route.TUN } sample_buffer (some sample_tun_packet) (-1) =
      route_step_result.next
        (sample_tun_packet ++ sample_buffer.drop sample_tun_packet.length)
        sample_table
        [route_event.write 21 sample_tun_packet, route_event.trace_write_failed] :=
  route_step_write_error
    { fd := 3, clients := sample_table, clients_max_nr := 3, type := type_route.TUN }
    sample_buffer sample_tun_packet (-1) 2 (sample_slot 3 8 21 23)
    (by decide) (by decide) (by decide) rfl (by decide)
    (by
      intro k d hk hd
      have hk2 : k = 0 ∨ k = 1 := by omega
      rcases hk2 with h | h
      · subst h
        have hd0 : d = free_slot := by
          simpa [sample_table] using hd.symm
        subst hd0
        decide
      · subst h
        have hd1 : d = sample_slot 2 7 11 13 := by
          simpa [sample_table] using hd.symm
        subst hd1
        decide)
    (by decide)

/-! ### Exit status and shutdown of the server -/

/-- C17, the code at the failing input: with 300 clients configured in
192.168.99.0/24 (width 255) `main` returns 1, whereas it returns 2 when the
configuration file cannot be parsed and when no PKCS#12 file is configured. -/
theorem main_exit_status_of_configuration_errors :
    main (sample_startup 300 24) [] = main_result.exit 1
      [server_event.parse_config "/etc/iprohc_server.conf", server_event.trace_err 523] ∧
    main { sample_startup 3 24 with parse_config := fun _ opts => (-1, opts) } [] =
      main_result.exit 2
        [server_event.parse_config "/etc/iprohc_server.conf", server_event.trace_err 513] ∧
    main { sample_startup 3 24 with
           parse_config := fun _ opts =>
             (0, { sample_opts with basedev := opts.basedev, pkcs12_f := "" }) } [] =
      main_result.exit 2
        [server_event.parse_config "/etc/iprohc_server.conf", server_event.trace_err 550] := by
  refine ⟨by decide, by decide, by decide⟩

theorem release_clients_free :
    ∀ (clients : List client) (c : client), c ∈ (release_clients clients).1 →
      c.is_init = false := by
  intro clients
  induction clients with
  | nil => intro c hc; simp [release_clients] at hc
  | cons a rest ih =>
    intro c hc
    simp only [release_clients, List.mem_cons] at hc
    rcases hc with h | h
    · subst h
      unfold release_client
      cases ha : a.is_init
      · simp [ha]
      · simp
    · exact ih c h

theorem release_clients_length :
    ∀ (clients : List client), (release_clients clients).1.length = clients.length := by
  intro clients
  induction clients with
  | nil => rfl
  | cons a rest ih => simp [release_clients, ih]

theorem main_remove_pidfile_spec (opts : server_opts) (exit_status : Int)
    (events : List server_event) :
    ∃ evs, main_remove_pidfile opts exit_status events = main_result.exit exit_status evs ∧
      (opts.pidfile_path ≠ "" → evs = events ++ [server_event.unlink opts.pidfile_path]) ∧
      (opts.pidfile_path = "" → evs = events) := by
  unfold main_remove_pidfile
  by_cases h : opts.pidfile_path = ""
  · rw [if_neg (not_not.mpr h)]
    exact ⟨_, rfl, fun hne => absurd h hne, fun _ => rfl⟩
  · rw [if_pos h]
    exact ⟨_, rfl, fun _ => rfl, fun he => absurd he h⟩

theorem release_clients_events :
    ∀ (clients : List client) (c : client), c ∈ clients → c.is_init = true →
      server_event.gnutls_deinit c.tls_session ∈ (release_clients clients).2 ∧
      server_event.close c.tcp_socket ∈ (release_clients clients).2 := by
  intro clients
  induction clients with
  | nil => intro c hc; simp at hc
  | cons a rest ih =>
    intro c hc hinit
    simp only [release_clients, List.mem_append]
    rcases List.mem_cons.mp hc with h | h
    · subst h
      simp [release_client, hinit]
    · exact ⟨Or.inr (ih c h hinit).1, Or.inr (ih c h hinit).2⟩

theorem release_clients_no_unlink :
    ∀ (clients : List client) (path : String),
      server_event.unlink path ∉ (release_clients clients).2 := by
  intro l p
  induction l with
  | nil => simp [release_clients]
  | cons a rest ih =>
    simp only [release_clients, List.mem_append, not_or]
    refine ⟨?_, ih⟩
    unfold release_client
    split_ifs <;> simp

theorem main_release_free (ctx : server_ctx) (st : server_state) (j : Nat) (c : client)
    (hj : j < ctx.opts.clients_max_nr) (hc : (main_release ctx st).clients[j]? = some c) :
    c.is_init = false := by
  unfold main_release at hc
  simp only at hc
  have hlen := release_clients_length (st.clients.take ctx.opts.clients_max_nr)
  by_cases hlt : j < st.clients.length
  · have hjr : j < (release_clients (st.clients.take ctx.opts.clients_max_nr)).1.length := by
      rw [hlen, List.length_take]
      omega
    rw [List.getElem?_append_left hjr] at hc
    exact release_clients_free _ c (List.getElem?_mem hc)
  · have hnone : (release_clients (st.clients.take ctx.opts.clients_max_nr)).1 ++
        st.clients.drop ctx.opts.clients_max_nr = [] ++
        (release_clients (st.clients.take ctx.opts.clients_max_nr)).1 := by
      rw [List.drop_eq_nil_of_le (by omega)]
      simp
    have hlen2 : ((release_clients (st.clients.take ctx.opts.clients_max_nr)).1 ++
        st.clients.drop ctx.opts.clients_max_nr).length ≤ j := by
      rw [List.length_append, hlen, List.length_take, List.length_drop]
      omega
    rw [List.getElem?_eq_none hlen2] at hc
    cases hc

/-- C18: when the main loop ends with `alive` cleared (the threads were
started and the loop returned the state `st`), `main` runs the release loop
and the labels that follow it and returns 0. Its trace is the trace of the
loop, then the events of the release loop, then the fixed teardown, then the
removal of the pid-file when a path is configured (no `unlink` is made
otherwise). The release loop leaves every slot below `clients_max_nr` of the
table with `is_init` false, and for every slot that was occupied when the loop
ended the TLS session is freed and the control socket is closed in the trace
of `main`. -/
theorem main_clean_shutdown (env : startup_env) (loop : List loop_env)
    (opts : server_opts) (serv_socket tun : Int) (events : List server_event)
    (st : server_state)
    (htun : env.pthread_create_tun = 0) (hraw : 0 ≤ env.create_raw)
    (hrawt : env.pthread_create_raw = 0)
    (hloop : main_loop
        { opts := opts, serv_socket := serv_socket, tun := tun, raw := env.create_raw }
        loop (main_loop_start env opts tun events) = outcome.ok st) :
    ∃ evs teardown,
      main_threads env loop opts serv_socket tun events = main_result.exit 0 evs ∧
      teardown = [server_event.gnutls_global_deinit,
        server_event.pthread_cancel_join type_route.RAW,
        server_event.close env.create_raw,
        server_event.pthread_cancel_join type_route.TUN, server_event.close tun,
        server_event.close serv_socket, server_event.gnutls_dh_params_deinit,
        server_event.free_clients] ∧
      (opts.pidfile_path ≠ "" →
        evs = (main_release
            { opts := opts, serv_socket := serv_socket, tun := tun, raw := env.create_raw }
            st).events ++ teardown ++ [server_event.unlink opts.pidfile_path]) ∧
      (opts.pidfile_path = "" →
        evs = (main_release
            { opts := opts, serv_socket := serv_socket, tun := tun, raw := env.create_raw }
            st).events ++ teardown) ∧
      (main_release
          { opts := opts, serv_socket := serv_socket, tun := tun, raw := env.create_raw }
          st).clients.length = st.clients.length ∧
      (∀ (j : Nat) (c : client), j < opts.clients_max_nr →
        (main_release
          { opts := opts, serv_socket := serv_socket, tun := tun, raw := env.create_raw }
          st).clients[j]? = some c → c.is_init = false) ∧
      (∀ (j : Nat) (c : client), j < opts.clients_max_nr → st.clients[j]? = some c →
        c.is_init = true →
        server_event.gnutls_deinit c.tls_session ∈ evs.drop st.events.length ∧
        server_event.close c.tcp_socket ∈ evs.drop st.events.length) ∧
      (opts.pidfile_path ≠ "" →
        evs.getLast? = some (server_event.unlink opts.pidfile_path)) ∧
      (opts.pidfile_path = "" →
        ∀ path, server_event.unlink path ∉ evs.drop st.events.length) := by
  have hnraw : ¬ env.create_raw < 0 := by omega
  have hmain : main_threads env loop opts serv_socket tun events =
      main_shutdown
        { opts := opts, serv_socket := serv_socket, tun := tun, raw := env.create_raw } st := by
    unfold main_threads
    unfold main_loop_start at hloop
    simp only [htun, hrawt, hnraw, ne_eq, not_true_eq_false, if_false, List.append_assoc,
      List.cons_append, List.nil_append] at hloop ⊢
    rw [hloop]
  rcases main_remove_pidfile_spec opts 0
    ((main_release
        { opts := opts, serv_socket := serv_socket, tun := tun, raw := env.create_raw }
        st).events ++
      [server_event.gnutls_global_deinit, server_event.pthread_cancel_join type_route.RAW] ++
      [server_event.close env.create_raw] ++
      [server_event.pthread_cancel_join type_route.TUN] ++ [server_event.close tun] ++
      [server_event.close serv_socket] ++ [server_event.gnutls_dh_params_deinit] ++
      [server_event.free_clients]) with ⟨evs, hevs, hyes, hno⟩
  have hyes2 : opts.pidfile_path ≠ "" →
      evs = (main_release
          { opts := opts, serv_socket := serv_socket, tun := tun, raw := env.create_raw }
          st).events ++
        [server_event.gnutls_global_deinit, server_event.pthread_cancel_join type_route.RAW,
          server_event.close env.create_raw,
          server_event.pthread_cancel_join type_route.TUN, server_event.close tun,
          server_event.close serv_socket, server_event.gnutls_dh_params_deinit,
          server_event.free_clients] ++ [server_event.unlink opts.pidfile_path] := by
    intro hp
    rw [hyes hp]
    simp
  have hno2 : opts.pidfile_path = "" →
      evs = (main_release
          { opts := opts, serv_socket := serv_socket, tun := tun, raw := env.create_raw }
          st).events ++
        [server_event.gnutls_global_deinit, server_event.pthread_cancel_join type_route.RAW,
          server_event.close env.create_raw,
          server_event.pthread_cancel_join type_route.TUN, server_event.close tun,
          server_event.close serv_socket, server_event.gnutls_dh_params_deinit,
          server_event.free_clients] := by
    intro hp
    rw [hno hp]
    simp
  have hrel : ∀ e, e ∈ (release_clients (st.clients.take opts.clients_max_nr)).2 →
      e ∈ evs.drop st.events.length := by
    intro e he
    by_cases hp : opts.pidfile_path = ""
    · rw [hno2 hp]
      simp only [main_release, List.append_assoc, List.drop_left]
      exact List.mem_append_left _ he
    · rw [hyes2 hp]
      simp only [main_release, List.append_assoc, List.drop_left]
      exact List.mem_append_left _ he
  refine ⟨evs, _, ?_, rfl, hyes2, hno2, ?_, ?_, ?_, ?_, ?_⟩
  · rw [hmain]
    exact hevs
  · simp only [main_release, List.length_append, release_clients_length, List.length_take,
      List.length_drop]
    omega
  · intro j c hj hc
    exact main_release_free _ st j c hj hc
  · intro j c hj hc hinit
    have hmem : c ∈ st.clients.take opts.clients_max_nr := by
      apply List.getElem?_mem (n := j)
      rw [List.getElem?_take_of_lt hj]
      exact hc
    rcases release_clients_events _ c hmem hinit with ⟨h1, h2⟩
    exact ⟨hrel _ h1, hrel _ h2⟩
  · intro hp
    rw [hyes2 hp]
    simp
  · intro hp path
    rw [hno2 hp]
    simp only [main_release, List.append_assoc, List.drop_left]
    intro hmem
    simp only [List.mem_append, List.mem_cons, List.mem_singleton, List.not_mem_nil,
      or_false, reduceCtorEq, false_or] at hmem
    exact release_clients_no_unlink _ _ hmem

/-- Witness for C18: a server with three slots and the pid-file
`/var/run/iprohc_server.pid` accepts a client into slot 0 in its only
iteration and is then stopped: `main` returns 0, the TLS session and the
control socket of slot 0 are released, slot 0 is left free and the pid-file is
removed last. -/
theorem main_clean_shutdown_witness :
    ∃ evs, main_threads (sample_startup 3 24)
        [sample_env 100 (fun fd => decide (fd = 5)) 0 0] sample_opts 5 3 [] =
        main_result.exit 0 evs ∧
      evs.getLast? = some (server_event.unlink "/var/run/iprohc_server.pid") ∧
      server_event.gnutls_deinit 0 ∈ evs ∧
      (main_release sample_ctx
        { clients :=
            [{ zeroed_client with
                is_init := true
                tunnel := { zeroed_client.tunnel with
                  status := iprohc_tunnel_status_t.IPROHC_TUNNEL_CONNECTING } },
              zeroed_client, zeroed_client]
          clients_nr := 1
          events := (main_loop_start (sample_startup 3 24) sample_opts 3 []).events ++
            [server_event.pselect, server_event.new_client 0 0] }).clients =
        [{ zeroed_client with
            tunnel := { zeroed_client.tunnel with
              fake_raw := (-1, -1), raw_socket := -1, fake_tun := (-1, -1), tun := -1
              status := iprohc_tunnel_status_t.IPROHC_TUNNEL_CONNECTING } },
          zeroed_client, zeroed_client] := by
  rcases main_clean_shutdown (sample_startup 3 24)
    [sample_env 100 (fun fd => decide (fd = 5)) 0 0] sample_opts 5 3 []
    { clients :=
        [{ zeroed_client with
            is_init := true
            tunnel := { zeroed_client.tunnel with
              status := iprohc_tunnel_status_t.IPROHC_TUNNEL_CONNECTING } },
          zeroed_client, zeroed_client]
      clients_nr := 1
      events := (main_loop_start (sample_startup 3 24) sample_opts 3 []).events ++
        [server_event.pselect, server_event.new_client 0 0] }
    rfl (by decide) rfl (by decide) with
    ⟨evs, teardown, h1, _, _, _, _, _, h7, h8, _⟩
  refine ⟨evs, h1, h8 (by decide), ?_, by decide⟩
  exact List.mem_of_mem_drop (h7 0 _ (by decide) rfl rfl).1

/-- C19, the code at the failing input: the server is stopped while slot 0
holds a connected client. The release loop closes the descriptors of the
slot, frees the TLS session with `gnutls_deinit` and closes the control
socket 14; no `gnutls_bye` is made, unlike in the reaping branch of the main
loop. The release loop makes no `gnutls_bye` for any slot table. -/
theorem main_shutdown_sends_no_close_notify :
    main_shutdown sample_ctx
        { clients := [sample_slot 2 7 11 13, free_slot, free_slot]
          clients_nr := 1, events := [] } =
      main_result.exit 0
        [server_event.close 12, server_event.close 13, server_event.close 4,
         server_event.close 10, server_event.close 11, server_event.close 3,
         server_event.gnutls_deinit 7, server_event.close 14,
         server_event.gnutls_global_deinit,
         server_event.pthread_cancel_join type_route.RAW, server_event.close 4,
         server_event.pthread_cancel_join type_route.TUN, server_event.close 3,
         server_event.close 5, server_event.gnutls_dh_params_deinit,
         server_event.free_clients,
         server_event.unlink "/var/run/iprohc_server.pid"] ∧
    (∀ (clients : List client) (j : Nat),
      server_event.gnutls_bye j ∉ (release_clients clients).2) := by
  constructor
  · decide
  · intro clients j
    induction clients with
    | nil => simp [release_clients]
    | cons a rest ih =>
      simp only [release_clients, List.mem_append, not_or]
      refine ⟨?_, ih⟩
      unfold release_client
      split_ifs <;> simp

/-! ### The client -/

theorem client_free_session_eq (env : client_env) (ctx : client_ctx) (exit_status : Int)
    (events : List client_event) :
    client_free_session env ctx exit_status events =
      client_result.exit exit_status
        (events ++ client_event.iprohc_session_free ::
          ((if env.iprohc_session_free then [] else [client_event.trace_err 690]) ++
            [client_event.freeaddrinfo, client_event.close ctx.raw,
             client_event.close ctx.tun, client_event.gnutls_global_deinit,
             client_event.close ctx.signal_fd])) := by
  unfold client_free_session client_close_tcp client_free_addrinfo client_delete_raw
    client_delete_tun client_tls_deinit
  cases h : env.iprohc_session_free <;> simp

theorem client_close_tls_eq (env : client_env) (ctx : client_ctx) (session : iprohc_session)
    (exit_status : Int) (events : List client_event) :
    client_close_tls env ctx session exit_status events =
      client_result.exit exit_status
        (events ++ client_event.gnutls_bye session.tls_session ::
          client_event.iprohc_session_free ::
          ((if env.iprohc_session_free then [] else [client_event.trace_err 690]) ++
            [client_event.freeaddrinfo, client_event.close ctx.raw,
             client_event.close ctx.tun, client_event.gnutls_global_deinit,
             client_event.close ctx.signal_fd])) := by
  unfold client_close_tls
  rw [client_free_session_eq]
  simp

theorem certificate_refused_iff (verify_status : Nat) :
    certificate_refused verify_status = true ↔
      (verify_status &&& GNUTLS_CERT_INVALID ≠ 0 ∧
       verify_status ≠ (GNUTLS_CERT_INSECURE_ALGORITHM ||| GNUTLS_CERT_INVALID)) := by
  simp [certificate_refused]

theorem client_check_certificate_spec (env : client_env) (opts : client_opts)
    (ctx : client_ctx) (session : iprohc_session) (events : List client_event)
    (hver : 0 ≤ env.verify_peers2) :
    ((env.verify_status &&& GNUTLS_CERT_INVALID = 0 ∨
        env.verify_status = (GNUTLS_CERT_INSECURE_ALGORITHM ||| GNUTLS_CERT_INVALID)) →
      client_check_certificate env opts ctx session events =
        client_connect_request env opts ctx session
          (events ++ [client_event.gnutls_certificate_verify_peers2 env.verify_peers2
            env.verify_status])) ∧
    ((env.verify_status &&& GNUTLS_CERT_INVALID ≠ 0 ∧
        env.verify_status ≠ (GNUTLS_CERT_INSECURE_ALGORITHM ||| GNUTLS_CERT_INVALID)) →
      client_check_certificate env opts ctx session events =
        client_tls_result.stop (client_result.exit (-3)
          (events ++ [client_event.gnutls_certificate_verify_peers2 env.verify_peers2
              env.verify_status, client_event.trace_err 486,
              client_event.gnutls_bye session.tls_session,
              client_event.iprohc_session_free] ++
            ((if env.iprohc_session_free then [] else [client_event.trace_err 690]) ++
              [client_event.freeaddrinfo, client_event.close ctx.raw,
               client_event.close ctx.tun, client_event.gnutls_global_deinit,
               client_event.close ctx.signal_fd])))) ∧
    (env.verify_status &&& GNUTLS_CERT_INVALID ≠ 0 →
      (env.verify_status &&& GNUTLS_CERT_REVOKED ≠ 0 ∨
        env.verify_status &&& GNUTLS_CERT_SIGNER_NOT_FOUND ≠ 0) →
      certificate_refused env.verify_status = true) := by
  have hnver : ¬ env.verify_peers2 < 0 := by omega
  refine ⟨?_, ?_, ?_⟩
  · intro hok
    have hacc : certificate_refused env.verify_status = false := by
      cases hr : certificate_refused env.verify_status
      · rfl
      · rcases (certificate_refused_iff _).mp hr with ⟨h1, h2⟩
        rcases hok with h | h
        · exact absurd h h1
        · exact absurd h h2
    unfold client_check_certificate
    simp only [hnver, if_false, hacc, Bool.false_eq_true]
  · intro hbad
    have hrej := (certificate_refused_iff _).mpr hbad
    unfold client_check_certificate
    simp only [hnver, if_false, hrej, if_true, client_close_tls_eq]
    simp
  · intro hinv hbits
    refine (certificate_refused_iff _).mpr ⟨hinv, ?_⟩
    intro heq
    rw [heq] at hbits
    revert hbits
    decide

/-- C11: for every status word that `gnutls_certificate_verify_peers2` stores
for the server certificate (GNUTLS_CERT_INVALID set in every status that is
not zero), the client goes on to the connect request only if the status is
zero or is exactly the benign mask
GNUTLS_CERT_INSECURE_ALGORITHM | GNUTLS_CERT_INVALID, and it does go on for
these two; every other status, for instance one with the REVOKED or the
SIGNER_NOT_FOUND bit, is refused: the TLS session is closed with `gnutls_bye`,
the session is freed and no connect request is made. -/
theorem client_check_certificate_rejects_untrusted_status (env : client_env)
    (opts : client_opts) (ctx : client_ctx) (session : iprohc_session)
    (events : List client_event) (hver : 0 ≤ env.verify_peers2)
    (hwf : verify_status_reports_invalid env.verify_status) :
    (certificate_refused env.verify_status = false ↔
      (env.verify_status = 0 ∨
        env.verify_status = (GNUTLS_CERT_INSECURE_ALGORITHM ||| GNUTLS_CERT_INVALID))) ∧
    ((env.verify_status = 0 ∨
        env.verify_status = (GNUTLS_CERT_INSECURE_ALGORITHM ||| GNUTLS_CERT_INVALID)) →
      client_check_certificate env opts ctx session events =
        client_connect_request env opts ctx session
          (events ++ [client_event.gnutls_certificate_verify_peers2 env.verify_peers2
            env.verify_status])) ∧
    (¬ (env.verify_status = 0 ∨
        env.verify_status = (GNUTLS_CERT_INSECURE_ALGORITHM ||| GNUTLS_CERT_INVALID)) →
      client_check_certificate env opts ctx session events =
        client_tls_result.stop (client_result.exit (-3)
          (events ++ [client_event.gnutls_certificate_verify_peers2 env.verify_peers2
              env.verify_status, client_event.trace_err 486,
              client_event.gnutls_bye session.tls_session,
              client_event.iprohc_session_free] ++
            ((if env.iprohc_session_free then [] else [client_event.trace_err 690]) ++
              [client_event.freeaddrinfo, client_event.close ctx.raw,
               client_event.close ctx.tun, client_event.gnutls_global_deinit,
               client_event.close ctx.signal_fd])))) ∧
    ((env.verify_status &&& GNUTLS_CERT_REVOKED ≠ 0 ∨
        env.verify_status &&& GNUTLS_CERT_SIGNER_NOT_FOUND ≠ 0) →
      certificate_refused env.verify_status = true) := by
  rcases client_check_certificate_spec env opts ctx session events hver with ⟨hgo, hstop, hbits⟩
  have hzero : env.verify_status = 0 → env.verify_status &&& GNUTLS_CERT_INVALID = 0 := by
    intro h0
    rw [h0]
    decide
  refine ⟨?_, ?_, ?_, ?_⟩
  · constructor
    · intro hacc
      by_contra hno
      have hne0 : env.verify_status ≠ 0 := fun h => hno (Or.inl h)
      have hnem : env.verify_status ≠
          (GNUTLS_CERT_INSECURE_ALGORITHM ||| GNUTLS_CERT_INVALID) := fun h => hno (Or.inr h)
      rw [(certificate_refused_iff _).mpr ⟨hwf hne0, hnem⟩] at hacc
      cases hacc
    · intro hok
      cases hr : certificate_refused env.verify_status
      · rfl
      · rcases (certificate_refused_iff _).mp hr with ⟨h1, h2⟩
        rcases hok with h | h
        · exact absurd (hzero h) h1
        · exact absurd h h2
  · intro hok
    rcases hok with h | h
    · exact hgo (Or.inl (hzero h))
    · exact hgo (Or.inr h)
  · intro hno
    have hne0 : env.verify_status ≠ 0 := fun h => hno (Or.inl h)
    have hnem : env.verify_status ≠
        (GNUTLS_CERT_INSECURE_ALGORITHM ||| GNUTLS_CERT_INVALID) := fun h => hno (Or.inr h)
    exact hstop ⟨hwf hne0, hnem⟩
  · intro hb
    have hne0 : env.verify_status ≠ 0 := by
      intro h0
      rw [h0] at hb
      revert hb
      decide
    exact hbits (hwf hne0) hb

/-- Witness for C11: the status GNUTLS_CERT_INVALID | GNUTLS_CERT_REVOKED (34)
is refused and `main` returns after `gnutls_bye`, without a connect request. -/
theorem client_check_certificate_rejects_untrusted_status_witness :
    client_check_certificate (sample_client_env 34 []) initial_client_opts
        { signal_fd := 3, tun := 4, raw := 5 } sample_session [] =
      client_tls_result.stop (client_result.exit (-3)
        [client_event.gnutls_certificate_verify_peers2 0 34, client_event.trace_err 486,
         client_event.gnutls_bye 1, client_event.iprohc_session_free,
         client_event.freeaddrinfo, client_event.close 5, client_event.close 4,
         client_event.gnutls_global_deinit, client_event.close 3]) :=
  (client_check_certificate_rejects_untrusted_status (sample_client_env 34 [])
    initial_client_opts { signal_fd := 3, tun := 4, raw := 5 } sample_session []
    (by decide) (fun _ => by decide)).2.2.1 (by decide)

theorem client_iteration_tcp_events (it : client_iter) (session : iprohc_session)
    (events : List client_event) :
    ∃ tail, (client_iteration_tcp it session events).events = events ++ tail := by
  unfold client_iteration_tcp
  cases h1 : it.tcp_socket_isset
  · simp only [Bool.false_eq_true, if_false, client_iter_result.events]
    exact ⟨[], (List.append_nil _).symm⟩
  · simp only [if_true]
    by_cases h2 : it.gnutls_record_recv < 0
    · rw [if_pos h2]
      simp only [client_iter_result.events, List.append_assoc]
      exact ⟨_, rfl⟩
    · rw [if_neg h2]
      by_cases h3 : it.gnutls_record_recv = 0
      · rw [if_pos h3]
        simp only [client_iter_result.events, List.append_assoc]
        exact ⟨_, rfl⟩
      · rw [if_neg h3]
        cases h4 : (it.handle_message session).1
        · simp only [Bool.false_eq_true, not_false_eq_true, if_true,
            client_iter_result.events, List.append_assoc]
          exact ⟨_, rfl⟩
        · simp only [not_true_eq_false, if_false, client_iter_result.events,
            List.append_assoc]
          exact ⟨_, rfl⟩

/-- C12: in every iteration of the client loop `select` is called with a
timeout of 80 seconds when the session status is not CONNECTED and of
2 x keepalive_timeout seconds when it is (120 for a keepalive timeout of 60;
the product is computed in `size_t` and is exact below 2^64); when `select`
returns 0 the loop is left, the TLS session is closed with `gnutls_bye` and
`main` returns 1. -/
theorem client_select_timeout (it : client_iter) (session : iprohc_session)
    (events : List client_event) :
    (session.status ≠ iprohc_session_status_t.IPROHC_SESSION_CONNECTED →
      client_timeout session = 80) ∧
    (session.status = iprohc_session_status_t.IPROHC_SESSION_CONNECTED →
      session.params.keepalive_timeout * 2 < 2 ^ 64 →
      client_timeout session = 2 * session.params.keepalive_timeout) ∧
    (session.status = iprohc_session_status_t.IPROHC_SESSION_CONNECTED →
      session.params.keepalive_timeout = 60 → client_timeout session = 120) ∧
    (∃ tail, (client_iteration it session events).events =
      events ++ client_event.select (client_timeout session) it.select :: tail) ∧
    (it.select = 0 → ∀ (env : client_env) (ctx : client_ctx) (rest : List client_iter),
      client_after_loop env ctx (client_loop (it :: rest) session events) =
        client_result.exit 1
          (events ++ [client_event.select (client_timeout session) 0,
              client_event.trace_warning 595,
              client_event.gnutls_bye session.tls_session,
              client_event.iprohc_session_free] ++
            ((if env.iprohc_session_free then [] else [client_event.trace_err 690]) ++
              [client_event.freeaddrinfo, client_event.close ctx.raw,
               client_event.close ctx.tun, client_event.gnutls_global_deinit,
               client_event.close ctx.signal_fd]))) := by
  refine ⟨?_, ?_, ?_, ?_, ?_⟩
  · intro h
    simp [client_timeout, h]
  · intro h hk
    simp only [client_timeout, h, if_true]
    rw [Nat.mod_eq_of_lt hk]
    omega
  · intro h hk
    simp [client_timeout, h, hk]
  · unfold client_iteration
    simp only
    by_cases h1 : it.select < 0
    · rw [if_pos h1]
      split_ifs <;> simp only [client_iter_result.events, List.append_assoc] <;>
        exact ⟨_, rfl⟩
    · rw [if_neg h1]
      by_cases h2 : it.select = 0
      · rw [if_pos h2]
        simp only [client_iter_result.events, List.append_assoc]
        exact ⟨_, rfl⟩
      · rw [if_neg h2]
        cases h3 : it.signal_fd_isset
        · simp only [Bool.false_eq_true, if_false]
          rcases client_iteration_tcp_events it session
            (events ++ [client_event.select (client_timeout session) it.select]) with ⟨t, ht⟩
          exact ⟨t, by rw [ht]; simp⟩
        · simp only [if_true]
          by_cases h4 : it.read < 0
          · rw [if_pos h4]
            simp only [client_iter_result.events, List.append_assoc]
            exact ⟨_, rfl⟩
          · rw [if_neg h4]
            by_cases h5 : it.read ≠ sizeof_signalfd_siginfo
            · rw [if_pos h5]
              simp only [client_iter_result.events, List.append_assoc]
              exact ⟨_, rfl⟩
            · rw [if_neg h5]
              by_cases h6 : it.ssi_signo = SIGINT ∨ it.ssi_signo = SIGTERM ∨
                  it.ssi_signo = SIGQUIT
              · rw [if_pos h6]
                simp only [client_iter_result.events, List.append_assoc]
                exact ⟨_, rfl⟩
              · rw [if_neg h6]
                rcases client_iteration_tcp_events it session
                  (events ++ [client_event.select (client_timeout session) it.select] ++
                    [client_event.read_signal_fd it.read]) with ⟨t, ht⟩
                exact ⟨client_event.read_signal_fd it.read :: t, by rw [ht]; simp⟩
  · intro h0 env ctx rest
    have hiter : client_iteration it session events =
        client_iter_result.goto_close_tls session
          (events ++ [client_event.select (client_timeout session) it.select] ++
            [client_event.trace_warning 595]) := by
      unfold client_iteration
      simp [h0]
    rw [client_loop, hiter]
    simp only [client_after_loop, client_close_tls_eq, h0]
    simp

/-- Witness for C12: a CONNECTED session with keepalive timeout 60 waits 120
seconds. -/
theorem client_select_timeout_witness :
    client_timeout { sample_session with
        status := iprohc_session_status_t.IPROHC_SESSION_CONNECTED
        params := { keepalive_timeout := 60 } } = 2 * 60 :=
  (client_select_timeout (sample_select_iter 0)
    { sample_session with
        status := iprohc_session_status_t.IPROHC_SESSION_CONNECTED
        params := { keepalive_timeout := 60 } } []).2.1 rfl (by decide)

theorem client_handshake_fatal :
    ∀ (l : List (Int × Bool)) (ret : Int), (client_handshake l).1 = some ret → ret < 0 →
      (ret, true) ∈ l := by
  intro l
  induction l with
  | nil => intro ret h; simp [client_handshake] at h
  | cons a rest ih =>
    intro ret h hneg
    rcases a with ⟨r, fatal⟩
    rw [client_handshake] at h
    by_cases hc : r < 0 ∧ ¬ fatal = true
    · rw [if_pos hc] at h
      exact List.mem_cons_of_mem _ (ih ret h hneg)
    · rw [if_neg hc] at h
      simp only [Option.some.injEq] at h
      subst h
      have hf : fatal = true := by
        by_contra hnf
        exact hc ⟨hneg, hnf⟩
      subst hf
      exact List.mem_cons_self _ _

/-- C14, the code at the failing inputs: the handshake succeeds and the
verification of the server certificate fails (`gnutls_certificate_verify_peers2`
returns -1), or it succeeds with the status
GNUTLS_CERT_INVALID | GNUTLS_CERT_REVOKED; in both runs `main` closes the
session and returns -3, not 2. In the sibling run in which the handshake fails
with a fatal error `main` returns 2, the value the header of the file
documents for "Unable to connect". -/
theorem client_verify_failure_returns_minus_3 :
    client_main { sample_client_env 0 [] with verify_peers2 := -1 } =
      client_result.exit (-3)
        [client_event.sigprocmask 0, client_event.signalfd 3,
         client_event.gnutls_global_init, client_event.load_p12 true 0,
         client_event.create_tun 4, client_event.create_raw 5,
         client_event.getaddrinfo "192.168.1.14" "3126" 0,
         client_event.socket 6, client_event.connect 6 0, client_event.getsockname 6 0,
         client_event.iprohc_session_new 6, client_event.gnutls_handshake 0,
         client_event.gnutls_certificate_verify_peers2 (-1) 0, client_event.trace_err 478,
         client_event.gnutls_bye 1, client_event.iprohc_session_free,
         client_event.freeaddrinfo, client_event.close 5, client_event.close 4,
         client_event.gnutls_global_deinit, client_event.close 3] ∧
    client_main (sample_client_env 34 []) =
      client_result.exit (-3)
        [client_event.sigprocmask 0, client_event.signalfd 3,
         client_event.gnutls_global_init, client_event.load_p12 true 0,
         client_event.create_tun 4, client_event.create_raw 5,
         client_event.getaddrinfo "192.168.1.14" "3126" 0,
         client_event.socket 6, client_event.connect 6 0, client_event.getsockname 6 0,
         client_event.iprohc_session_new 6, client_event.gnutls_handshake 0,
         client_event.gnutls_certificate_verify_peers2 0 34, client_event.trace_err 486,
         client_event.gnutls_bye 1, client_event.iprohc_session_free,
         client_event.freeaddrinfo, client_event.close 5, client_event.close 4,
         client_event.gnutls_global_deinit, client_event.close 3] ∧
    client_main { sample_client_env 0 [] with handshake := [(-28, false), (-12, true)] } =
      client_result.exit 2
        [client_event.sigprocmask 0, client_event.signalfd 3,
         client_event.gnutls_global_init, client_event.load_p12 true 0,
         client_event.create_tun 4, client_event.create_raw 5,
         client_event.getaddrinfo "192.168.1.14" "3126" 0,
         client_event.socket 6, client_event.connect 6 0, client_event.getsockname 6 0,
         client_event.iprohc_session_new 6, client_event.gnutls_handshake (-28),
         client_event.gnutls_handshake (-12), client_event.trace_err 469,
         client_event.iprohc_session_free, client_event.freeaddrinfo,
         client_event.close 5, client_event.close 4,
         client_event.gnutls_global_deinit, client_event.close 3] ∧
    (-3 : Int) ≠ 2 := by
  refine ⟨by decide, by decide, by decide, by decide⟩

theorem client_tls_failure_exit_status (env : client_env) (opts : client_opts)
    (ctx : client_ctx) (session : iprohc_session) (events : List client_event)
    (ret : Int) (hhs : (client_handshake env.handshake).1 = some ret) :
    (ret < 0 →
      (ret, true) ∈ env.handshake ∧
      client_tls env opts ctx session events =
        client_tls_result.stop (client_result.exit 2
          (events ++ (client_handshake env.handshake).2 ++
            [client_event.trace_err 469, client_event.iprohc_session_free] ++
            ((if env.iprohc_session_free then [] else [client_event.trace_err 690]) ++
              [client_event.freeaddrinfo, client_event.close ctx.raw,
               client_event.close ctx.tun, client_event.gnutls_global_deinit,
               client_event.close ctx.signal_fd])))) ∧
    (0 ≤ ret → (env.verify_peers2 < 0 ∨ certificate_refused env.verify_status = true) →
      ∃ line, client_tls env opts ctx session events =
        client_tls_result.stop (client_result.exit (-3)
          (events ++ (client_handshake env.handshake).2 ++
            [client_event.gnutls_certificate_verify_peers2 env.verify_peers2
              env.verify_status, client_event.trace_err line,
              client_event.gnutls_bye session.tls_session,
              client_event.iprohc_session_free] ++
            ((if env.iprohc_session_free then [] else [client_event.trace_err 690]) ++
              [client_event.freeaddrinfo, client_event.close ctx.raw,
               client_event.close ctx.tun, client_event.gnutls_global_deinit,
               client_event.close ctx.signal_fd])))) := by
  constructor
  · intro hneg
    refine ⟨client_handshake_fatal _ _ hhs hneg, ?_⟩
    unfold client_tls
    simp only [hhs, hneg, if_true, client_free_session_eq]
    simp
  · intro hok hbad
    have hnneg : ¬ ret < 0 := by omega
    unfold client_tls
    simp only [hhs, hnneg, if_false]
    unfold client_check_certificate
    by_cases hv : env.verify_peers2 < 0
    · refine ⟨478, ?_⟩
      simp only [hv, if_true, client_close_tls_eq]
      simp
    · have hrej : certificate_refused env.verify_status = true := by
        rcases hbad with h | h
        · exact absurd h hv
        · exact h
      refine ⟨486, ?_⟩
      simp only [hv, if_false, hrej, if_true, client_close_tls_eq]
      simp

/-- C15, the code at the failing inputs: the name of the server cannot be
resolved (`getaddrinfo` returns -2), or the two resolved addresses do not
accept the connection; in both runs `main` returns 1, whereas the header of
the file documents 2 for "Unable to connect". -/
theorem client_connect_failure_exit_status :
    client_main { sample_client_env 0 [] with getaddrinfo := -2 } =
      client_result.exit 1
        [client_event.sigprocmask 0, client_event.signalfd 3,
         client_event.gnutls_global_init, client_event.load_p12 true 0,
         client_event.create_tun 4, client_event.create_raw 5,
         client_event.getaddrinfo "192.168.1.14" "3126" (-2), client_event.trace_err 378,
         client_event.close 5, client_event.close 4,
         client_event.gnutls_global_deinit, client_event.close 3] ∧
    client_main { sample_client_env 0 [] with result := [(6, -1), (7, -1)] } =
      client_result.exit 1
        [client_event.sigprocmask 0, client_event.signalfd 3,
         client_event.gnutls_global_init, client_event.load_p12 true 0,
         client_event.create_tun 4, client_event.create_raw 5,
         client_event.getaddrinfo "192.168.1.14" "3126" 0,
         client_event.socket 6, client_event.connect 6 (-1), client_event.close 6,
         client_event.socket 7, client_event.connect 7 (-1), client_event.close 7,
         client_event.trace_err 411, client_event.freeaddrinfo,
         client_event.close 5, client_event.close 4,
         client_event.gnutls_global_deinit, client_event.close 3] := by
  refine ⟨by decide, by decide⟩

theorem client_close_tcp_exit (ctx : client_ctx) (ctrl_sock exit_status : Int)
    (events : List client_event) :
    ∃ ev, client_close_tcp ctx ctrl_sock exit_status events =
      client_result.exit exit_status ev := by
  unfold client_close_tcp client_free_addrinfo client_delete_raw client_delete_tun
    client_tls_deinit
  split_ifs <;> exact ⟨_, rfl⟩

theorem client_setup_stop (env : client_env) (opts : client_opts) (r : client_result)
    (h : client_setup env opts = client_setup_result.stop r) :
    ∃ ev, r = client_result.exit 1 ev := by
  unfold client_setup at h
  simp only at h
  by_cases h1 : env.sigprocmask ≠ 0
  · rw [if_pos h1] at h
    simp only [client_setup_result.stop.injEq] at h
    exact ⟨_, h.symm⟩
  rw [if_neg h1] at h
  by_cases h2 : env.signalfd < 0
  · rw [if_pos h2] at h
    simp only [client_setup_result.stop.injEq] at h
    exact ⟨_, h.symm⟩
  rw [if_neg h2] at h
  by_cases h3 : env.load_p12_null < 0 ∧ env.load_p12_empty < 0
  · rw [if_pos h3] at h
    simp only [client_setup_result.stop.injEq, client_tls_deinit] at h
    exact ⟨_, h.symm⟩
  rw [if_neg h3] at h
  by_cases h4 : env.create_tun < 0
  · rw [if_pos h4] at h
    simp only [client_setup_result.stop.injEq, client_tls_deinit] at h
    exact ⟨_, h.symm⟩
  rw [if_neg h4] at h
  by_cases h5 : env.create_raw < 0
  · rw [if_pos h5] at h
    simp only [client_setup_result.stop.injEq, client_tls_deinit, client_delete_tun] at h
    exact ⟨_, h.symm⟩
  rw [if_neg h5] at h
  by_cases h6 : env.getaddrinfo ≠ 0
  · rw [if_pos h6] at h
    simp only [client_setup_result.stop.injEq, client_tls_deinit, client_delete_tun,
      client_delete_raw] at h
    exact ⟨_, h.symm⟩
  rw [if_neg h6] at h
  by_cases h7 : env.result = []
  · rw [if_pos h7] at h
    simp only [client_setup_result.stop.injEq, client_tls_deinit, client_delete_tun,
      client_delete_raw, client_free_addrinfo] at h
    exact ⟨_, h.symm⟩
  rw [if_neg h7] at h
  cases hcon : (client_connect env.result).1 with
  | none =>
    rw [hcon] at h
    simp only [client_setup_result.stop.injEq, client_tls_deinit, client_delete_tun,
      client_delete_raw, client_free_addrinfo] at h
    exact ⟨_, h.symm⟩
  | some ctrl_sock =>
    rw [hcon] at h
    simp only at h
    by_cases h8 : env.getsockname ≠ 0
    · rw [if_pos h8] at h
      simp only [client_setup_result.stop.injEq] at h
      subst h
      exact client_close_tcp_exit _ _ _ _
    rw [if_neg h8] at h
    cases hnew : env.iprohc_session_new with
    | none =>
      rw [hnew] at h
      simp only [client_setup_result.stop.injEq] at h
      subst h
      exact client_close_tcp_exit _ _ _ _
    | some session =>
      rw [hnew] at h
      exact absurd h (by simp)

theorem client_connect_request_stop (env : client_env) (opts : client_opts)
    (ctx : client_ctx) (session : iprohc_session) (events : List client_event)
    (r : client_result)
    (h : client_connect_request env opts ctx session events = client_tls_result.stop r) :
    r.not_zero := by
  unfold client_connect_request at h
  simp only at h
  cases hgen : env.gen_connrequest with
  | none =>
    rw [hgen] at h
    simp only [client_tls_result.stop.injEq, client_close_tls_eq] at h
    exact Or.inr ⟨1, _, h.symm, Or.inl rfl⟩
  | some tlv_len =>
    rw [hgen] at h
    simp only at h
    cases hsend : (client_send_connect env.record_send 0 (1 + tlv_len)).1 with
    | none =>
      rw [hsend] at h
      simp only [client_tls_result.stop.injEq] at h
      exact Or.inl ⟨_, h.symm⟩
    | some b =>
      rw [hsend] at h
      cases b with
      | false =>
        simp only [client_tls_result.stop.injEq, client_close_tls_eq] at h
        exact Or.inr ⟨1, _, h.symm, Or.inl rfl⟩
      | true => exact absurd h (by simp)

theorem client_tls_stop (env : client_env) (opts : client_opts)
    (ctx : client_ctx) (session : iprohc_session) (events : List client_event)
    (r : client_result)
    (h : client_tls env opts ctx session events = client_tls_result.stop r) :
    r.not_zero := by
  unfold client_tls at h
  simp only at h
  cases hhs : (client_handshake env.handshake).1 with
  | none =>
    rw [hhs] at h
    simp only [client_tls_result.stop.injEq] at h
    exact Or.inl ⟨_, h.symm⟩
  | some ret =>
    rw [hhs] at h
    simp only at h
    by_cases h1 : ret < 0
    · rw [if_pos h1] at h
      simp only [client_tls_result.stop.injEq, client_free_session_eq] at h
      exact Or.inr ⟨2, _, h.symm, Or.inr (Or.inl rfl)⟩
    · rw [if_neg h1] at h
      unfold client_check_certificate at h
      simp only at h
      by_cases h2 : env.verify_peers2 < 0
      · rw [if_pos h2] at h
        simp only [client_tls_result.stop.injEq, client_close_tls_eq] at h
        exact Or.inr ⟨-3, _, h.symm, Or.inr (Or.inr rfl)⟩
      · rw [if_neg h2] at h
        cases h3 : certificate_refused env.verify_status
        · simp only [h3, Bool.false_eq_true, if_false] at h
          exact client_connect_request_stop env opts ctx session _ r h
        · simp only [h3, if_true, client_tls_result.stop.injEq, client_close_tls_eq] at h
          exact Or.inr ⟨-3, _, h.symm, Or.inr (Or.inr rfl)⟩

theorem client_iteration_tcp_not_alive_false (it : client_iter) (session : iprohc_session)
    (events : List client_event) (s1 : iprohc_session) (ev1 : List client_event) :
    client_iteration_tcp it session events ≠ client_iter_result.alive_false s1 ev1 := by
  unfold client_iteration_tcp
  cases h1 : it.tcp_socket_isset
  · simp
  · simp only [if_true]
    by_cases h2 : it.gnutls_record_recv < 0
    · rw [if_pos h2]; simp
    · rw [if_neg h2]
      by_cases h3 : it.gnutls_record_recv = 0
      · rw [if_pos h3]; simp
      · rw [if_neg h3]
        cases h4 : (it.handle_message session).1 <;> simp

theorem client_iteration_alive_false_iff (it : client_iter) (session : iprohc_session)
    (events : List client_event) :
    (∃ s1 ev1, client_iteration it session events = client_iter_result.alive_false s1 ev1) ↔
      shutdown_signal_read it := by
  unfold client_iteration shutdown_signal_read
  simp only
  by_cases h1 : it.select < 0
  · rw [if_pos h1]
    constructor
    · rintro ⟨s1, ev1, h⟩
      split_ifs at h
    · rintro ⟨hpos, _⟩
      omega
  rw [if_neg h1]
  by_cases h2 : it.select = 0
  · rw [if_pos h2]
    constructor
    · rintro ⟨s1, ev1, h⟩
      exact absurd h (by simp)
    · rintro ⟨hpos, _⟩
      omega
  rw [if_neg h2]
  have hpos : 0 < it.select := by omega
  cases h3 : it.signal_fd_isset
  · simp only [Bool.false_eq_true, if_false, false_and, and_false, iff_false, not_exists]
    intro s1 ev1
    exact client_iteration_tcp_not_alive_false it session _ s1 ev1
  simp only [if_true, true_and]
  by_cases h4 : it.read < 0
  · rw [if_pos h4]
    constructor
    · rintro ⟨s1, ev1, h⟩
      exact absurd h (by simp)
    · rintro ⟨_, hr, _⟩
      rw [hr] at h4
      exact absurd h4 (by decide)
  rw [if_neg h4]
  by_cases h5 : it.read ≠ sizeof_signalfd_siginfo
  · rw [if_pos h5]
    constructor
    · rintro ⟨s1, ev1, h⟩
      exact absurd h (by simp)
    · rintro ⟨_, hr, _⟩
      exact absurd hr h5
  rw [if_neg h5]
  have hr : it.read = sizeof_signalfd_siginfo := not_not.mp h5
  by_cases h6 : it.ssi_signo = SIGINT ∨ it.ssi_signo = SIGTERM ∨ it.ssi_signo = SIGQUIT
  · rw [if_pos h6]
    exact ⟨fun _ => ⟨hpos, hr, h6⟩, fun _ => ⟨_, _, rfl⟩⟩
  · rw [if_neg h6]
    constructor
    · rintro ⟨s1, ev1, h⟩
      exact absurd h (client_iteration_tcp_not_alive_false it session _ s1 ev1)
    · rintro ⟨_, _, hs⟩
      exact absurd hs h6

theorem client_loop_interrupted :
    ∀ (its : List client_iter) (session : iprohc_session) (events : List client_event)
      (s1 : iprohc_session) (ev1 : List client_event),
      client_loop its session events = client_loop_result.interrupted s1 ev1 →
      ∃ it, it ∈ its ∧ shutdown_signal_read it := by
  intro its
  induction its with
  | nil =>
    intro session events s1 ev1 h
    simp [client_loop] at h
  | cons it rest ih =>
    intro session events s1 ev1 h
    rw [client_loop] at h
    cases hit : client_iteration it session events with
    | continue_loop s2 ev2 =>
      rw [hit] at h
      rcases ih s2 ev2 s1 ev1 h with ⟨x, hx, hsig⟩
      exact ⟨x, List.mem_cons_of_mem _ hx, hsig⟩
    | alive_false s2 ev2 =>
      exact ⟨it, List.mem_cons_self _ _,
        (client_iteration_alive_false_iff it session events).mp ⟨s2, ev2, hit⟩⟩
    | goto_close_tls s2 ev2 =>
      rw [hit] at h
      exact absurd h (by simp)

theorem client_after_loop_zero (env : client_env) (ctx : client_ctx)
    (lr : client_loop_result) :
    (∃ ev, client_after_loop env ctx lr = client_result.exit 0 ev) ↔
      ∃ s1 ev1, lr = client_loop_result.interrupted s1 ev1 := by
  cases lr with
  | interrupted s1 ev1 =>
    simp only [client_after_loop, client_close_tls_eq]
    constructor
    · intro _
      exact ⟨s1, ev1, rfl⟩
    · intro _
      split_ifs <;> exact ⟨_, rfl⟩
  | close_tls s1 ev1 =>
    simp only [client_after_loop, client_close_tls_eq]
    constructor
    · rintro ⟨ev, h⟩
      simp at h
    · rintro ⟨s, e, h⟩
      exact absurd h (by simp)
  | running ev1 =>
    simp only [client_after_loop]
    constructor
    · rintro ⟨ev, h⟩
      exact absurd h (by simp)
    · rintro ⟨s, e, h⟩
      exact absurd h (by simp)

theorem client_after_loop_status (env : client_env) (ctx : client_ctx)
    (lr : client_loop_result) (es : Int) (ev : List client_event)
    (h : client_after_loop env ctx lr = client_result.exit es ev) : es = 0 ∨ es = 1 := by
  cases lr with
  | interrupted s1 ev1 =>
    simp only [client_after_loop, client_close_tls_eq] at h
    split_ifs at h <;> simp only [client_result.exit.injEq] at h <;> exact Or.inl h.1.symm
  | close_tls s1 ev1 =>
    simp only [client_after_loop, client_close_tls_eq, client_result.exit.injEq] at h
    exact Or.inr h.1.symm
  | running ev1 =>
    simp only [client_after_loop] at h
    exact absurd h (by simp)

theorem client_main_of_reaches_loop (env : client_env) (ctx : client_ctx)
    (session : iprohc_session) (events : List client_event)
    (h : client_reaches_loop env ctx session events) :
    client_main env = client_after_loop env ctx (client_loop env.iterations session events) := by
  rcases h with ⟨opts, ev0, hparse, h1, h2, h3, h4, hsetup, htls⟩
  unfold client_main
  rw [hparse]
  simp only [h1, h2, h3, h4, if_false]
  unfold client_run
  rw [hsetup]
  simp only [htls]

theorem client_main_cases (env : client_env) :
    (client_main env).not_zero ∨
      ∃ ctx session events, client_reaches_loop env ctx session events := by
  cases hparse : client_process_options env.options initial_client_opts with
  | goto_error e =>
    left
    unfold client_main
    rw [hparse]
    exact Or.inr ⟨1, _, rfl, Or.inl rfl⟩
  | parsed opts =>
    by_cases h1 : opts.serv_addr = ""
    · left
      unfold client_main
      rw [hparse]
      simp only [h1, if_true]
      exact Or.inr ⟨1, _, rfl, Or.inl rfl⟩
    by_cases h2 : opts.tun_name = ""
    · left
      unfold client_main
      rw [hparse]
      simp only [h1, h2, if_false, if_true]
      exact Or.inr ⟨1, _, rfl, Or.inl rfl⟩
    by_cases h3 : opts.basedev = ""
    · left
      unfold client_main
      rw [hparse]
      simp only [h1, h2, h3, if_false, if_true]
      exact Or.inr ⟨1, _, rfl, Or.inl rfl⟩
    by_cases h4 : opts.pkcs12_f = ""
    · left
      unfold client_main
      rw [hparse]
      simp only [h1, h2, h3, h4, if_false, if_true]
      exact Or.inr ⟨1, _, rfl, Or.inl rfl⟩
    have hmain : client_main env = client_run env opts := by
      unfold client_main
      rw [hparse]
      simp only [h1, h2, h3, h4, if_false]
    cases hsetup : client_setup env opts with
    | stop r =>
      left
      rw [hmain]
      unfold client_run
      rw [hsetup]
      rcases client_setup_stop env opts r hsetup with ⟨ev, hr⟩
      exact Or.inr ⟨1, ev, hr, Or.inl rfl⟩
    | ready ctx session ev0 =>
      cases htls : client_tls env opts ctx session ev0 with
      | stop r =>
        left
        rw [hmain]
        unfold client_run
        rw [hsetup]
        simp only [htls]
        exact client_tls_stop env opts ctx session ev0 r htls
      | wait_answer ev1 =>
        right
        exact ⟨ctx, session, ev1, opts, ev0, hparse, h1, h2, h3, h4, hsetup, htls⟩

theorem client_result_not_zero_exit (r : client_result) (h : r.not_zero)
    (ev : List client_event) : r ≠ client_result.exit 0 ev := by
  intro heq
  rcases h with ⟨e, he⟩ | ⟨es, e, he, hes⟩
  · rw [he] at heq
    exact absurd heq (by simp)
  · rw [he] at heq
    simp only [client_result.exit.injEq] at heq
    rcases hes with h1 | h1 | h1 <;> omega

/-- C16: the client `main` returns 0 if and only if it reaches its main loop
and the loop ends with `is_client_alive` cleared, which happens only in an
iteration that reads SIGINT, SIGTERM or SIGQUIT from the signal descriptor;
the return value does not depend on whether the disconnect message could be
sent; on every other path `main` returns 1, 2 or -3. -/
theorem client_main_returns_zero_iff_signal (env : client_env) :
    ((∃ ev, client_main env = client_result.exit 0 ev) ↔
      ∃ ctx session events s1 ev1, client_reaches_loop env ctx session events ∧
        client_loop env.iterations session events =
          client_loop_result.interrupted s1 ev1) ∧
    (∀ session events s1 ev1,
      client_loop env.iterations session events = client_loop_result.interrupted s1 ev1 →
      ∃ it, it ∈ env.iterations ∧ shutdown_signal_read it) ∧
    (∀ it session events,
      (∃ s1 ev1, client_iteration it session events =
        client_iter_result.alive_false s1 ev1) ↔ shutdown_signal_read it) ∧
    (∀ ctx s1 ev1, ∃ ev,
      client_after_loop env ctx (client_loop_result.interrupted s1 ev1) =
        client_result.exit 0 (ev1 ++ client_event.client_send_disconnect_msg :: ev)) ∧
    (∀ es ev, client_main env = client_result.exit es ev →
      es = 0 ∨ es = 1 ∨ es = 2 ∨ es = -3) := by
  refine ⟨⟨?_, ?_⟩, ?_, ?_, ?_, ?_⟩
  · rintro ⟨ev, hmain⟩
    rcases client_main_cases env with hnz | ⟨ctx, session, events, hreach⟩
    · exact absurd hmain (client_result_not_zero_exit _ hnz ev)
    · rw [client_main_of_reaches_loop env ctx session events hreach] at hmain
      rcases (client_after_loop_zero env ctx _).mp ⟨ev, hmain⟩ with ⟨s1, ev1, hloop⟩
      exact ⟨ctx, session, events, s1, ev1, hreach, hloop⟩
  · rintro ⟨ctx, session, events, s1, ev1, hreach, hloop⟩
    rw [client_main_of_reaches_loop env ctx session events hreach, hloop]
    exact (client_after_loop_zero env ctx _).mpr ⟨s1, ev1, rfl⟩
  · intro session events s1 ev1 h
    exact client_loop_interrupted env.iterations session events s1 ev1 h
  · intro it session events
    exact client_iteration_alive_false_iff it session events
  · intro ctx s1 ev1
    simp only [client_after_loop, client_close_tls_eq]
    split_ifs <;>
      simp only [List.append_assoc, List.cons_append, List.nil_append] <;>
      exact ⟨_, rfl⟩
  · intro es ev hmain
    rcases client_main_cases env with hnz | ⟨ctx, session, events, hreach⟩
    · rcases hnz with ⟨e, he⟩ | ⟨es1, e, he, hes⟩
      · rw [he] at hmain
        exact absurd hmain (by simp)
      · rw [he] at hmain
        simp only [client_result.exit.injEq] at hmain
        rcases hmain with ⟨h1, _⟩
        subst h1
        exact Or.inr hes
    · rw [client_main_of_reaches_loop env ctx session events hreach] at hmain
      rcases client_after_loop_status env ctx _ es ev hmain with h | h
      · exact Or.inl h
      · exact Or.inr (Or.inl h)

/-- Witness for C16: the server accepts the connection and SIGTERM is read in
the second iteration; `main` returns 0. -/
theorem client_main_returns_zero_iff_signal_witness :
    ∃ ev, client_main (sample_client_env 0 [sample_connect_ok_iter,
      sample_signal_iter SIGTERM]) = client_result.exit 0 ev :=
  (client_main_returns_zero_iff_signal
    (sample_client_env 0 [sample_connect_ok_iter, sample_signal_iter SIGTERM])).1.mpr
    ⟨{ signal_fd := 3, tun := 4, raw := 5 }, sample_session, _, _, _,
      ⟨_, _, rfl, by decide, by decide, by decide, by decide, rfl, rfl⟩, rfl⟩

theorem client_process_options_error :
    ∀ (l : List client_getopt) (opts : client_opts) (e : client_event),
      client_process_options l opts = client_parse_result.goto_error e →
      e = client_event.usage ∨ e = client_event.print_version ∨
        ∃ line, e = client_event.trace_err line := by
  intro l
  induction l with
  | nil => intro opts e h; simp [client_process_options] at h
  | cons x rest ih =>
    intro opts e h
    cases x <;> rw [client_process_options] at h
    case opt_h =>
      simp only [client_parse_result.goto_error.injEq] at h
      exact Or.inl h.symm
    case opt_v =>
      simp only [client_parse_result.goto_error.injEq] at h
      exact Or.inr (Or.inl h.symm)
    all_goals
      first
        | exact ih _ e h
        | (split_ifs at h <;>
            first
              | exact ih _ e h
              | (simp only [client_parse_result.goto_error.injEq] at h
                 exact Or.inr (Or.inr ⟨_, h.symm⟩)))

theorem client_process_options_absent :
    ∀ (l : List client_getopt) (opts opts1 : client_opts),
      client_process_options l opts = client_parse_result.parsed opts1 →
      ((∀ a, client_getopt.opt_r a ∉ l) → opts1.serv_addr = opts.serv_addr) ∧
      ((∀ a n, client_getopt.opt_b a n ∉ l) → opts1.basedev = opts.basedev) ∧
      ((∀ a, client_getopt.opt_i a ∉ l) → opts1.tun_name = opts.tun_name) ∧
      ((∀ a, client_getopt.opt_P a ∉ l) → opts1.pkcs12_f = opts.pkcs12_f) := by
  intro l
  induction l with
  | nil =>
    intro opts opts1 h
    simp only [client_process_options, client_parse_result.parsed.injEq] at h
    subst h
    exact ⟨fun _ => rfl, fun _ => rfl, fun _ => rfl, fun _ => rfl⟩
  | cons x rest ih =>
    intro opts opts1 h
    cases x <;> rw [client_process_options] at h <;> (try split_ifs at h) <;>
      (try (exact absurd h (by simp)))
    all_goals
      have hih := ih _ _ h
      refine ⟨fun hr => ?_, fun hb => ?_, fun hi => ?_, fun hP => ?_⟩
      · first
          | exact hih.1 (fun a ha => hr a (List.mem_cons_of_mem _ ha))
          | exact absurd (List.mem_cons_self _ _) (hr _)
      · first
          | exact hih.2.1 (fun a n ha => hb a n (List.mem_cons_of_mem _ ha))
          | exact absurd (List.mem_cons_self _ _) (hb _ _)
      · first
          | exact hih.2.2.1 (fun a ha => hi a (List.mem_cons_of_mem _ ha))
          | exact absurd (List.mem_cons_self _ _) (hi _)
      · first
          | exact hih.2.2.2 (fun a ha => hP a (List.mem_cons_of_mem _ ha))
          | exact absurd (List.mem_cons_self _ _) (hP _)

/-- C20: when the option loop ends in `goto error`, or ends normally with the
remote address, the TUN interface name, the underlying interface name or the
PKCS#12 path empty (in particular when the corresponding option `-r`, `-i`,
`-b` or `-P` is absent from the command line), `main` returns 1 and its only
event is a message (an error trace, the usage or the version): no signal is
blocked, no credential loaded, no device created and no connection opened. -/
theorem client_main_mandatory_options (env : client_env) :
    (∀ e, client_process_options env.options initial_client_opts =
        client_parse_result.goto_error e →
      client_main env = client_result.exit 1 [e] ∧
        (e = client_event.usage ∨ e = client_event.print_version ∨
          ∃ line, e = client_event.trace_err line)) ∧
    (∀ opts, client_process_options env.options initial_client_opts =
        client_parse_result.parsed opts →
      (opts.serv_addr = "" ∨ opts.basedev = "" ∨ opts.tun_name = "" ∨ opts.pkcs12_f = "") →
      ∃ line, client_main env = client_result.exit 1 [client_event.trace_err line]) ∧
    (∀ opts, client_process_options env.options initial_client_opts =
        client_parse_result.parsed opts →
      ((∀ a, client_getopt.opt_r a ∉ env.options) → opts.serv_addr = "") ∧
      ((∀ a n, client_getopt.opt_b a n ∉ env.options) → opts.basedev = "") ∧
      ((∀ a, client_getopt.opt_i a ∉ env.options) → opts.tun_name = "") ∧
      ((∀ a, client_getopt.opt_P a ∉ env.options) → opts.pkcs12_f = "")) ∧
    (((∀ a, client_getopt.opt_r a ∉ env.options) ∨
        (∀ a n, client_getopt.opt_b a n ∉ env.options) ∨
        (∀ a, client_getopt.opt_i a ∉ env.options) ∨
        (∀ a, client_getopt.opt_P a ∉ env.options)) →
      ∃ e, client_main env = client_result.exit 1 [e]) := by
  have herr : ∀ e, client_process_options env.options initial_client_opts =
      client_parse_result.goto_error e →
      client_main env = client_result.exit 1 [e] := by
    intro e h
    unfold client_main
    rw [h]
  have hempty : ∀ opts, client_process_options env.options initial_client_opts =
      client_parse_result.parsed opts →
      (opts.serv_addr = "" ∨ opts.basedev = "" ∨ opts.tun_name = "" ∨ opts.pkcs12_f = "") →
      ∃ line, client_main env = client_result.exit 1 [client_event.trace_err line] := by
    intro opts h hem
    unfold client_main
    rw [h]
    simp only
    by_cases h1 : opts.serv_addr = ""
    · exact ⟨268, by rw [if_pos h1]⟩
    rw [if_neg h1]
    by_cases h2 : opts.tun_name = ""
    · exact ⟨275, by rw [if_pos h2]⟩
    rw [if_neg h2]
    by_cases h3 : opts.basedev = ""
    · exact ⟨282, by rw [if_pos h3]⟩
    rw [if_neg h3]
    by_cases h4 : opts.pkcs12_f = ""
    · exact ⟨289, by rw [if_pos h4]⟩
    rcases hem with h | h | h | h
    · exact absurd h h1
    · exact absurd h h3
    · exact absurd h h2
    · exact absurd h h4
  have habs : ∀ opts, client_process_options env.options initial_client_opts =
      client_parse_result.parsed opts →
      ((∀ a, client_getopt.opt_r a ∉ env.options) → opts.serv_addr = "") ∧
      ((∀ a n, client_getopt.opt_b a n ∉ env.options) → opts.basedev = "") ∧
      ((∀ a, client_getopt.opt_i a ∉ env.options) → opts.tun_name = "") ∧
      ((∀ a, client_getopt.opt_P a ∉ env.options) → opts.pkcs12_f = "") := by
    intro opts h
    exact client_process_options_absent env.options initial_client_opts opts h
  refine ⟨fun e h => ⟨herr e h, client_process_options_error _ _ e h⟩, hempty, habs, ?_⟩
  intro hmiss
  cases hparse : client_process_options env.options initial_client_opts with
  | goto_error e => exact ⟨e, herr e hparse⟩
  | parsed opts =>
    rcases habs opts hparse with ⟨hr, hb, hi, hP⟩
    have hem : opts.serv_addr = "" ∨ opts.basedev = "" ∨ opts.tun_name = "" ∨
        opts.pkcs12_f = "" := by
      rcases hmiss with h | h | h | h
      · exact Or.inl (hr h)
      · exact Or.inr (Or.inl (hb h))
      · exact Or.inr (Or.inr (Or.inl (hi h)))
      · exact Or.inr (Or.inr (Or.inr (hP h)))
    rcases hempty opts hparse hem with ⟨line, hl⟩
    exact ⟨_, hl⟩

/-- Witness for C20: the command line `-r 192.168.1.14 -b eth0 -i iprohc`
has no `-P` option; `main` returns 1 after an error message. -/
theorem client_main_mandatory_options_witness :
    ∃ line, client_main { sample_client_env 0 [] with
        options := [client_getopt.opt_r "192.168.1.14", client_getopt.opt_b "eth0" 2,
          client_getopt.opt_i "iprohc"] } =
      client_result.exit 1 [client_event.trace_err line] :=
  (client_main_mandatory_options { sample_client_env 0 [] with
      options := [client_getopt.opt_r "192.168.1.14", client_getopt.opt_b "eth0" 2,
        client_getopt.opt_i "iprohc"] }).2.1
    { initial_client_opts with
        serv_addr := "192.168.1.14", basedev := "eth0", tun_name := "iprohc" }
    (by decide) (Or.inr (Or.inr (Or.inr rfl)))

/-! ### The decrement rule of `iprohc_get_ipv4_range_width` -/

theorem netmask_eq (sh : Nat) (hsh : sh ≤ 32) :
    (0xffffffff <<< sh) % 2 ^ 32 = 2 ^ 32 - 2 ^ sh := by
  interval_cases sh <;> rfl

theorem low_octet_eq (x : Nat) : x &&& 0xff = x % 256 := by
  have h : (0xff : Nat) = 2 ^ 8 - 1 := by norm_num
  rw [h, Nat.and_pow_two_sub_one_eq_mod]

theorem cleared_low_octet (addr sh : Nat) (h8 : 8 ≤ sh) :
    (addr - addr % 2 ^ sh) % 256 = 0 := by
  have h := Nat.div_add_mod addr (2 ^ sh)
  have e : addr - addr % 2 ^ sh = 2 ^ sh * (addr / 2 ^ sh) := by omega
  rw [e]
  obtain ⟨k, rfl⟩ : ∃ k, sh = 8 + k := ⟨sh - 8, by omega⟩
  rw [pow_add, Nat.mul_assoc]
  norm_num

/-- C27: for every address and every prefix length p with 2 <= p <= 32,
iprohc_get_ipv4_range_width returns 2^(32-p) - 1 when the low octet of the
address masked with the netmask of p (the 32-bit word with the p high bits set)
is zero, and 2^(32-p) otherwise; so it returns exactly 2^(32-p) - 1 whenever
p <= 24, and the value returned is never above 2^(32-p). -/
theorem iprohc_get_ipv4_range_width_decrement_rule (addr p : Nat)
    (h2 : 2 ≤ p) (h32 : p ≤ 32) :
    iprohc_get_ipv4_range_width addr p =
      some (if (addr &&& (2 ^ 32 - 2 ^ (32 - p))) % 256 = 0 then 2 ^ (32 - p) - 1
            else 2 ^ (32 - p)) ∧
    (p ≤ 24 → iprohc_get_ipv4_range_width addr p = some (2 ^ (32 - p) - 1)) ∧
    (∀ w, iprohc_get_ipv4_range_width addr p = some w → w ≤ 2 ^ (32 - p)) := by
  have ha : ¬ 32 < p := by omega
  have hb : ¬ 31 ≤ 32 - p := by omega
  have hmain : iprohc_get_ipv4_range_width addr p =
      some (if (addr &&& (2 ^ 32 - 2 ^ (32 - p))) % 256 = 0 then 2 ^ (32 - p) - 1
            else 2 ^ (32 - p)) := by
    simp only [iprohc_get_ipv4_range_width, ha, hb, if_false]
    rw [netmask_eq (32 - p) (by omega), low_octet_eq, Nat.one_shiftLeft]
    split_ifs <;> rfl
  refine ⟨hmain, ?_, ?_⟩
  · intro h24
    have hz : (addr &&& (2 ^ 32 - 2 ^ (32 - p))) % 256 = 0 := by
      rw [← low_octet_eq, ← netmask_eq (32 - p) (by omega),
        network_low_octet addr (32 - p) (by omega)]
      exact cleared_low_octet addr (32 - p) (by omega)
    rw [hmain, if_pos hz]
  · intro w hw
    rw [hmain] at hw
    have hw2 := Option.some.inj hw
    rw [← hw2]
    split_ifs
    · exact Nat.sub_le _ _
    · exact Nat.le_refl _

/-- Witness for C27: 10.1.2.3 with prefix length 16 gives 65535. -/
theorem iprohc_get_ipv4_range_width_decrement_rule_witness :
    (2 ≤ 16 ∧ 16 ≤ 32) ∧ iprohc_get_ipv4_range_width 167838211 16 = some 65535 :=
  ⟨by decide,
    (iprohc_get_ipv4_range_width_decrement_rule 167838211 16 (by decide) (by decide)).2.1
      (by decide)⟩

/-! ### The argument block of the RAW routing thread and the prefix of the TUN interface -/

/-- C24, the code at the failing input: a startup with `clients_max_nr` = 3 in
which every call succeeds and the server is stopped before its first
iteration. The TUN routing thread is created with `clients_max_nr` = 3 in its
argument block; the RAW routing thread is created with whatever its block
held before, `v`, for every `v` (0 in the run of `main` given first): line 704
assigns the field of the TUN block a second time. With 0 in the field the scan
of the RAW thread visits no slot and the datagram of the peer of slot 1 is not
delivered, where a scan of 3 slots writes it to the pipe 13; with 4 in the
field the scan leaves the table of 3 slots. -/
theorem main_starts_raw_route_with_unset_clients_max_nr :
    (∃ evs, main (sample_startup 3 24) [] = main_result.exit 0 evs ∧
      server_event.pthread_create_route type_route.TUN 3 3 0 ∈ evs ∧
      server_event.pthread_create_route type_route.RAW 4 0 0 ∈ evs ∧
      ∀ w, server_event.pthread_create_route type_route.RAW 4 w 0 ∈ evs → w = 0) ∧
    (∀ v : Nat, ∃ evs,
      main_threads { sample_startup 3 24 with route_args_raw_clients_max_nr := v } []
        sample_opts 5 3 [] = main_result.exit 0 evs ∧
      server_event.pthread_create_route type_route.TUN 3 3 0 ∈ evs ∧
      server_event.pthread_create_route type_route.RAW 4 v 0 ∈ evs ∧
      ∀ w, server_event.pthread_create_route type_route.RAW 4 w 0 ∈ evs → w = v) ∧
    route_step { fd := 4, clients := sample_table, clients_max_nr := 0, type := type_route.RAW }
        sample_buffer (some sample_raw_packet) 20 =
      route_step_result.next (sample_raw_packet ++ List.replicate 28 255) sample_table [] ∧
    route_step { fd := 4, clients := sample_table, clients_max_nr := 3, type := type_route.RAW }
        sample_buffer (some sample_raw_packet) 20 =
      route_step_result.next (sample_raw_packet ++ List.replicate 28 255) sample_table
        [route_event.write 13 sample_raw_packet] ∧
    route_step { fd := 4, clients := sample_table, clients_max_nr := 4, type := type_route.RAW }
        sample_buffer (some [69, 0, 0, 20, 0, 0, 0, 0, 64, 4, 0, 0, 10, 0, 0, 9, 10, 0, 0, 1])
        20 = route_step_result.out_of_bounds := by
  refine ⟨?_, ?_, by decide, by decide, by decide⟩
  · refine ⟨[server_event.parse_config "/etc/iprohc_server.conf", server_event.dump_opts,
      server_event.pidfile_written "/var/run/iprohc_server.pid",
      server_event.calloc_clients 3, server_event.gnutls_global_init,
      server_event.load_p12 false, server_event.generate_dh_params,
      server_event.gnutls_certificate_set_dh_params, server_event.socket 5,
      server_event.setsockopt 5, server_event.bind 5 3126, server_event.listen 5,
      server_event.create_tun 3,
      server_event.set_ip4 7 { b0 := 192, b1 := 168, b2 := 99, b3 := 1 } 24,
      server_event.pthread_create_route type_route.TUN 3 3 0, server_event.create_raw 4,
      server_event.pthread_create_route type_route.RAW 4 0 0,
      server_event.gnutls_global_deinit, server_event.pthread_cancel_join type_route.RAW,
      server_event.close 4, server_event.pthread_cancel_join type_route.TUN,
      server_event.close 3, server_event.close 5, server_event.gnutls_dh_params_deinit,
      server_event.free_clients, server_event.unlink "/var/run/iprohc_server.pid"], by decide, by simp, by simp, ?_⟩
    intro w hw
    simpa using hw
  · intro v
    refine ⟨[server_event.pthread_create_route type_route.TUN 3 3 0, server_event.create_raw 4,
      server_event.pthread_create_route type_route.RAW 4 v 0,
      server_event.gnutls_global_deinit, server_event.pthread_cancel_join type_route.RAW,
      server_event.close 4, server_event.pthread_cancel_join type_route.TUN,
      server_event.close 3, server_event.close 5, server_event.gnutls_dh_params_deinit,
      server_event.free_clients, server_event.unlink "/var/run/iprohc_server.pid"],
      rfl, by simp, by simp, ?_⟩
    intro w hw
    simpa using hw

/-- C26, the code at the failing input: the configuration sets the address
192.168.99.1 with the prefix length 30 (or 16) and three clients. It passes
the check of the number of clients against the width of the range, the server
starts, and the address is set on the TUN interface by
`set_ip4(tun_itf_id, local_address, 24)`: the third argument is 24, not the
configured prefix length. -/
theorem main_sets_tun_address_with_prefix_24 :
    (∃ evs, main (sample_startup 3 30) [] = main_result.exit 0 evs ∧
      server_event.set_ip4 7 { b0 := 192, b1 := 168, b2 := 99, b3 := 1 } 24 ∈ evs ∧
      ∀ itf addr, server_event.set_ip4 itf addr 30 ∉ evs) ∧
    (∃ evs, main (sample_startup 3 16) [] = main_result.exit 0 evs ∧
      server_event.set_ip4 7 { b0 := 192, b1 := 168, b2 := 99, b3 := 1 } 24 ∈ evs ∧
      ∀ itf addr, server_event.set_ip4 itf addr 16 ∉ evs) := by
  constructor
  · refine ⟨[server_event.parse_config "/etc/iprohc_server.conf", server_event.dump_opts,
      server_event.pidfile_written "/var/run/iprohc_server.pid",
      server_event.calloc_clients 3, server_event.gnutls_global_init,
      server_event.load_p12 false, server_event.generate_dh_params,
      server_event.gnutls_certificate_set_dh_params, server_event.socket 5,
      server_event.setsockopt 5, server_event.bind 5 3126, server_event.listen 5,
      server_event.create_tun 3,
      server_event.set_ip4 7 { b0 := 192, b1 := 168, b2 := 99, b3 := 1 } 24,
      server_event.pthread_create_route type_route.TUN 3 3 0, server_event.create_raw 4,
      server_event.pthread_create_route type_route.RAW 4 0 0,
      server_event.gnutls_global_deinit, server_event.pthread_cancel_join type_route.RAW,
      server_event.close 4, server_event.pthread_cancel_join type_route.TUN,
      server_event.close 3, server_event.close 5, server_event.gnutls_dh_params_deinit,
      server_event.free_clients, server_event.unlink "/var/run/iprohc_server.pid"], by decide, by simp, ?_⟩
    intro itf addr h
    simp at h
  · refine ⟨[server_event.parse_config "/etc/iprohc_server.conf", server_event.dump_opts,
      server_event.pidfile_written "/var/run/iprohc_server.pid",
      server_event.calloc_clients 3, server_event.gnutls_global_init,
      server_event.load_p12 false, server_event.generate_dh_params,
      server_event.gnutls_certificate_set_dh_params, server_event.socket 5,
      server_event.setsockopt 5, server_event.bind 5 3126, server_event.listen 5,
      server_event.create_tun 3,
      server_event.set_ip4 7 { b0 := 192, b1 := 168, b2 := 99, b3 := 1 } 24,
      server_event.pthread_create_route type_route.TUN 3 3 0, server_event.create_raw 4,
      server_event.pthread_create_route type_route.RAW 4 0 0,
      server_event.gnutls_global_deinit, server_event.pthread_cancel_join type_route.RAW,
      server_event.close 4, server_event.pthread_cancel_join type_route.TUN,
      server_event.close 3, server_event.close 5, server_event.gnutls_dh_params_deinit,
      server_event.free_clients, server_event.unlink "/var/run/iprohc_server.pid"], by decide, by simp, ?_⟩
    intro itf addr h
    simp at h

/-! ### The previous content of the buffer of `route` -/

theorem route_scan_of_selected (type : type_route) (clients : List client) (addr : in_addr)
    (buffer : List Nat) (len : Nat) (wret : Int) :
    ∀ (fuel i : Nat),
      route_scan type clients addr buffer len wret i fuel =
        (route_selected type clients addr i fuel).bind (fun s =>
          match s with
          | none => some []
          | some j => (clients[j]?).map (fun c =>
              route_write (route_pipe type c) buffer len wret)) := by
  intro fuel
  induction fuel with
  | zero => intro i; rfl
  | succ n ih =>
    intro i
    rw [route_scan, route_selected]
    cases hc : clients[i]? with
    | none => rfl
    | some c =>
      simp only
      cases hi : c.is_init
      · simp only [Bool.false_eq_true, if_false]
        exact ih (i + 1)
      · simp only [if_true]
        cases type
        · simp only
          by_cases hm : addr.s_addr = c.local_address.s_addr
          · rw [if_pos hm, if_pos hm]
            simp [hc, route_pipe]
          · rw [if_neg hm, if_neg hm]
            exact ih (i + 1)
        · simp only
          by_cases hm : addr.s_addr = c.tunnel.dest_address.s_addr
          · rw [if_pos hm, if_pos hm]
            simp [hc, route_pipe]
          · rw [if_neg hm, if_neg hm]
            exact ih (i + 1)

theorem route_scan_buffer_take (type : type_route) (clients : List client) (addr : in_addr)
    (b1 b2 : List Nat) (len : Nat) (wret : Int) (htake : b1.take len = b2.take len) :
    ∀ (fuel i : Nat),
      route_scan type clients addr b1 len wret i fuel =
        route_scan type clients addr b2 len wret i fuel := by
  intro fuel i
  rw [route_scan_of_selected, route_scan_of_selected]
  simp only [route_write, htake]

theorem load_word_append (data rest : List Nat) (off : Nat) (h : off + 4 ≤ data.length) :
    load_word (data ++ rest) off = load_word data off := by
  unfold load_word
  rw [List.getD_append _ _ _ _ (by omega), List.getD_append _ _ _ _ (by omega),
    List.getD_append _ _ _ _ (by omega), List.getD_append _ _ _ _ (by omega)]

theorem route_addr_append (type : type_route) (data rest : List Nat)
    (htun : type = type_route.TUN → 24 ≤ data.length)
    (hraw : type = type_route.RAW → 16 ≤ data.length) :
    route_addr type (data ++ rest) = route_addr type data := by
  cases type
  · simp only [route_addr]
    rw [load_word_append data rest 20 (by have := htun rfl; omega)]
  · simp only [route_addr]
    rw [load_word_append data rest 12 (by have := hraw rfl; omega)]

/-- C25, counterexample: two steps of a routing thread over the same table of
three slots read the same bytes and start from different contents of the
buffer. On the TUN side the 20 bytes read stop before offset 20: after a
packet for 192.168.99.3 the step selects slot 2 and writes the 20 bytes to its
pipe 21, after a buffer of bytes 255 it selects no slot. On the RAW side the
12 bytes read stop before offset 12: after a datagram from 10.0.0.7 the step
selects slot 1, after a buffer of bytes 255 no slot. -/
theorem route_step_short_read_counterexample :
    (route_step_selected
        { fd := 3, clients := sample_table, clients_max_nr := 3, type := type_route.TUN }
        (sample_tun_packet ++ List.replicate 24 255)
        [0, 0, 8, 0, 69, 0, 0, 16, 0, 0, 0, 0, 64, 4, 0, 0, 192, 168, 99, 1] = some (some 2) ∧
      route_step_selected
        { fd := 3, clients := sample_table, clients_max_nr := 3, type := type_route.TUN }
        sample_buffer
        [0, 0, 8, 0, 69, 0, 0, 16, 0, 0, 0, 0, 64, 4, 0, 0, 192, 168, 99, 1] = some none ∧
      route_step
        { fd := 3, clients := sample_table, clients_max_nr := 3, type := type_route.TUN }
        (sample_tun_packet ++ List.replicate 24 255)
        (some [0, 0, 8, 0, 69, 0, 0, 16, 0, 0, 0, 0, 64, 4, 0, 0, 192, 168, 99, 1]) 20 =
        route_step_result.next
          ([0, 0, 8, 0, 69, 0, 0, 16, 0, 0, 0, 0, 64, 4, 0, 0, 192, 168, 99, 1] ++
            [192, 168, 99, 3] ++ List.replicate 24 255)
          sample_table
          [route_event.write 21
            [0, 0, 8, 0, 69, 0, 0, 16, 0, 0, 0, 0, 64, 4, 0, 0, 192, 168, 99, 1]] ∧
      route_step
        { fd := 3, clients := sample_table, clients_max_nr := 3, type := type_route.TUN }
        sample_buffer
        (some [0, 0, 8, 0, 69, 0, 0, 16, 0, 0, 0, 0, 64, 4, 0, 0, 192, 168, 99, 1]) 20 =
        route_step_result.next
          ([0, 0, 8, 0, 69, 0, 0, 16, 0, 0, 0, 0, 64, 4, 0, 0, 192, 168, 99, 1] ++
            List.replicate 28 255)
          sample_table []) ∧
    (route_step_selected
        { fd := 4, clients := sample_table, clients_max_nr := 3, type := type_route.RAW }
        (sample_raw_packet ++ List.replicate 28 255)
        [69, 0, 0, 12, 0, 0, 0, 0, 64, 4, 0, 0] = some (some 1) ∧
      route_step_selected
        { fd := 4, clients := sample_table, clients_max_nr := 3, type := type_route.RAW }
        sample_buffer
        [69, 0, 0, 12, 0, 0, 0, 0, 64, 4, 0, 0] = some none ∧
      route_step
        { fd := 4, clients := sample_table, clients_max_nr := 3, type := type_route.RAW }
        (sample_raw_packet ++ List.replicate 28 255)
        (some [69, 0, 0, 12, 0, 0, 0, 0, 64, 4, 0, 0]) 12 =
        route_step_result.next
          ([69, 0, 0, 12, 0, 0, 0, 0, 64, 4, 0, 0] ++ [10, 0, 0, 7, 10, 0, 0, 1] ++
            List.replicate 28 255)
          sample_table
          [route_event.write 13 [69, 0, 0, 12, 0, 0, 0, 0, 64, 4, 0, 0]] ∧
      route_step
        { fd := 4, clients := sample_table, clients_max_nr := 3, type := type_route.RAW }
        sample_buffer
        (some [69, 0, 0, 12, 0, 0, 0, 0, 64, 4, 0, 0]) 12 =
        route_step_result.next
          ([69, 0, 0, 12, 0, 0, 0, 0, 64, 4, 0, 0] ++ List.replicate 36 255)
          sample_table []) := by
  decide

/-- C25, amended: when the bytes read cover the address field (at least 24
bytes on the TUN side, at least 16 on the RAW side), one step of `route`
depends only on them. The address used for the lookup is read from the bytes
read, and two steps over the same slot table that read the same bytes into
buffers of the same size select the same slot (or no slot) and have the same
outcome, the same write and the same warnings, whatever the buffers held
before. -/
theorem route_step_selected_by_bytes_read (arg : route_args) (b1 b2 data : List Nat)
    (wret : Int) (hsize : b1.length = b2.length)
    (htun : arg.type = type_route.TUN → 24 ≤ data.length)
    (hraw : arg.type = type_route.RAW → 16 ≤ data.length) :
    route_addr arg.type (data ++ b1.drop data.length) = route_addr arg.type data ∧
    route_step_selected arg b1 data = route_step_selected arg b2 data ∧
    (route_step arg b1 (some data) wret).effects =
      (route_step arg b2 (some data) wret).effects := by
  have h1 := route_addr_append arg.type data (b1.drop data.length) htun hraw
  have h2 := route_addr_append arg.type data (b2.drop data.length) htun hraw
  refine ⟨h1, ?_, ?_⟩
  · unfold route_step_selected
    rw [h1, h2]
  · unfold route_step
    simp only [hsize]
    by_cases h0 : data.length = 0
    · rw [if_pos h0, if_pos h0]
    · rw [if_neg h0, if_neg h0]
      by_cases hgt : data.length > b2.length
      · rw [if_pos hgt, if_pos hgt]
      · rw [if_neg hgt, if_neg hgt, h1, h2,
          route_scan_buffer_take arg.type arg.clients (route_addr arg.type data)
            (data ++ b1.drop data.length) (data ++ b2.drop data.length) data.length wret
            (by rw [read_buffer_take, read_buffer_take]) arg.clients_max_nr 0]
        cases route_scan arg.type arg.clients (route_addr arg.type data)
          (data ++ b2.drop data.length) data.length wret 0 arg.clients_max_nr <;> rfl

/-- Witness for the amended C25: the 24-byte packet for 192.168.99.3 read into
a buffer that held a packet for 192.168.99.2 and into a buffer of bytes 255;
both steps select slot 2. -/
theorem route_step_selected_by_bytes_read_witness :
    route_step_selected
        { fd := 3, clients := sample_table, clients_max_nr := 3, type := type_route.TUN }
        (sample_tun_packet_40 ++ List.replicate 8 255) sample_tun_packet = some (some 2) ∧
      route_step_selected
        { fd := 3, clients := sample_table, clients_max_nr := 3, type := type_route.TUN }
        sample_buffer sample_tun_packet = some (some 2) :=
  ⟨by decide,
    (route_step_selected_by_bytes_read
      { fd := 3, clients := sample_table, clients_max_nr := 3, type := type_route.TUN }
      (sample_tun_packet_40 ++ List.replicate 8 255) sample_buffer sample_tun_packet 24
      (by decide) (fun _ => by decide) (fun h => absurd h (by decide))).2.1.symm.trans
      (by decide)⟩

/-! ### What one pass of the loop over the slots does to a slot -/

theorem reap_client_ok_cases (ctx : server_ctx) (env : loop_env) (j : Nat) (c : client)
    (st st1 : server_state) (h : reap_client ctx env j c st = outcome.ok st1) :
    (env.pthread_mutex_trylock j ≠ 0 ∧ st1 = st) ∨
    (env.pthread_mutex_trylock j = 0 ∧
      st1.clients = st.clients.set j (env.del_client j c) ∧
      st1.clients_nr = st.clients_nr - 1 ∧
      st1.events = st.events ++ [server_event.dump_stats_client j, server_event.gnutls_bye j,
        server_event.del_client j]) := by
  unfold reap_client at h
  by_cases htry : env.pthread_mutex_trylock j = 0
  · rw [if_pos htry] at h
    right
    cases hd : dump_stats_client env j st with
    | ok s =>
      rw [hd] at h
      have hs := dump_stats_client_ok env j st s hd
      subst hs
      simp only [server_state.emit, server_state.set_client] at h
      split_ifs at h
      simp only [outcome.ok.injEq] at h
      subst h
      exact ⟨htry, rfl, rfl, by simp⟩
    | aborted s => rw [hd] at h; exact absurd h (by simp)
    | undefined => rw [hd] at h; exact absurd h (by simp)
  · rw [if_neg htry] at h
    simp only [outcome.ok.injEq] at h
    exact Or.inl ⟨htry, h.symm⟩

theorem handle_client_ok_cases (env : loop_env) (j : Nat) (c : client)
    (status : iprohc_tunnel_status_t) (st st1 : server_state)
    (h : handle_client env j c status st = outcome.ok st1) :
    ∃ d es, st1.clients = st.clients.set j d ∧ st1.clients_nr = st.clients_nr ∧
      st1.events = st.events ++
        server_event.handle_client_request j (env.handle_client_request j c).1 :: es ∧
      (∀ k r, server_event.handle_client_request k r ∉ es) ∧
      (((env.handle_client_request j c).1 < 0 ∧
          status = iprohc_tunnel_status_t.IPROHC_TUNNEL_CONNECTED ∧
          d = env.stop_client_tunnel j (env.handle_client_request j c).2) ∨
       ((env.handle_client_request j c).1 < 0 ∧
          status = iprohc_tunnel_status_t.IPROHC_TUNNEL_CONNECTING ∧
          d = { (env.handle_client_request j c).2 with
                tunnel := { (env.handle_client_request j c).2.tunnel with
                  status := iprohc_tunnel_status_t.IPROHC_TUNNEL_PENDING_DELETE } }) ∨
       ((env.handle_client_request j c).1 < 0 ∧
          status = iprohc_tunnel_status_t.IPROHC_TUNNEL_PENDING_DELETE ∧
          d = (env.handle_client_request j c).2) ∨
       (0 ≤ (env.handle_client_request j c).1 ∧
          d = { (env.handle_client_request j c).2 with
                tunnel := { (env.handle_client_request j c).2.tunnel with
                  last_keepalive := env.gettimeofday 948 j } })) := by
  unfold handle_client at h
  simp only [server_state.emit, server_state.set_client, List.set_set] at h
  by_cases hret : (env.handle_client_request j c).1 < 0
  · rw [if_pos hret] at h
    by_cases hcd : status = iprohc_tunnel_status_t.IPROHC_TUNNEL_CONNECTED
    · rw [if_pos hcd] at h
      simp only [outcome.ok.injEq] at h
      subst h
      exact ⟨_, [server_event.stop_client_tunnel j], rfl, rfl, by simp, by simp,
        Or.inl ⟨hret, hcd, rfl⟩⟩
    · rw [if_neg hcd] at h
      by_cases hcg : status = iprohc_tunnel_status_t.IPROHC_TUNNEL_CONNECTING
      · rw [if_pos hcg] at h
        split_ifs at h
        simp only [outcome.ok.injEq] at h
        subst h
        exact ⟨_, [], rfl, rfl, rfl, by simp, Or.inr (Or.inl ⟨hret, hcg, rfl⟩)⟩
      · rw [if_neg hcg] at h
        simp only [outcome.ok.injEq] at h
        subst h
        have hpd : status = iprohc_tunnel_status_t.IPROHC_TUNNEL_PENDING_DELETE := by
          cases status
          · rfl
          · exact absurd rfl hcg
          · exact absurd rfl hcd
        exact ⟨_, [], rfl, rfl, rfl, by simp, Or.inr (Or.inr (Or.inl ⟨hret, hpd, rfl⟩))⟩
  · rw [if_neg hret] at h
    split_ifs at h
    simp only [outcome.ok.injEq] at h
    subst h
    exact ⟨_, [], rfl, rfl, rfl, by simp, Or.inr (Or.inr (Or.inr ⟨by omega, rfl⟩))⟩

theorem set_client_self (clients : List client) (j : Nat) (c : client)
    (hc : clients[j]? = some c) : clients.set j c = clients := by
  have hj : j < clients.length := (List.getElem?_eq_some_iff.mp hc).1
  apply List.ext_getElem?
  intro i
  by_cases hij : j = i
  · subst hij
    rw [List.getElem?_set_self hj, hc]
  · rw [List.getElem?_set_ne hij]

theorem serve_client_ok_cases (ctx : server_ctx) (env : loop_env) (j : Nat)
    (st st1 : server_state) (c : client) (hc : st.clients[j]? = some c)
    (h : serve_client ctx env j st = outcome.ok st1) :
    ∃ d es, st1.clients = st.clients.set j d ∧ st1.events = st.events ++ es ∧
      ((c.is_init = false ∧ d = c ∧ es = []) ∨
       (c.is_init = true ∧ keepalive_due c.tunnel.status c env.now = true ∧
          d = { c with last_keepalive := env.gettimeofday 875 j } ∧
          es = [server_event.gnutls_record_send j [C_KEEPALIVE]]) ∨
       (c.is_init = true ∧ keepalive_due c.tunnel.status c env.now = false ∧
          c.tunnel.status = iprohc_tunnel_status_t.IPROHC_TUNNEL_PENDING_DELETE ∧
          env.pthread_mutex_trylock j ≠ 0 ∧ d = c ∧ es = []) ∨
       (c.is_init = true ∧ keepalive_due c.tunnel.status c env.now = false ∧
          c.tunnel.status = iprohc_tunnel_status_t.IPROHC_TUNNEL_PENDING_DELETE ∧
          env.pthread_mutex_trylock j = 0 ∧ d = env.del_client j c ∧
          es = [server_event.dump_stats_client j, server_event.gnutls_bye j,
            server_event.del_client j]) ∨
       (c.is_init = true ∧ keepalive_due c.tunnel.status c env.now = false ∧
          c.tunnel.status ≠ iprohc_tunnel_status_t.IPROHC_TUNNEL_PENDING_DELETE ∧
          env.FD_ISSET c.tcp_socket = false ∧ d = c ∧ es = []) ∨
       (c.is_init = true ∧ keepalive_due c.tunnel.status c env.now = false ∧
          c.tunnel.status ≠ iprohc_tunnel_status_t.IPROHC_TUNNEL_PENDING_DELETE ∧
          env.FD_ISSET c.tcp_socket = true ∧
          ∃ es1, es = server_event.handle_client_request j
              (env.handle_client_request j c).1 :: es1 ∧
            (∀ k r, server_event.handle_client_request k r ∉ es1) ∧
            (((env.handle_client_request j c).1 < 0 ∧
                c.tunnel.status = iprohc_tunnel_status_t.IPROHC_TUNNEL_CONNECTED ∧
                d = env.stop_client_tunnel j (env.handle_client_request j c).2) ∨
             ((env.handle_client_request j c).1 < 0 ∧
                c.tunnel.status = iprohc_tunnel_status_t.IPROHC_TUNNEL_CONNECTING ∧
                d = { (env.handle_client_request j c).2 with
                      tunnel := { (env.handle_client_request j c).2.tunnel with
                        status := iprohc_tunnel_status_t.IPROHC_TUNNEL_PENDING_DELETE } }) ∨
             (0 ≤ (env.handle_client_request j c).1 ∧
                d = { (env.handle_client_request j c).2 with
                      tunnel := { (env.handle_client_request j c).2.tunnel with
                        last_keepalive := env.gettimeofday 948 j } })))) := by
  have hself := set_client_self st.clients j c hc
  unfold serve_client at h
  rw [hc] at h
  simp only at h
  by_cases hinit : c.is_init = true
  swap
  · rw [if_pos hinit] at h
    simp only [outcome.ok.injEq] at h
    subst h
    exact ⟨c, [], hself.symm, by simp, Or.inl ⟨by simpa using hinit, rfl, rfl⟩⟩
  rw [if_neg (not_not.mpr hinit)] at h
  by_cases hl1 : env.pthread_mutex_lock 842 j = 0
  swap
  · rw [if_pos hl1] at h; exact absurd h (by simp)
  rw [if_neg (by simp [hl1])] at h
  by_cases hu1 : env.pthread_mutex_unlock 850 j = 0
  swap
  · simp only [if_pos hu1] at h; exact absurd h (by simp)
  simp only [if_neg (not_not.mpr hu1)] at h
  cases hk : keepalive_due c.tunnel.status c env.now
  · simp only [hk, Bool.false_eq_true, if_false] at h
    by_cases hp : c.tunnel.status = iprohc_tunnel_status_t.IPROHC_TUNNEL_PENDING_DELETE
    · rw [if_pos hp] at h
      rcases reap_client_ok_cases ctx env j c st st1 h with ⟨htry, he⟩ | ⟨htry, h1, _, h3⟩
      · subst he
        exact ⟨c, [], hself.symm, by simp, Or.inr (Or.inr (Or.inl ⟨hinit, rfl, hp, htry, rfl, rfl⟩))⟩
      · exact ⟨_, _, h1, h3, Or.inr (Or.inr (Or.inr (Or.inl ⟨hinit, rfl, hp, htry, rfl, rfl⟩)))⟩
    · rw [if_neg hp] at h
      cases hr : env.FD_ISSET c.tcp_socket
      · simp only [hr, Bool.false_eq_true, if_false, outcome.ok.injEq] at h
        subst h
        exact ⟨c, [], hself.symm, by simp,
          Or.inr (Or.inr (Or.inr (Or.inr (Or.inl ⟨hinit, rfl, hp, rfl, rfl, rfl⟩))))⟩
      · simp only [hr, if_true] at h
        rcases handle_client_ok_cases env j c _ st st1 h with ⟨d, es, h1, _, h3, h4, hd⟩
        refine ⟨d, _, h1, h3,
          Or.inr (Or.inr (Or.inr (Or.inr (Or.inr ⟨hinit, rfl, hp, rfl, es, rfl, h4, ?_⟩))))⟩
        rcases hd with hd | hd | hd | hd
        · exact Or.inl hd
        · exact Or.inr (Or.inl hd)
        · exact absurd hd.2.1 hp
        · exact Or.inr (Or.inr hd)
  · simp only [hk, if_true] at h
    split_ifs at h
    simp only [outcome.ok.injEq, server_state.emit, server_state.set_client] at h
    subst h
    exact ⟨_, _, rfl, rfl, Or.inr (Or.inl ⟨hinit, rfl, rfl, rfl⟩)⟩

theorem serve_client_frame (ctx : server_ctx) (env : loop_env) (j : Nat)
    (st st1 : server_state) (h : serve_client ctx env j st = outcome.ok st1) :
    (∀ k, k ≠ j → st1.clients[k]? = st.clients[k]?) ∧
    ∃ es, st1.events = st.events ++ es ∧
      ∀ k r, server_event.handle_client_request k r ∈ es → k = j := by
  cases hc : st.clients[j]? with
  | none =>
    unfold serve_client at h
    rw [hc] at h
    exact absurd h (by simp)
  | some c =>
    rcases serve_client_ok_cases ctx env j st st1 c hc h with ⟨d, es, h1, h2, hcases⟩
    refine ⟨fun k hk => by rw [h1, List.getElem?_set_ne (Ne.symm hk)], es, h2, ?_⟩
    intro k r hmem
    rcases hcases with ⟨_, _, he⟩ | ⟨_, _, _, he⟩ | ⟨_, _, _, _, _, he⟩ | ⟨_, _, _, _, _, he⟩ |
      ⟨_, _, _, _, _, he⟩ | ⟨_, _, _, _, es1, he, hno, _⟩
    · rw [he] at hmem; simp at hmem
    · rw [he] at hmem; simp at hmem
    · rw [he] at hmem; simp at hmem
    · rw [he] at hmem; simp at hmem
    · rw [he] at hmem; simp at hmem
    · rw [he] at hmem
      rcases List.mem_cons.mp hmem with heq | hin
      · simp only [server_event.handle_client_request.injEq] at heq
        exact heq.1
      · exact absurd hin (hno k r)

theorem serve_clients_frame (ctx : server_ctx) (env : loop_env) :
    ∀ (fuel i : Nat) (st st1 : server_state),
      serve_clients ctx env i fuel st = outcome.ok st1 →
      (∀ k, k < i → st1.clients[k]? = st.clients[k]?) ∧
      ∃ es, st1.events = st.events ++ es ∧
        ∀ k r, server_event.handle_client_request k r ∈ es → i ≤ k := by
  intro fuel
  induction fuel with
  | zero =>
    intro i st st1 h
    simp only [serve_clients, outcome.ok.injEq] at h
    subst h
    exact ⟨fun _ _ => rfl, [], by simp, by simp⟩
  | succ n ih =>
    intro i st st1 h
    rw [serve_clients] at h
    cases hs : serve_client ctx env i st with
    | ok s =>
      rw [hs] at h
      rcases serve_client_frame ctx env i st s hs with ⟨hf, e0, he0, hk0⟩
      rcases ih (i + 1) s st1 h with ⟨hf1, e1, he1, hk1⟩
      refine ⟨fun k hk => by rw [hf1 k (by omega), hf k (by omega)], e0 ++ e1,
        by rw [he1, he0, List.append_assoc], ?_⟩
      intro k r hmem
      rcases List.mem_append.mp hmem with hm | hm
      · exact le_of_eq (hk0 k r hm).symm
      · have := hk1 k r hm
        omega
    | aborted s => rw [hs] at h; exact absurd h (by simp)
    | undefined => rw [hs] at h; exact absurd h (by simp)

theorem serve_clients_slot (ctx : server_ctx) (env : loop_env) :
    ∀ (fuel i : Nat) (st st1 : server_state),
      serve_clients ctx env i fuel st = outcome.ok st1 →
      ∀ j, i ≤ j → j < i + fuel →
      ∃ sa sb ea eb, sa.clients[j]? = st.clients[j]? ∧
        serve_client ctx env j sa = outcome.ok sb ∧
        sa.events = st.events ++ ea ∧ st1.events = sb.events ++ eb ∧
        (∀ r, server_event.handle_client_request j r ∉ ea) ∧
        (∀ r, server_event.handle_client_request j r ∉ eb) ∧
        st1.clients[j]? = sb.clients[j]? := by
  intro fuel
  induction fuel with
  | zero => intro i st st1 _ j h1 h2; omega
  | succ n ih =>
    intro i st st1 h j h1 h2
    rw [serve_clients] at h
    cases hs : serve_client ctx env i st with
    | ok s =>
      rw [hs] at h
      by_cases hij : i = j
      · subst hij
        rcases serve_clients_frame ctx env n (i + 1) s st1 h with ⟨hf, eb, heb, hkb⟩
        refine ⟨st, s, [], eb, rfl, hs, by simp, heb, by simp, ?_, hf i (by omega)⟩
        intro r hmem
        have := hkb i r hmem
        omega
      · rcases serve_client_frame ctx env i st s hs with ⟨hf, e0, he0, hk0⟩
        rcases ih (i + 1) s st1 h j (by omega) (by omega) with
          ⟨sa, sb, ea, eb, h3, h4, h5, h6, h7, h8, h9⟩
        refine ⟨sa, sb, e0 ++ ea, eb, by rw [h3, hf j (Ne.symm hij)], h4,
          by rw [h5, he0, List.append_assoc], h6, ?_, h8, h9⟩
        intro r hmem
        rcases List.mem_append.mp hmem with hm | hm
        · exact hij (hk0 j r hm).symm
        · exact h7 r hm
    | aborted s => rw [hs] at h; exact absurd h (by simp)
    | undefined => rw [hs] at h; exact absurd h (by simp)

theorem accept_client_frame (ctx : server_ctx) (env : loop_env) (st st1 : server_state)
    (hinv : loop_invariant ctx st) (h : accept_client ctx env st = outcome.ok st1) :
    (∀ (j : Nat) (c : client), st.clients[j]? = some c → c.is_init = true →
      st1.clients[j]? = some c) ∧
    ∃ es, st1.events = st.events ++ es ∧
      ∀ k r, server_event.handle_client_request k r ∉ es := by
  by_cases hcap : st.clients_nr ≥ ctx.opts.clients_max_nr
  · rw [accept_client_full ctx env st hcap] at h
    simp only [outcome.ok.injEq] at h
    subst h
    refine ⟨fun j c hc _ => hc, _, rfl, ?_⟩
    intro k r
    split_ifs <;> simp
  · rcases accept_client_below ctx env st hinv (by omega) with
      ⟨i, c0, _, hc0, hfree, _, heq⟩
    rw [heq] at h
    simp only [outcome.ok.injEq] at h
    subst h
    refine ⟨?_, _, rfl, ?_⟩
    · intro j c hc hinit
      have hne : i ≠ j := by
        intro e
        subst e
        rw [hc0] at hc
        cases hc
        rw [hfree] at hinit
        cases hinit
      simp only
      rw [List.getElem?_set_ne hne]
      exact hc
    · intro k r
      split_ifs <;> simp

theorem dump_stats_clients_events (env : loop_env) :
    ∀ (fuel j : Nat) (st st1 : server_state),
      dump_stats_clients env j fuel st = outcome.ok st1 →
      ∃ es, st1.events = st.events ++ es ∧
        ∀ k r, server_event.handle_client_request k r ∉ es := by
  intro fuel
  induction fuel with
  | zero =>
    intro j st st1 h
    simp only [dump_stats_clients, outcome.ok.injEq] at h
    subst h
    exact ⟨[], by simp, by simp⟩
  | succ n ih =>
    intro j st st1 h
    rw [dump_stats_clients] at h
    split at h
    · exact absurd h (by simp)
    · rename_i c hc
      cases hinit : c.is_init
      · simp only [hinit, Bool.false_eq_true, if_false] at h
        exact ih _ _ _ h
      · simp only [hinit, if_true] at h
        cases hd : dump_stats_client env j st with
        | ok s =>
          rw [hd] at h
          have hs := dump_stats_client_ok env j st s hd
          rcases ih _ _ _ h with ⟨es, he, hno⟩
          rw [hs] at he
          refine ⟨server_event.dump_stats_client j :: es, ?_, ?_⟩
          · rw [he]
            simp [server_state.emit]
          · intro k r hmem
            rcases List.mem_cons.mp hmem with heq | hin
            · cases heq
            · exact hno k r hin
        | aborted s => rw [hd] at h; exact absurd h (by simp)
        | undefined => rw [hd] at h; exact absurd h (by simp)

theorem main_loop_iteration_slot (ctx : server_ctx) (env : loop_env)
    (st st1 : server_state) (j : Nat) (c : client)
    (hinv : loop_invariant ctx st) (hsel : env.pselect ≠ -1)
    (h : main_loop_iteration ctx env st = outcome.ok st1)
    (hc : st.clients[j]? = some c) (hinit : c.is_init = true) :
    ∃ sa sb ea eb, sa.clients[j]? = some c ∧
      serve_client ctx env j sa = outcome.ok sb ∧
      sa.events = st.events ++ ea ∧ st1.events = sb.events ++ eb ∧
      (∀ r, server_event.handle_client_request j r ∉ ea) ∧
      (∀ r, server_event.handle_client_request j r ∉ eb) ∧
      st1.clients[j]? = sb.clients[j]? := by
  have hj : j < ctx.opts.clients_max_nr := by
    rw [← hinv.1]
    exact (List.getElem?_eq_some_iff.mp hc).1
  unfold main_loop_iteration at h
  cases hfd : collect_fds env 0 ctx.opts.clients_max_nr st with
  | aborted s => rw [hfd] at h; exact absurd h (by simp)
  | undefined => rw [hfd] at h; exact absurd h (by simp)
  | ok s =>
    have hs := collect_fds_ok env _ _ _ _ hfd
    subst hs
    rw [hfd] at h
    simp only at h
    rw [if_neg hsel] at h
    have hinv2 : loop_invariant ctx (s.emit [server_event.pselect]) := hinv
    have hacc : ∃ s3 e3, (if env.FD_ISSET ctx.serv_socket = true then
          accept_client ctx env (s.emit [server_event.pselect])
        else outcome.ok (s.emit [server_event.pselect])) = outcome.ok s3 ∧
        s3.clients[j]? = some c ∧ s3.events = s.events ++ e3 ∧
        ∀ k r, server_event.handle_client_request k r ∉ e3 := by
      cases hr : env.FD_ISSET ctx.serv_socket
      · exact ⟨s.emit [server_event.pselect], [server_event.pselect], by simp, hc, rfl,
          by simp⟩
      · simp only [if_true]
        cases ha : accept_client ctx env (s.emit [server_event.pselect]) with
        | ok s3 =>
          rcases accept_client_frame ctx env _ s3 hinv2 ha with ⟨hf, es, he, hno⟩
          refine ⟨s3, server_event.pselect :: es, rfl, hf j c hc hinit, ?_, ?_⟩
          · rw [he]
            simp [server_state.emit]
          · intro k r hmem
            rcases List.mem_cons.mp hmem with heq | hin
            · cases heq
            · exact hno k r hin
        | aborted s3 => rw [hr, if_pos rfl, ha] at h; exact absurd h (by simp)
        | undefined => rw [hr, if_pos rfl, ha] at h; exact absurd h (by simp)
    rcases hacc with ⟨s3, e3, hs3, hc3, he3, hno3⟩
    rw [hs3] at h
    simp only at h
    cases hsv : serve_clients ctx env 0 ctx.opts.clients_max_nr s3 with
    | aborted s4 => rw [hsv] at h; exact absurd h (by simp)
    | undefined => rw [hsv] at h; exact absurd h (by simp)
    | ok s4 =>
      rw [hsv] at h
      simp only at h
      rcases serve_clients_slot ctx env _ _ _ _ hsv j (Nat.zero_le j) (by omega) with
        ⟨sa, sb, ea, eb, h1, h2, h3, h4, h5, h6, h7⟩
      have hfin : ∃ e5, st1.events = s4.events ++ e5 ∧ st1.clients = s4.clients ∧
          ∀ k r, server_event.handle_client_request k r ∉ e5 := by
        cases hdump : env.clients_do_dump_stats
        · simp only [hdump, Bool.false_eq_true, if_false, outcome.ok.injEq] at h
          subst h
          exact ⟨[], by simp, rfl, by simp⟩
        · simp only [hdump, if_true] at h
          rcases dump_stats_clients_events env _ _ _ _ h with ⟨e5, he5, hno5⟩
          exact ⟨e5, he5, (dump_stats_clients_ok env _ _ _ _ h).1, hno5⟩
      rcases hfin with ⟨e5, he5, hcl5, hno5⟩
      refine ⟨sa, sb, e3 ++ ea, eb ++ e5, by rw [h1, hc3], h2,
        by rw [h3, he3, List.append_assoc], by rw [he5, h4, List.append_assoc], ?_, ?_,
        by rw [hcl5, h7]⟩
      · intro r hmem
        rcases List.mem_append.mp hmem with hm | hm
        · exact hno3 j r hm
        · exact h5 r hm
      · intro r hmem
        rcases List.mem_append.mp hmem with hm | hm
        · exact h6 r hm
        · exact hno5 j r hm

/-- C21, counterexample: an iteration at second 100 on the sample table, in
which `pselect` reports the control socket 14 of slot 1 readable. Slot 1 is
occupied and CONNECTED, its last keepalive was sent at second 0 and its
keepalive timeout is 60, so the keepalive branch is taken: the KEEPALIVE byte
is sent, and `handle_client_request` is not called for the slot in this
iteration. -/
theorem main_loop_iteration_readable_slot_not_dispatched_counterexample :
    sample_state.clients[1]? = some (sample_slot 2 7 11 13) ∧
    (sample_slot 2 7 11 13).is_init = true ∧
    (sample_slot 2 7 11 13).tunnel.status = iprohc_tunnel_status_t.IPROHC_TUNNEL_CONNECTED ∧
    (sample_env 100 (fun fd => decide (fd = 14)) 0 0).FD_ISSET
      (sample_slot 2 7 11 13).tcp_socket = true ∧
    main_loop_iteration sample_ctx (sample_env 100 (fun fd => decide (fd = 14)) 0 0)
        sample_state =
      outcome.ok
        { clients :=
            [free_slot,
             { sample_slot 2 7 11 13 with last_keepalive := { tv_sec := 100 } },
             { sample_slot 3 8 21 23 with last_keepalive := { tv_sec := 100 } }]
          clients_nr := 2
          events := [server_event.pselect, server_event.gnutls_record_send 1 [C_KEEPALIVE],
            server_event.gnutls_record_send 2 [C_KEEPALIVE]] } ∧
    ∀ r, server_event.handle_client_request 1 r ∉
      [server_event.pselect, server_event.gnutls_record_send 1 [C_KEEPALIVE],
        server_event.gnutls_record_send 2 [C_KEEPALIVE]] := by
  refine ⟨by decide, by decide, by decide, by decide, by decide, ?_⟩
  intro r h
  simp at h

/-- C21, amended: in an iteration of the main loop in which `pselect` does not
fail and the mutex calls return 0, for every slot that is occupied at the
start of the iteration, is in status CONNECTING or CONNECTED and has its
control socket reported readable, `handle_client_request` is called for the
slot in that iteration when no keepalive is due for it; when a keepalive is
due (status CONNECTED, and `last_keepalive.tv_sec` is -1 or more than
`keepalive_timeout / 3` seconds before `now`), the KEEPALIVE is sent and
`handle_client_request` is not called for the slot in that iteration. No
keepalive is ever due for a CONNECTING slot. -/
theorem main_loop_iteration_dispatches_unless_keepalive (ctx : server_ctx) (env : loop_env)
    (st : server_state) (j : Nat) (c : client)
    (hcal : callees_keep_is_init env)
    (hlen : st.clients.length = ctx.opts.clients_max_nr)
    (hcount : count_is_init st.clients = st.clients_nr)
    (hm : mutex_calls_succeed env) (hsel : env.pselect ≠ -1)
    (hc : st.clients[j]? = some c) (hinit : c.is_init = true)
    (hstatus : c.tunnel.status = iprohc_tunnel_status_t.IPROHC_TUNNEL_CONNECTING ∨
      c.tunnel.status = iprohc_tunnel_status_t.IPROHC_TUNNEL_CONNECTED)
    (hread : env.FD_ISSET c.tcp_socket = true) :
    ∃ st1 es, main_loop_iteration ctx env st = outcome.ok st1 ∧
      st1.events = st.events ++ es ∧
      (keepalive_due c.tunnel.status c env.now = false →
        server_event.handle_client_request j (env.handle_client_request j c).1 ∈ es) ∧
      (keepalive_due c.tunnel.status c env.now = true →
        server_event.gnutls_record_send j [C_KEEPALIVE] ∈ es ∧
        ∀ r, server_event.handle_client_request j r ∉ es) ∧
      (c.tunnel.status = iprohc_tunnel_status_t.IPROHC_TUNNEL_CONNECTING →
        keepalive_due c.tunnel.status c env.now = false) := by
  have hinv : loop_invariant ctx st := ⟨hlen, hcount⟩
  rcases main_loop_iteration_total ctx env st hcal hinv hm with ⟨st1, h⟩
  rcases main_loop_iteration_slot ctx env st st1 j c hinv hsel h hc hinit with
    ⟨sa, sb, ea, eb, h1, h2, h3, h4, h5, h6, _⟩
  rcases serve_client_ok_cases ctx env j sa sb c h1 h2 with ⟨d, es, _, hd2, hcases⟩
  have hnpd : c.tunnel.status ≠ iprohc_tunnel_status_t.IPROHC_TUNNEL_PENDING_DELETE := by
    rcases hstatus with hs | hs <;> rw [hs] <;> decide
  refine ⟨st1, ea ++ es ++ eb, h, by rw [h4, hd2, h3, List.append_assoc, List.append_assoc,
    List.append_assoc], ?_, ?_, ?_⟩
  · intro hk
    rcases hcases with ⟨hi, _⟩ | ⟨_, hdue, _⟩ | ⟨_, _, hp, _⟩ | ⟨_, _, hp, _⟩ |
      ⟨_, _, _, hr, _⟩ | ⟨_, _, _, _, es1, he, _, _⟩
    · rw [hinit] at hi; cases hi
    · rw [hk] at hdue; cases hdue
    · exact absurd hp hnpd
    · exact absurd hp hnpd
    · rw [hread] at hr; cases hr
    · rw [he]
      simp
  · intro hk
    rcases hcases with ⟨hi, _⟩ | ⟨_, _, _, he⟩ | ⟨_, hdue, _⟩ | ⟨_, hdue, _⟩ |
      ⟨_, hdue, _⟩ | ⟨_, hdue, _⟩
    · rw [hinit] at hi; cases hi
    · rw [he]
      refine ⟨by simp, ?_⟩
      intro r hmem
      rcases List.mem_append.mp hmem with hm1 | hm1
      · rcases List.mem_append.mp hm1 with hm2 | hm2
        · exact h5 r hm2
        · simp at hm2
      · exact h6 r hm1
    · rw [hk] at hdue; cases hdue
    · rw [hk] at hdue; cases hdue
    · rw [hk] at hdue; cases hdue
    · rw [hk] at hdue; cases hdue
  · intro hs
    simp [keepalive_due, hs]

/-- Witness for the amended C21: an iteration at second 10 on the sample
table with every descriptor readable; no keepalive is due for slot 1 (last
keepalive at second 0, timeout 60) and `handle_client_request` is called for
it. -/
theorem main_loop_iteration_dispatches_unless_keepalive_witness :
    ∃ st1 es, main_loop_iteration sample_ctx (sample_env 10 (fun _ => true) 0 0)
        sample_state = outcome.ok st1 ∧
      st1.events = sample_state.events ++ es ∧
      server_event.handle_client_request 1 0 ∈ es := by
  rcases main_loop_iteration_dispatches_unless_keepalive sample_ctx
    (sample_env 10 (fun _ => true) 0 0) sample_state 1 (sample_slot 2 7 11 13)
    (sample_env_callees 10 (fun _ => true) 0 0) rfl rfl
    (sample_env_mutex 10 (fun _ => true) 0 0) (by decide) rfl rfl (Or.inr rfl) rfl with
    ⟨st1, es, h1, h2, h3, _, _⟩
  exact ⟨st1, es, h1, h2, h3 (by decide)⟩

/-! ### The stores of the main loop into `tunnel.status` -/

theorem main_loop_iteration_pselect_failed (ctx : server_ctx) (env : loop_env)
    (st st1 : server_state) (hsel : env.pselect = -1)
    (h : main_loop_iteration ctx env st = outcome.ok st1) :
    st1.clients = st.clients ∧ st1.clients_nr = st.clients_nr := by
  unfold main_loop_iteration at h
  cases hfd : collect_fds env 0 ctx.opts.clients_max_nr st with
  | aborted s => rw [hfd] at h; exact absurd h (by simp)
  | undefined => rw [hfd] at h; exact absurd h (by simp)
  | ok s =>
    have hs := collect_fds_ok env _ _ _ _ hfd
    subst hs
    rw [hfd] at h
    simp only at h
    rw [if_pos hsel] at h
    simp only [outcome.ok.injEq] at h
    subst h
    exact ⟨rfl, rfl⟩

theorem serve_client_slot_status (ctx : server_ctx) (env : loop_env) (j : Nat)
    (sa sb : server_state) (a : client) (ha : sa.clients[j]? = some a)
    (h : serve_client ctx env j sa = outcome.ok sb) :
    ∃ d, sb.clients[j]? = some d ∧
      (connect_failed env j a →
        d.tunnel.status = iprohc_tunnel_status_t.IPROHC_TUNNEL_PENDING_DELETE) ∧
      (¬ connect_failed env j a →
        d.tunnel.status = a.tunnel.status ∨
        d.tunnel.status = (env.del_client j a).tunnel.status ∨
        d.tunnel.status = (env.handle_client_request j a).2.tunnel.status ∨
        d.tunnel.status =
          (env.stop_client_tunnel j (env.handle_client_request j a).2).tunnel.status) := by
  rcases serve_client_ok_cases ctx env j sa sb a ha h with ⟨d, es, hd1, _, hcases⟩
  have hja : j < sa.clients.length := (List.getElem?_eq_some_iff.mp ha).1
  refine ⟨d, by rw [hd1, List.getElem?_set_self hja], ?_, ?_⟩
  · rintro ⟨hinit, hcg, hread, hret⟩
    rcases hcases with ⟨hi, _⟩ | ⟨_, hdue, _⟩ | ⟨_, _, hp, _⟩ | ⟨_, _, hp, _⟩ |
      ⟨_, _, _, hr, _⟩ | ⟨_, _, _, _, es1, _, _, hdd⟩
    · rw [hinit] at hi; cases hi
    · simp [keepalive_due, hcg] at hdue
    · rw [hcg] at hp; cases hp
    · rw [hcg] at hp; cases hp
    · rw [hread] at hr; cases hr
    · rcases hdd with ⟨_, hcd, _⟩ | ⟨_, _, he⟩ | ⟨hpos, _⟩
      · rw [hcg] at hcd; cases hcd
      · rw [he]
      · omega
  · intro hnf
    rcases hcases with ⟨_, he, _⟩ | ⟨_, _, he, _⟩ | ⟨_, _, _, _, he, _⟩ |
      ⟨_, _, _, _, he, _⟩ | ⟨_, _, _, _, he, _⟩ | ⟨hinit, _, _, hread, es1, _, _, hdd⟩
    · rw [he]; exact Or.inl rfl
    · rw [he]; exact Or.inl rfl
    · rw [he]; exact Or.inl rfl
    · rw [he]; exact Or.inr (Or.inl rfl)
    · rw [he]; exact Or.inl rfl
    · rcases hdd with ⟨_, _, he⟩ | ⟨hret, hcg, _⟩ | ⟨_, he⟩
      · rw [he]; exact Or.inr (Or.inr (Or.inr rfl))
      · exact absurd ⟨hinit, hcg, hread, hret⟩ hnf
      · rw [he]; exact Or.inr (Or.inr (Or.inl rfl))

theorem main_loop_iteration_slot_status (ctx : server_ctx) (env : loop_env)
    (st st1 : server_state) (j : Nat) (c : client)
    (hinv : loop_invariant ctx st)
    (h : main_loop_iteration ctx env st = outcome.ok st1)
    (hc : st.clients[j]? = some c) (hinit : c.is_init = true) :
    ∃ c1, st1.clients[j]? = some c1 ∧
      (env.pselect ≠ -1 ∧ connect_failed env j c →
        c1.tunnel.status = iprohc_tunnel_status_t.IPROHC_TUNNEL_PENDING_DELETE) ∧
      (¬ (env.pselect ≠ -1 ∧ connect_failed env j c) →
        c1.tunnel.status = c.tunnel.status ∨
        c1.tunnel.status = (env.del_client j c).tunnel.status ∨
        c1.tunnel.status = (env.handle_client_request j c).2.tunnel.status ∨
        c1.tunnel.status =
          (env.stop_client_tunnel j (env.handle_client_request j c).2).tunnel.status) := by
  by_cases hsel : env.pselect = -1
  · rcases main_loop_iteration_pselect_failed ctx env st st1 hsel h with ⟨hcl, _⟩
    refine ⟨c, by rw [hcl]; exact hc, ?_, fun _ => Or.inl rfl⟩
    intro hf
    exact absurd hsel hf.1
  · rcases main_loop_iteration_slot ctx env st st1 j c hinv hsel h hc hinit with
      ⟨sa, sb, ea, eb, h1, h2, _, _, _, _, h7⟩
    rcases serve_client_slot_status ctx env j sa sb c h1 h2 with ⟨d, hd, hyes, hno⟩
    refine ⟨d, by rw [h7]; exact hd, fun hf => hyes hf.2, fun hnf => hno ?_⟩
    intro hf
    exact hnf ⟨hsel, hf⟩

/-- C22: the loop over the slots stores a status in a slot in one case only,
and the status stored is PENDING_DELETE: when the slot is occupied and in
status CONNECTING, its control socket is readable and `handle_client_request`
fails. In every other case the status after the pass over the slot is the one
the slot had or one a callee (`del_client`, `handle_client_request`,
`stop_client_tunnel`) returned. This holds for every pass of the loop body
over a slot, and for a whole iteration of the main loop (mutex calls returning
0) and a slot occupied at its start. Hence, as far as the callees leave the
status alone, a CONNECTED slot stays CONNECTED and a PENDING_DELETE slot stays
PENDING_DELETE through the iteration: the loop moves no slot from CONNECTED to
CONNECTING, nor from PENDING_DELETE back to CONNECTING or CONNECTED. -/
theorem main_loop_iteration_stores_only_pending_delete (ctx : server_ctx) (env : loop_env)
    (st : server_state) (j : Nat) (c : client)
    (hcal : callees_keep_is_init env)
    (hlen : st.clients.length = ctx.opts.clients_max_nr)
    (hcount : count_is_init st.clients = st.clients_nr)
    (hm : mutex_calls_succeed env)
    (hc : st.clients[j]? = some c) (hinit : c.is_init = true) :
    (∀ (k : Nat) (sa sb : server_state) (a : client), sa.clients[k]? = some a →
      serve_client ctx env k sa = outcome.ok sb →
      ∃ d, sb.clients[k]? = some d ∧
        (connect_failed env k a →
          d.tunnel.status = iprohc_tunnel_status_t.IPROHC_TUNNEL_PENDING_DELETE) ∧
        (¬ connect_failed env k a →
          d.tunnel.status = a.tunnel.status ∨
          d.tunnel.status = (env.del_client k a).tunnel.status ∨
          d.tunnel.status = (env.handle_client_request k a).2.tunnel.status ∨
          d.tunnel.status =
            (env.stop_client_tunnel k (env.handle_client_request k a).2).tunnel.status)) ∧
    ∃ st1 c1, main_loop_iteration ctx env st = outcome.ok st1 ∧
      st1.clients[j]? = some c1 ∧
      (env.pselect ≠ -1 ∧ connect_failed env j c →
        c1.tunnel.status = iprohc_tunnel_status_t.IPROHC_TUNNEL_PENDING_DELETE) ∧
      (¬ (env.pselect ≠ -1 ∧ connect_failed env j c) →
        c1.tunnel.status = c.tunnel.status ∨
        c1.tunnel.status = (env.del_client j c).tunnel.status ∨
        c1.tunnel.status = (env.handle_client_request j c).2.tunnel.status ∨
        c1.tunnel.status =
          (env.stop_client_tunnel j (env.handle_client_request j c).2).tunnel.status) ∧
      (callees_keep_status env →
        (¬ (env.pselect ≠ -1 ∧ connect_failed env j c) →
          c1.tunnel.status = c.tunnel.status) ∧
        (c.tunnel.status = iprohc_tunnel_status_t.IPROHC_TUNNEL_CONNECTED →
          c1.tunnel.status = iprohc_tunnel_status_t.IPROHC_TUNNEL_CONNECTED) ∧
        (c.tunnel.status = iprohc_tunnel_status_t.IPROHC_TUNNEL_PENDING_DELETE →
          c1.tunnel.status = iprohc_tunnel_status_t.IPROHC_TUNNEL_PENDING_DELETE)) := by
  refine ⟨fun k sa sb a ha h => serve_client_slot_status ctx env k sa sb a ha h, ?_⟩
  have hinv : loop_invariant ctx st := ⟨hlen, hcount⟩
  rcases main_loop_iteration_total ctx env st hcal hinv hm with ⟨st1, h⟩
  rcases main_loop_iteration_slot_status ctx env st st1 j c hinv h hc hinit with
    ⟨c1, h1, h2, h3⟩
  refine ⟨st1, c1, h, h1, h2, h3, ?_⟩
  rintro ⟨kreq, kstop, kdel⟩
  have hkeep : ¬ (env.pselect ≠ -1 ∧ connect_failed env j c) →
      c1.tunnel.status = c.tunnel.status := by
    intro hnf
    rcases h3 hnf with he | he | he | he
    · exact he
    · rw [he, kdel]
    · rw [he, kreq]
    · rw [he, kstop, kreq]
  refine ⟨hkeep, ?_, ?_⟩
  · intro hs
    have hnf : ¬ (env.pselect ≠ -1 ∧ connect_failed env j c) := by
      rintro ⟨_, _, hcg, _⟩
      rw [hs] at hcg
      cases hcg
    rw [hkeep hnf, hs]
  · intro hs
    have hnf : ¬ (env.pselect ≠ -1 ∧ connect_failed env j c) := by
      rintro ⟨_, _, hcg, _⟩
      rw [hs] at hcg
      cases hcg
    rw [hkeep hnf, hs]

/-- Witness for C22: slot 1 is in status CONNECTING, its socket is readable
and `handle_client_request` returns -1; the iteration leaves the slot in
status PENDING_DELETE. -/
theorem main_loop_iteration_stores_only_pending_delete_witness :
    ∃ st1 c1, main_loop_iteration sample_ctx (sample_env 100 (fun _ => true) 0 (-1))
        { clients := [free_slot, connecting_slot, sample_slot 3 8 21 23]
          clients_nr := 2, events := [] } = outcome.ok st1 ∧
      st1.clients[1]? = some c1 ∧
      c1.tunnel.status = iprohc_tunnel_status_t.IPROHC_TUNNEL_PENDING_DELETE := by
  rcases (main_loop_iteration_stores_only_pending_delete sample_ctx
    (sample_env 100 (fun _ => true) 0 (-1))
    { clients := [free_slot, connecting_slot, sample_slot 3 8 21 23]
      clients_nr := 2, events := [] } 1 connecting_slot
    (sample_env_callees 100 (fun _ => true) 0 (-1)) rfl rfl
    (sample_env_mutex 100 (fun _ => true) 0 (-1)) rfl rfl).2 with
    ⟨st1, c1, h1, h2, h3, _, _⟩
  exact ⟨st1, c1, h1, h2, h3 ⟨by decide, rfl, rfl, rfl, by decide⟩⟩

/-! ### The assertions on `clients_nr` -/

theorem count_is_init_drop (l : List client) (j : Nat) (c : client)
    (hc : l[j]? = some c) :
    count_is_init (l.drop j) =
      (if c.is_init then 1 else 0) + count_is_init (l.drop (j + 1)) := by
  rcases List.getElem?_eq_some_iff.mp hc with ⟨hj, he⟩
  rw [List.drop_eq_getElem_cons hj, he]
  unfold count_is_init
  rw [List.countP_cons]
  exact Nat.add_comm _ _

theorem counter_step_keep (l : List client) (j : Nat) (c d : client) (nr : Nat)
    (hc : l[j]? = some c) (h : count_is_init (l.drop j) ≤ nr) :
    count_is_init ((l.set j d).drop (j + 1)) ≤ nr ∧
      count_is_init (l.drop (j + 1)) ≤ nr := by
  rw [List.drop_set_of_lt d l (show j < j + 1 by omega)]
  have hd := count_is_init_drop l j c hc
  constructor <;> omega

theorem counter_step_reap (l : List client) (j : Nat) (c d : client) (nr : Nat)
    (hc : l[j]? = some c) (hinit : c.is_init = true)
    (h : count_is_init (l.drop j) ≤ nr) :
    0 < nr ∧ count_is_init ((l.set j d).drop (j + 1)) ≤ nr - 1 := by
  rw [List.drop_set_of_lt d l (show j < j + 1 by omega)]
  have hd := count_is_init_drop l j c hc
  rw [hinit] at hd
  simp only [if_true] at hd
  constructor <;> omega

theorem reap_client_decrements (ctx : server_ctx) (env : loop_env) (j : Nat) (c : client)
    (st : server_state) (htry : env.pthread_mutex_trylock j = 0)
    (hlock : env.pthread_mutex_lock 195 j = 0) (hunlock : env.pthread_mutex_unlock 255 j = 0)
    (hpos : 0 < st.clients_nr) (hmax : st.clients_nr ≤ ctx.opts.clients_max_nr) :
    reap_client ctx env j c st = outcome.ok
      { clients := st.clients.set j (env.del_client j c)
        clients_nr := st.clients_nr - 1
        events := st.events ++ [server_event.dump_stats_client j, server_event.gnutls_bye j,
          server_event.del_client j] } := by
  have h1 : st.clients_nr > 0 := hpos
  have h3 : st.clients_nr - 1 < ctx.opts.clients_max_nr := by omega
  simp [reap_client, htry, dump_stats_client, hlock, hunlock, server_state.emit,
    server_state.set_client, h1, hmax, h3]

theorem serve_client_counter (ctx : server_ctx) (env : loop_env) (j : Nat)
    (st : server_state) (hm : mutex_calls_succeed env)
    (hlen : st.clients.length = ctx.opts.clients_max_nr)
    (hj : j < ctx.opts.clients_max_nr)
    (hcnt : count_is_init (st.clients.drop j) ≤ st.clients_nr)
    (hmax : st.clients_nr ≤ ctx.opts.clients_max_nr) :
    ∃ st1, serve_client ctx env j st = outcome.ok st1 ∧
      st1.clients.length = ctx.opts.clients_max_nr ∧
      count_is_init (st1.clients.drop (j + 1)) ≤ st1.clients_nr ∧
      st1.clients_nr ≤ ctx.opts.clients_max_nr := by
  have hlt : j < st.clients.length := by rw [hlen]; exact hj
  have hget : st.clients[j]? = some st.clients[j] := List.getElem?_eq_getElem hlt
  have hkeep := fun d => counter_step_keep st.clients j st.clients[j] d st.clients_nr hget hcnt
  unfold serve_client
  rw [hget]
  simp only [(hm 842 j).1, (hm 850 j).2, (hm 868 j).1, (hm 876 j).2, ne_eq,
    not_true_eq_false, if_false]
  by_cases hinit : st.clients[j].is_init = true
  swap
  · rw [if_pos hinit]
    exact ⟨st, rfl, hlen, (hkeep st.clients[j]).2, hmax⟩
  rw [if_neg (not_not.mpr hinit)]
  cases hk : keepalive_due st.clients[j].tunnel.status st.clients[j] env.now
  · simp only [Bool.false_eq_true, if_false]
    by_cases hp : st.clients[j].tunnel.status =
        iprohc_tunnel_status_t.IPROHC_TUNNEL_PENDING_DELETE
    · rw [if_pos hp]
      by_cases htry : env.pthread_mutex_trylock j = 0
      · have hr := counter_step_reap st.clients j st.clients[j]
          (env.del_client j st.clients[j]) st.clients_nr hget hinit hcnt
        rw [reap_client_decrements ctx env j _ st htry (hm 195 j).1 (hm 255 j).2 hr.1 hmax]
        exact ⟨_, rfl, by simpa using hlen, hr.2, by simp only; omega⟩
      · rw [reap_client_busy ctx env j _ st htry]
        exact ⟨st, rfl, hlen, (hkeep st.clients[j]).2, hmax⟩
    · rw [if_neg hp]
      cases hr : env.FD_ISSET st.clients[j].tcp_socket
      · simp only [Bool.false_eq_true, if_false]
        exact ⟨st, rfl, hlen, (hkeep st.clients[j]).2, hmax⟩
      · simp only [if_true]
        rcases handle_client_total env hm j st.clients[j] st.clients[j].tunnel.status st with
          ⟨s1, hs1⟩
        rcases handle_client_ok_cases env j _ _ st s1 hs1 with ⟨d, es, h1, h2, _⟩
        refine ⟨s1, hs1, ?_, ?_, ?_⟩
        · rw [h1]
          simpa using hlen
        · rw [h1, h2]
          exact (hkeep d).1
        · rw [h2]
          exact hmax
  · simp only [if_true]
    refine ⟨_, rfl, ?_, ?_, hmax⟩
    · simpa [server_state.emit, server_state.set_client] using hlen
    · simp only [server_state.emit, server_state.set_client]
      exact (hkeep _).1

theorem serve_clients_counter (ctx : server_ctx) (env : loop_env)
    (hm : mutex_calls_succeed env) :
    ∀ (fuel j : Nat) (st : server_state),
      st.clients.length = ctx.opts.clients_max_nr →
      j + fuel ≤ ctx.opts.clients_max_nr →
      count_is_init (st.clients.drop j) ≤ st.clients_nr →
      st.clients_nr ≤ ctx.opts.clients_max_nr →
      ∃ st1, serve_clients ctx env j fuel st = outcome.ok st1 ∧
        st1.clients.length = ctx.opts.clients_max_nr ∧
        st1.clients_nr ≤ ctx.opts.clients_max_nr := by
  intro fuel
  induction fuel with
  | zero => intro j st hlen _ _ hmax; exact ⟨st, rfl, hlen, hmax⟩
  | succ n ih =>
    intro j st hlen hb hcnt hmax
    rcases serve_client_counter ctx env j st hm hlen (by omega) hcnt hmax with
      ⟨s, hs, h1, h2, h3⟩
    rw [serve_clients, hs]
    exact ih (j + 1) s h1 (by omega) h2 h3

theorem accept_client_counter (ctx : server_ctx) (env : loop_env) (st : server_state)
    (hinv : loop_invariant ctx st) (hnew : new_client_failure_leaves_free env) :
    ∃ st1, accept_client ctx env st = outcome.ok st1 ∧
      st1.clients.length = ctx.opts.clients_max_nr ∧
      count_is_init st1.clients ≤ st1.clients_nr ∧
      st1.clients_nr ≤ ctx.opts.clients_max_nr := by
  have hle := count_is_init_le st.clients
  by_cases hcap : st.clients_nr ≥ ctx.opts.clients_max_nr
  · refine ⟨_, accept_client_full ctx env st hcap, hinv.1, ?_, ?_⟩
    · simp only
      rw [hinv.2]
    · simp only
      rw [← hinv.2, ← hinv.1]
      exact hle
  · rcases accept_client_below ctx env st hinv (by omega) with ⟨i, c, _, hc, hfree, _, heq⟩
    refine ⟨_, heq, by simpa using hinv.1, ?_, ?_⟩
    · have hs := count_is_init_set st.clients i c (env.new_client i c).2 hc
      simp only [hfree, Bool.false_eq_true, if_false, Nat.add_zero] at hs
      simp only
      by_cases hret : 0 ≤ (env.new_client i c).1
      · rw [if_pos hret, hs, hinv.2]
        split_ifs <;> omega
      · rw [if_neg hret, hs, hnew i c hfree (by omega), hinv.2]
        simp
    · simp only
      split_ifs <;> omega

theorem serve_client_clients_nr_le (ctx : server_ctx) (env : loop_env) (j : Nat)
    (st st1 : server_state) (h : serve_client ctx env j st = outcome.ok st1) :
    st1.clients_nr ≤ st.clients_nr := by
  unfold serve_client at h
  cases hc : st.clients[j]? with
  | none => rw [hc] at h; exact absurd h (by simp)
  | some c =>
    rw [hc] at h
    simp only at h
    by_cases hinit : c.is_init = true
    swap
    · rw [if_pos hinit] at h
      simp only [outcome.ok.injEq] at h
      subst h
      exact Nat.le_refl _
    rw [if_neg (not_not.mpr hinit)] at h
    by_cases hl1 : env.pthread_mutex_lock 842 j = 0
    swap
    · rw [if_pos hl1] at h; exact absurd h (by simp)
    rw [if_neg (by simp [hl1])] at h
    by_cases hu1 : env.pthread_mutex_unlock 850 j = 0
    swap
    · simp only [if_pos hu1] at h; exact absurd h (by simp)
    simp only [if_neg (not_not.mpr hu1)] at h
    cases hk : keepalive_due c.tunnel.status c env.now
    · simp only [hk, Bool.false_eq_true, if_false] at h
      by_cases hp : c.tunnel.status = iprohc_tunnel_status_t.IPROHC_TUNNEL_PENDING_DELETE
      · rw [if_pos hp] at h
        rcases reap_client_ok_cases ctx env j c st st1 h with ⟨_, he⟩ | ⟨_, _, h2, _⟩
        · rw [he]
        · rw [h2]
          omega
      · rw [if_neg hp] at h
        cases hr : env.FD_ISSET c.tcp_socket
        · simp only [hr, Bool.false_eq_true, if_false, outcome.ok.injEq] at h
          subst h
          exact Nat.le_refl _
        · simp only [hr, if_true] at h
          rcases handle_client_ok_cases env j c _ st st1 h with ⟨d, es, _, h2, _⟩
          rw [h2]
    · simp only [hk, if_true] at h
      split_ifs at h
      simp only [outcome.ok.injEq, server_state.emit, server_state.set_client] at h
      subst h
      exact Nat.le_refl _

theorem serve_clients_clients_nr_le (ctx : server_ctx) (env : loop_env) :
    ∀ (fuel j : Nat) (st st1 : server_state),
      serve_clients ctx env j fuel st = outcome.ok st1 →
      st1.clients_nr ≤ st.clients_nr := by
  intro fuel
  induction fuel with
  | zero =>
    intro j st st1 h
    simp only [serve_clients, outcome.ok.injEq] at h
    subst h
    exact Nat.le_refl _
  | succ n ih =>
    intro j st st1 h
    rw [serve_clients] at h
    cases hs : serve_client ctx env j st with
    | ok s =>
      rw [hs] at h
      exact Nat.le_trans (ih (j + 1) s st1 h) (serve_client_clients_nr_le ctx env j st s hs)
    | aborted s => rw [hs] at h; exact absurd h (by simp)
    | undefined => rw [hs] at h; exact absurd h (by simp)

theorem accept_client_clients_nr_le (ctx : server_ctx) (env : loop_env)
    (st st1 : server_state) (hmax : st.clients_nr ≤ ctx.opts.clients_max_nr)
    (h : accept_client ctx env st = outcome.ok st1) :
    st1.clients_nr ≤ ctx.opts.clients_max_nr := by
  unfold accept_client at h
  by_cases hcap : st.clients_nr ≥ ctx.opts.clients_max_nr
  · rw [if_pos hcap] at h
    simp only [server_state.emit] at h
    split_ifs at h <;> simp only [outcome.ok.injEq] at h <;> subst h <;> exact hmax
  · rw [if_neg hcap] at h
    cases hf : find_free_slot st.clients 0 ctx.opts.clients_max_nr with
    | none => rw [hf] at h; exact absurd h (by simp)
    | some client_id =>
      rw [hf] at h
      simp only at h
      by_cases hid : client_id < ctx.opts.clients_max_nr
      swap
      · rw [if_pos hid] at h; exact absurd h (by simp)
      rw [if_neg (not_not.mpr hid)] at h
      cases hc : st.clients[client_id]? with
      | none => rw [hc] at h; exact absurd h (by simp)
      | some c =>
        rw [hc] at h
        simp only [server_state.emit, server_state.set_client] at h
        split_ifs at h <;> simp only [outcome.ok.injEq] at h <;> subst h <;> simp only <;> omega

theorem main_loop_iteration_clients_nr_le (ctx : server_ctx) (env : loop_env)
    (st st1 : server_state) (hmax : st.clients_nr ≤ ctx.opts.clients_max_nr)
    (h : main_loop_iteration ctx env st = outcome.ok st1) :
    st1.clients_nr ≤ ctx.opts.clients_max_nr := by
  unfold main_loop_iteration at h
  cases hfd : collect_fds env 0 ctx.opts.clients_max_nr st with
  | aborted s => rw [hfd] at h; exact absurd h (by simp)
  | undefined => rw [hfd] at h; exact absurd h (by simp)
  | ok s =>
    have hs := collect_fds_ok env _ _ _ _ hfd
    subst hs
    rw [hfd] at h
    simp only at h
    by_cases hsel : env.pselect = -1
    · rw [if_pos hsel] at h
      simp only [outcome.ok.injEq] at h
      subst h
      exact hmax
    · rw [if_neg hsel] at h
      cases hacc : (if env.FD_ISSET ctx.serv_socket = true then
          accept_client ctx env (s.emit [server_event.pselect])
        else outcome.ok (s.emit [server_event.pselect])) with
      | aborted s3 => rw [hacc] at h; exact absurd h (by simp)
      | undefined => rw [hacc] at h; exact absurd h (by simp)
      | ok s3 =>
        rw [hacc] at h
        simp only at h
        have h3 : s3.clients_nr ≤ ctx.opts.clients_max_nr := by
          by_cases hr : env.FD_ISSET ctx.serv_socket = true
          · rw [if_pos hr] at hacc
            exact accept_client_clients_nr_le ctx env (s.emit [server_event.pselect]) s3 hmax hacc
          · rw [if_neg hr] at hacc
            simp only [outcome.ok.injEq] at hacc
            subst hacc
            exact hmax
        cases hsv : serve_clients ctx env 0 ctx.opts.clients_max_nr s3 with
        | aborted s4 => rw [hsv] at h; exact absurd h (by simp)
        | undefined => rw [hsv] at h; exact absurd h (by simp)
        | ok s4 =>
          rw [hsv] at h
          simp only at h
          have h4 := serve_clients_clients_nr_le ctx env _ _ _ _ hsv
          cases hdump : env.clients_do_dump_stats
          · simp only [hdump, Bool.false_eq_true, if_false, outcome.ok.injEq] at h
            subst h
            omega
          · simp only [hdump, if_true] at h
            rw [(dump_stats_clients_ok env _ _ _ _ h).2]
            omega

theorem main_loop_iteration_counter_total (ctx : server_ctx) (env : loop_env)
    (st : server_state) (hinv : loop_invariant ctx st)
    (hnew : new_client_failure_leaves_free env) (hm : mutex_calls_succeed env) :
    ∃ st1, main_loop_iteration ctx env st = outcome.ok st1 := by
  have hle := count_is_init_le st.clients
  have hmax : st.clients_nr ≤ ctx.opts.clients_max_nr := by
    rw [← hinv.2, ← hinv.1]
    exact hle
  unfold main_loop_iteration
  rw [collect_fds_total env hm ctx.opts.clients_max_nr 0 st (by rw [hinv.1]; omega)]
  simp only
  by_cases hsel : env.pselect = -1
  · rw [if_pos hsel]; exact ⟨_, rfl⟩
  · rw [if_neg hsel]
    have hinv2 : loop_invariant ctx (st.emit [server_event.pselect]) := hinv
    have hacc : ∃ s3, (if env.FD_ISSET ctx.serv_socket = true then
          accept_client ctx env (st.emit [server_event.pselect])
        else outcome.ok (st.emit [server_event.pselect])) = outcome.ok s3 ∧
        s3.clients.length = ctx.opts.clients_max_nr ∧
        count_is_init s3.clients ≤ s3.clients_nr ∧
        s3.clients_nr ≤ ctx.opts.clients_max_nr := by
      cases hr : env.FD_ISSET ctx.serv_socket
      · refine ⟨st.emit [server_event.pselect], by simp, hinv.1, ?_, hmax⟩
        exact le_of_eq hinv.2
      · simpa using accept_client_counter ctx env _ hinv2 hnew
    rcases hacc with ⟨s3, hs3, hl3, hc3, hm3⟩
    rw [hs3]
    simp only
    rcases serve_clients_counter ctx env hm ctx.opts.clients_max_nr 0 s3 hl3 (by omega)
      (by simpa using hc3) hm3 with ⟨s4, hs4, hl4, _⟩
    rw [hs4]
    simp only
    cases hdump : env.clients_do_dump_stats
    · simp only [Bool.false_eq_true, if_false]; exact ⟨_, rfl⟩
    · simp only [if_true]
      exact dump_stats_clients_total env hm ctx.opts.clients_max_nr 0 s4
        (by rw [hl4]; omega)

/-- C23, counterexample: a table of three free slots with `clients_nr` = 0, so
`count(is_init) == clients_nr <= clients_max_nr`, and every mutex call returns
0. The listening socket is readable and `new_client` returns -1 after marking
slot 0 occupied: `clients_nr` is not incremented. The pass over slot 0 finds it
occupied and PENDING_DELETE, deletes it and fails the assertion
`clients_nr > 0` of line 896. -/
theorem main_loop_iteration_counter_assertion_fails_counterexample :
    count_is_init [free_slot, free_slot, free_slot] = 0 ∧
    (0 : Nat) ≤ sample_ctx.opts.clients_max_nr ∧
    [free_slot, free_slot, free_slot].length = sample_ctx.opts.clients_max_nr ∧
    mutex_calls_succeed (sample_env_new_client_fails true) ∧
    main_loop_iteration sample_ctx (sample_env_new_client_fails true)
        { clients := [free_slot, free_slot, free_slot], clients_nr := 0, events := [] } =
      outcome.aborted
        { clients := [free_slot, free_slot, free_slot]
          clients_nr := 0
          events := [server_event.pselect, server_event.new_client 0 (-1),
            server_event.trace_err 820, server_event.dump_stats_client 0,
            server_event.gnutls_bye 0, server_event.del_client 0] } := by
  refine ⟨by decide, by decide, by decide, fun _ _ => ⟨rfl, rfl⟩, by decide⟩

/-- C23, amended: if an iteration of the main loop starts with
`count(is_init) == clients_nr` on a table of `clients_max_nr` slots (so with
`clients_nr <= clients_max_nr`), and `new_client` leaves the slot free whenever
it returns a negative value, then none of the assertions on the counter fails
in it: the accept step, which holds the increment and its assertions, never
aborts; the iteration aborts only if a mutex call fails, and with mutex calls
that return 0 it runs to its end, through every decrement and its assertions;
and whenever it runs to its end `clients_nr <= clients_max_nr` holds again.
The pass over a slot fails no assertion whenever the occupied slots from that
index on are at most `clients_nr <= clients_max_nr`, and it leaves the same
bound for the next index: this is what the accept step establishes. -/
theorem main_loop_iteration_counter_assertions_hold (ctx : server_ctx) (env : loop_env)
    (st : server_state) (hnew : new_client_failure_leaves_free env)
    (hlen : st.clients.length = ctx.opts.clients_max_nr)
    (hcount : count_is_init st.clients = st.clients_nr) :
    st.clients_nr ≤ ctx.opts.clients_max_nr ∧
    (∃ st2, accept_client ctx env (st.emit [server_event.pselect]) = outcome.ok st2 ∧
      st2.clients_nr ≤ ctx.opts.clients_max_nr) ∧
    (∀ (s : server_state) (j : Nat), mutex_calls_succeed env →
      s.clients.length = ctx.opts.clients_max_nr → j < ctx.opts.clients_max_nr →
      count_is_init (s.clients.drop j) ≤ s.clients_nr →
      s.clients_nr ≤ ctx.opts.clients_max_nr →
      ∃ s1, serve_client ctx env j s = outcome.ok s1 ∧
        count_is_init (s1.clients.drop (j + 1)) ≤ s1.clients_nr ∧
        s1.clients_nr ≤ ctx.opts.clients_max_nr) ∧
    (∀ s, main_loop_iteration ctx env st = outcome.aborted s → ¬ mutex_calls_succeed env) ∧
    (mutex_calls_succeed env →
      ∃ st1, main_loop_iteration ctx env st = outcome.ok st1 ∧
        st1.clients_nr ≤ ctx.opts.clients_max_nr) ∧
    (∀ st1, main_loop_iteration ctx env st = outcome.ok st1 →
      st1.clients_nr ≤ ctx.opts.clients_max_nr) := by
  have hinv : loop_invariant ctx st := ⟨hlen, hcount⟩
  have hmax : st.clients_nr ≤ ctx.opts.clients_max_nr := by
    have hle := count_is_init_le st.clients
    rw [hlen, hcount] at hle
    exact hle
  refine ⟨hmax, ?_, ?_, ?_, ?_, ?_⟩
  · have hinv2 : loop_invariant ctx (st.emit [server_event.pselect]) := hinv
    rcases accept_client_counter ctx env _ hinv2 hnew with ⟨st2, h2, _, _, h5⟩
    exact ⟨st2, h2, h5⟩
  · intro s j hm hl hj hc hb
    rcases serve_client_counter ctx env j s hm hl hj hc hb with ⟨s1, h1, _, h3, h4⟩
    exact ⟨s1, h1, h3, h4⟩
  · intro s hs hm
    rcases main_loop_iteration_counter_total ctx env st hinv hnew hm with ⟨st1, h⟩
    rw [h] at hs
    cases hs
  · intro hm
    rcases main_loop_iteration_counter_total ctx env st hinv hnew hm with ⟨st1, h⟩
    exact ⟨st1, h, main_loop_iteration_clients_nr_le ctx env st st1 hmax h⟩
  · intro st1 h
    exact main_loop_iteration_clients_nr_le ctx env st st1 hmax h

/-- Witness for the amended C23: an iteration on a table of three slots, two
of them occupied, in which `new_client` fails and leaves the free slot 2 free,
and the PENDING_DELETE slot 0 is reaped (decrement); it runs to its end with
`clients_nr` at most 3. -/
theorem main_loop_iteration_counter_assertions_hold_witness :
    ∃ st1, main_loop_iteration sample_ctx (sample_env_new_client_fails false)
        { clients := [pending_slot, sample_slot 3 8 21 23, free_slot]
          clients_nr := 2, events := [] } = outcome.ok st1 ∧
      st1.clients_nr ≤ 3 :=
  (main_loop_iteration_counter_assertions_hold sample_ctx (sample_env_new_client_fails false)
    { clients := [pending_slot, sample_slot 3 8 21 23, free_slot]
      clients_nr := 2, events := [] }
    (fun _ _ _ _ => rfl) rfl rfl).2.2.2.2.1 (fun _ _ => ⟨rfl, rfl⟩)

end Iprohc
